import Mathlib

/-!
# Field mapping layer of the UniFi Terraform provider

A shallow embedding of the encode/decode functions of
`internal/provider/resource_device.go` and
`internal/provider/resource_vpn_server.go`, together with the properties
the specification states about them.

Conventions of the embedding:

* a Go `interface{}` holding a schema scalar is a `Scalar`; a
  `map[string]interface{}` is a `Block` (association list, first binding of a
  key wins); an element of a `[]interface{}` is an `Item`;
* a Go function returning `(T, error)` returns `Except Failure T`, where
  `Failure.error msg` is a returned `error` with text `msg` and
  `Failure.panic` is a run-time panic (failed type assertion, index out of
  range);
* Go `int` is 64 bits wide: an `Int` together with `IsInt64` where the range
  matters (`strconv.Atoi` rejects what does not fit).
-/

namespace Unifi

/-! ## Values, blocks and failures -/

/-- A scalar held in a Go `interface{}` by the configuration schema. -/
inductive Scalar where
  | str (s : String)
  | int (n : Int)
  | bool (b : Bool)
  deriving DecidableEq, Repr

/-- A Go `map[string]interface{}`: one nested configuration block. -/
abbrev Block := List (String × Scalar)

/-- An element of a Go `[]interface{}`: a block, or anything else. -/
inductive Item where
  | block (b : Block)
  | other (v : Scalar)
  deriving DecidableEq, Repr

/-- How a Go call can fail: a returned `error`, or a panic. -/
inductive Failure where
  | error (msg : String)
  | panic
  deriving DecidableEq, Repr

deriving instance DecidableEq for Except

/-- Go `m[k]` with the comma-ok form: the value bound to `k`, if any. -/
def Block.get (m : Block) (k : String) : Option Scalar :=
  match m with
  | [] => none
  | (k1, v) :: rest => if k1 = k then some v else Block.get rest k

/-- Go `m[k] = v`. -/
def Block.set (m : Block) (k : String) (v : Scalar) : Block :=
  match m with
  | [] => [(k, v)]
  | (k1, v1) :: rest => if k1 = k then (k, v) :: rest else (k1, v1) :: Block.set rest k v

/-- Go `x.(string)` on the result of a map index: panics unless a string. -/
def asString : Option Scalar → Except Failure String
  | some (Scalar.str s) => Except.ok s
  | _ => Except.error Failure.panic

/-- Go `x.(int)` on the result of a map index: panics unless an int. -/
def asInt : Option Scalar → Except Failure Int
  | some (Scalar.int n) => Except.ok n
  | _ => Except.error Failure.panic

/-- Go `x.(bool)` on the result of a map index: panics unless a bool. -/
def asBool : Option Scalar → Except Failure Bool
  | some (Scalar.bool b) => Except.ok b
  | _ => Except.error Failure.panic

/-- The range of a 64-bit Go `int`. -/
def IsInt64 (n : Int) : Prop := -9223372036854775808 ≤ n ∧ n ≤ 9223372036854775807

instance (n : Int) : Decidable (IsInt64 n) := by
  unfold IsInt64; exact inferInstance

/-! ## `strconv.Atoi` and `strconv.Itoa` (Go standard library) -/

/-- The two errors of `strconv`: `ErrSyntax` and `ErrRange`. -/
inductive NumError where
  | ErrSyntax
  | ErrRange
  deriving DecidableEq, Repr

/-- The value of an ASCII decimal digit (`ch -= 48; if ch > 9 ...` in Go). -/
def digitOf (c : Char) : Option Nat :=
  if 48 ≤ c.toNat ∧ c.toNat ≤ 57 then some (c.toNat - 48) else none

/-- The digit loop of `strconv.ParseUint(s, 10, 64)`: a character that is no
digit is a syntax error; leaving the `uint64` range is a range error,
reported as soon as it happens. -/
def parseUintLoop : List Char → Nat → Except NumError Nat
  | [], n => Except.ok n
  | c :: cs, n =>
    match digitOf c with
    | none => Except.error NumError.ErrSyntax
    | some d =>
      if 1844674407370955162 ≤ n then Except.error NumError.ErrRange
      else if 18446744073709551615 < n * 10 + d then Except.error NumError.ErrRange
      else parseUintLoop cs (n * 10 + d)

/-- Go `strconv.Atoi` on a 64-bit platform, with both return values: an
optional sign, then at least one decimal digit. On a syntax error the value
is 0; on a range error it is the nearest bound of `int`. -/
def Atoi (s : String) : Int × Option NumError :=
  match s.data with
  | [] => (0, some NumError.ErrSyntax)
  | c :: cs =>
    let neg : Bool := decide (c = '-')
    let digits : List Char := if c = '-' ∨ c = '+' then cs else c :: cs
    match digits with
    | [] => (0, some NumError.ErrSyntax)
    | _ :: _ =>
      match parseUintLoop digits 0 with
      | Except.error NumError.ErrSyntax => (0, some NumError.ErrSyntax)
      | Except.error NumError.ErrRange =>
        (if neg then -9223372036854775808 else 9223372036854775807, some NumError.ErrRange)
      | Except.ok un =>
        if neg = false ∧ 9223372036854775808 ≤ un then
          (9223372036854775807, some NumError.ErrRange)
        else if neg = true ∧ 9223372036854775808 < un then
          (-9223372036854775808, some NumError.ErrRange)
        else (if neg then -(un : Int) else (un : Int), none)

/-- The ASCII character of a decimal digit. -/
def digitChar (d : Nat) : Char := Char.ofNat (48 + d)

/-- Decimal digits of a natural number, most significant first, prepended
to `acc`; `fuel` bounds the number of digits. -/
def natDigitsAux : Nat → Nat → List Char → List Char
  | 0, _, acc => acc
  | fuel + 1, n, acc =>
    if n < 10 then digitChar n :: acc
    else natDigitsAux fuel (n / 10) (digitChar (n % 10) :: acc)

/-- Decimal digits of a natural number, most significant first. -/
def natDigits (n : Nat) : List Char := natDigitsAux (n + 1) n []

/-- Go `strconv.Itoa`: the canonical decimal string of an integer. -/
def Itoa (n : Int) : String :=
  match n with
  | Int.ofNat m => String.mk (natDigits m)
  | Int.negSucc m => String.mk ('-' :: natDigits (m + 1))

/-! ## Well-formed blocks

The schema of a nested block fixes the Go type held under each attribute
name; a block that breaks it makes the unchecked type assertions panic. -/

/-- The key holds a string. -/
def isStrAt (m : Block) (k : String) : Bool :=
  match m.get k with
  | some (Scalar.str _) => true
  | _ => false

/-- The key holds a Go `int`. -/
def isIntAt (m : Block) (k : String) : Bool :=
  match m.get k with
  | some (Scalar.int n) => decide (IsInt64 n)
  | _ => false

/-- The key holds a bool. -/
def isBoolAt (m : Block) (k : String) : Bool :=
  match m.get k with
  | some (Scalar.bool _) => true
  | _ => false

/-- The key is absent or holds a string. -/
def isOptStrAt (m : Block) (k : String) : Bool :=
  match m.get k with
  | none => true
  | some (Scalar.str _) => true
  | _ => false

/-- A block of schema `resourceDeviceRadioTable`. -/
def wellFormedRadio (cfg : Block) : Bool :=
  isStrAt cfg "channel" && isIntAt cfg "channel_width" && isStrAt cfg "transmit_power"

/-- A block of schema `resourceDevicePortOverride`; `toPortOverride` reads
`duplex` and `link_speed` with the comma-ok form, so they may be absent. -/
def wellFormedPortOverride (data : Block) : Bool :=
  isIntAt data "number" && isStrAt data "name" && isStrAt data "port_profile_id" &&
    isStrAt data "poe_mode" && isStrAt data "op_mode" &&
    isOptStrAt data "duplex" && isOptStrAt data "link_speed"

/-- A block of schema `resourceDeviceEthernetOverride`. -/
def wellFormedEthernetOverride (data : Block) : Bool :=
  isStrAt data "interface" && isStrAt data "network_group"

/-- An element of the `ethernet_override` list: a well-formed block. -/
def wellFormedEthernetItem (item : Item) : Bool :=
  match item with
  | Item.block data => wellFormedEthernetOverride data
  | Item.other _ => false

/-- An element of the `port_override` list: a well-formed block. -/
def wellFormedPortItem (item : Item) : Bool :=
  match item with
  | Item.block data => wellFormedPortOverride data
  | Item.other _ => false

/-! ## Radio tables (`resource_device.go`, lines 611-655) -/

/-- The fields of `unifi.DeviceRadioTable` the provider touches; a field the
code does not assign keeps its zero value. -/
structure DeviceRadioTable where
  Name : String
  Radio : String
  Channel : String
  Ht : String
  TxPower : String
  TxPowerMode : String
  deriving DecidableEq, Repr

/-- Go `toRadioTable`. -/
def toRadioTable (cfg : Block) (name : String) (radio : String) :
    Except Failure DeviceRadioTable := do
  let channel ← asString (cfg.get "channel")
  let channel_width ← asInt (cfg.get "channel_width")
  let radio_table : DeviceRadioTable :=
    { Name := name, Radio := radio, Channel := channel, Ht := Itoa channel_width,
      TxPower := "", TxPowerMode := "" }
  let power ← asString (cfg.get "transmit_power")
  if (Atoi power).2 = none then
    pure { radio_table with TxPower := power, TxPowerMode := "custom" }
  else do
    let mode ← asString (cfg.get "transmit_power")
    pure { radio_table with TxPowerMode := mode }

/-- Go `fromRadioTable`; the error of `strconv.Atoi(cfg.Ht)` is discarded. -/
def fromRadioTable (cfg : DeviceRadioTable) : Except Failure Block :=
  let ht : Int := (Atoi cfg.Ht).1
  let radio : Block := [("channel", Scalar.str cfg.Channel), ("channel_width", Scalar.int ht)]
  if cfg.TxPowerMode = "custom" then
    Except.ok (radio.set "transmit_power" (Scalar.str cfg.TxPower))
  else
    Except.ok (radio.set "transmit_power" (Scalar.str cfg.TxPowerMode))

/-! ## Port overrides (`resource_device.go`, lines 750-802) -/

/-- The fields of `unifi.DevicePortOverrides` the provider touches. -/
structure DevicePortOverrides where
  PortIDX : Int
  Name : String
  PortProfileID : String
  PoeMode : String
  OpMode : String
  FullDuplex : Bool
  Autoneg : Bool
  Speed : Int
  deriving DecidableEq, Repr

/-- Go `toPortOverride`. On an unparseable `link_speed` the Go code returns
the partly filled struct next to the error; every caller drops it. -/
def toPortOverride (data : Block) : Except Failure DevicePortOverrides := do
  let number ← asInt (data.get "number")
  let name ← asString (data.get "name")
  let port_profile_id ← asString (data.get "port_profile_id")
  let poe_mode ← asString (data.get "poe_mode")
  let op_mode ← asString (data.get "op_mode")
  let port_override : DevicePortOverrides :=
    { PortIDX := number, Name := name, PortProfileID := port_profile_id,
      PoeMode := poe_mode, OpMode := op_mode,
      FullDuplex := false, Autoneg := false, Speed := 0 }
  let port_override ←
    match data.get "duplex" with
    | some val => do
      let d ← asString (some val)
      pure { port_override with FullDuplex := decide (d = "full") }
    | none => pure port_override
  match data.get "link_speed" with
  | some val => do
    let s ← asString (some val)
    if s = "" then pure port_override
    else if s = "auto" then pure { port_override with Autoneg := true }
    else
      match Atoi s with
      | (i, none) => pure { port_override with Speed := i }
      | (_, some _) => throw (Failure.error ("link_speed = " ++ s))
  | none => pure port_override

/-- Go `fromPortOverride`. -/
def fromPortOverride (po : DevicePortOverrides) : Except Failure Block :=
  let port : Block :=
    [("number", Scalar.int po.PortIDX), ("name", Scalar.str po.Name),
     ("port_profile_id", Scalar.str po.PortProfileID),
     ("poe_mode", Scalar.str po.PoeMode), ("op_mode", Scalar.str po.OpMode)]
  if po.Autoneg then
    Except.ok (port.set "link_speed" (Scalar.str "auto"))
  else if po.Speed ≠ 0 then
    let port := port.set "link_speed" (Scalar.str (Itoa po.Speed))
    if po.FullDuplex then Except.ok (port.set "duplex" (Scalar.str "full"))
    else Except.ok (port.set "duplex" (Scalar.str "half"))
  else Except.ok port

/-! ## Go maps used to remove duplicates -/

/-- Go `m[k] = v` on a `map[K]V` kept as a list of bindings with distinct
keys: an existing binding is overwritten, a new key is added. -/
def mapInsert {κ ν : Type} [DecidableEq κ] (m : List (κ × ν)) (k : κ) (v : ν) :
    List (κ × ν) :=
  match m with
  | [] => [(k, v)]
  | (k1, v1) :: rest => if k1 = k then (k, v) :: rest else (k1, v1) :: mapInsert rest k v

/-- Go `m[k]` on a `map[K]V`. -/
def mapGet {κ ν : Type} [DecidableEq κ] (m : List (κ × ν)) (k : κ) : Option ν :=
  match m with
  | [] => none
  | (k1, v1) :: rest => if k1 = k then some v1 else mapGet rest k

/-- Go `for _, item := range m { result = append(result, item) }` over a
map. The language leaves the iteration order unspecified: `result` may be
any reordering of the values of the map. -/
def RangesOver {κ ν : Type} (m : List (κ × ν)) (result : List ν) : Prop :=
  List.Perm result (m.map Prod.snd)

/-! ## Ethernet overrides (`resource_device.go`, lines 657-710) -/

/-- The fields of `unifi.DeviceEthernetOverrides` the provider touches. -/
structure DeviceEthernetOverrides where
  Ifname : String
  NetworkGroup : String
  deriving DecidableEq, Repr

/-- Go `toEthernetOverride`. -/
def toEthernetOverride (data : Block) : Except Failure DeviceEthernetOverrides := do
  let ifname ← asString (data.get "interface")
  let network_group ← asString (data.get "network_group")
  pure { Ifname := ifname, NetworkGroup := network_group }

/-- Go `fromEthernetOverride`. -/
def fromEthernetOverride (input : DeviceEthernetOverrides) : Except Failure Block :=
  Except.ok
    [("interface", Scalar.str input.Ifname), ("network_group", Scalar.str input.NetworkGroup)]

/-- The first loop of `setToEthernetOverrides`: fills `overrideMap`. -/
def ethernetOverrideMap :
    List Item → List (String × DeviceEthernetOverrides) →
      Except Failure (List (String × DeviceEthernetOverrides))
  | [], overrideMap => Except.ok overrideMap
  | item :: rest, overrideMap =>
    match item with
    | Item.other _ => Except.error (Failure.error "unexpected data in block")
    | Item.block data =>
      match toEthernetOverride data with
      | Except.error (Failure.error msg) =>
        Except.error (Failure.error ("unable to create ethernet override: " ++ msg))
      | Except.error Failure.panic => Except.error Failure.panic
      | Except.ok o => ethernetOverrideMap rest (mapInsert overrideMap o.Ifname o)

/-- Go `setToEthernetOverrides`, with the map ranged over in the order in
which its keys were first inserted: one of the orders Go may take. -/
def setToEthernetOverrides (ethernet_overrides : List Item) :
    Except Failure (List DeviceEthernetOverrides) :=
  match ethernetOverrideMap ethernet_overrides [] with
  | Except.error e => Except.error e
  | Except.ok overrideMap => Except.ok (overrideMap.map Prod.snd)

/-- Every list Go `setToEthernetOverrides` may return on the input. -/
def setToEthernetOverridesReturns (ethernet_overrides : List Item)
    (result : List DeviceEthernetOverrides) : Prop :=
  ∃ overrideMap, ethernetOverrideMap ethernet_overrides [] = Except.ok overrideMap ∧
    RangesOver overrideMap result

/-! ## Port override collections (`resource_device.go`, lines 712-748) -/

/-- The first loop of `setToPortOverrides`: fills `overrideMap`. -/
def portOverrideMap :
    List Item → List (Int × DevicePortOverrides) →
      Except Failure (List (Int × DevicePortOverrides))
  | [], overrideMap => Except.ok overrideMap
  | item :: rest, overrideMap =>
    match item with
    | Item.other _ => Except.error (Failure.error "unexpected data in block")
    | Item.block data =>
      match toPortOverride data with
      | Except.error (Failure.error msg) =>
        Except.error (Failure.error ("unable to create port override: " ++ msg))
      | Except.error Failure.panic => Except.error Failure.panic
      | Except.ok po => portOverrideMap rest (mapInsert overrideMap po.PortIDX po)

/-- Go `setToPortOverrides`, with the map ranged over in the order in which
its keys were first inserted: one of the orders Go may take. -/
def setToPortOverrides (port_overrides : List Item) :
    Except Failure (List DevicePortOverrides) :=
  match portOverrideMap port_overrides [] with
  | Except.error e => Except.error e
  | Except.ok overrideMap => Except.ok (overrideMap.map Prod.snd)

/-- Every list Go `setToPortOverrides` may return on the input. -/
def setToPortOverridesReturns (port_overrides : List Item)
    (result : List DevicePortOverrides) : Prop :=
  ∃ overrideMap, portOverrideMap port_overrides [] = Except.ok overrideMap ∧
    RangesOver overrideMap result

/-! ## The deduplicating loop, once for both collections -/

/-- The loop shared by the two collection encoders: decode each item, bind
the result under its key, stop at the first failure. -/
def collect {κ ν : Type} [DecidableEq κ] (decode : Item → Except Failure ν) (key : ν → κ) :
    List Item → List (κ × ν) → Except Failure (List (κ × ν))
  | [], m => Except.ok m
  | item :: rest, m =>
    match decode item with
    | Except.error e => Except.error e
    | Except.ok v => collect decode key rest (mapInsert m (key v) v)

/-- The value decoded from the last item of the list whose key is `k`. -/
def lastDecoded {κ ν : Type} [DecidableEq κ] (decode : Item → Except Failure ν)
    (key : ν → κ) (k : κ) : List Item → Option ν
  | [] => none
  | item :: rest =>
    match lastDecoded decode key k rest with
    | some v => some v
    | none =>
      match decode item with
      | Except.ok v => if key v = k then some v else none
      | Except.error _ => none

/-- What the loop of `setToPortOverrides` does with one item. -/
def decodePortItem (item : Item) : Except Failure DevicePortOverrides :=
  match item with
  | Item.other _ => Except.error (Failure.error "unexpected data in block")
  | Item.block data =>
    match toPortOverride data with
    | Except.error (Failure.error msg) =>
      Except.error (Failure.error ("unable to create port override: " ++ msg))
    | Except.error Failure.panic => Except.error Failure.panic
    | Except.ok po => Except.ok po

/-- What the loop of `setToEthernetOverrides` does with one item. -/
def decodeEthernetItem (item : Item) : Except Failure DeviceEthernetOverrides :=
  match item with
  | Item.other _ => Except.error (Failure.error "unexpected data in block")
  | Item.block data =>
    match toEthernetOverride data with
    | Except.error (Failure.error msg) =>
      Except.error (Failure.error ("unable to create ethernet override: " ++ msg))
    | Except.error Failure.panic => Except.error Failure.panic
    | Except.ok o => Except.ok o

/-! ## VPN server (`resource_vpn_server.go`, lines 110-176) -/

/-- The fields of `unifi.Network` that `resource_vpn_server.go` touches. -/
structure Network where
  ID : String
  SiteID : String
  Name : String
  Enabled : Bool
  Purpose : String
  VPNType : String
  IPSubnet : String
  DHCPDStart : String
  DHCPDStop : String
  RADIUSProfileID : String
  RequireMschapv2 : Bool
  XIPSecPreSharedKey : String
  IsNAT : Bool
  VLANEnabled : Bool
  DHCPDEnabled : Bool
  DHCPDLeaseTime : Int
  DHCPDDNSEnabled : Bool
  DHCPDDNS1 : String
  DHCPDDNS2 : String
  DHCPDDNS3 : String
  DHCPDDNS4 : String
  IPV6InterfaceType : String
  deriving DecidableEq, Repr

/-- The `schema.ResourceData` of a `unifi_vpn_server`: its ID and the
attributes of the schema, each with the Go type the schema gives it;
`dhcp_dns` is read as a `[]interface{}`. -/
structure VPNServerData where
  id : String
  name : String
  vpn_type : String
  subnet : String
  dhcp_start : String
  dhcp_stop : String
  dhcp_dns : List Scalar
  radius_profile_id : String
  require_mschapv2 : Bool
  pre_shared_key : String
  deriving DecidableEq, Repr

/-- Go `xs[i]` on a slice: panics when `i` is out of range. -/
def sliceIndex (xs : List String) (i : Nat) : Except Failure String :=
  match xs[i]? with
  | some x => Except.ok x
  | none => Except.error Failure.panic

/-- Go `resourceVPNServerGetResourceData`. The helpers `listToStringSlice`
and `cidrOneBased` are defined outside the files at hand and are taken as
parameters. -/
def resourceVPNServerGetResourceData
    (listToStringSlice : List Scalar → Except Failure (List String))
    (cidrOneBased : String → String) (d : VPNServerData) : Except Failure Network :=
  match listToStringSlice d.dhcp_dns with
  | Except.error (Failure.error msg) =>
    Except.error (Failure.error ("unable to convert dhcp_dns to string slice: " ++ msg))
  | Except.error Failure.panic => Except.error Failure.panic
  | Except.ok dhcpDNS => do
    let dns1 ← sliceIndex (dhcpDNS ++ [""]) 0
    let dns2 ← sliceIndex (dhcpDNS ++ ["", ""]) 1
    let dns3 ← sliceIndex (dhcpDNS ++ ["", "", ""]) 2
    let dns4 ← sliceIndex (dhcpDNS ++ ["", "", "", ""]) 3
    pure
      { ID := "", SiteID := "",
        Name := d.name,
        Enabled := true,
        Purpose := "remote-user-vpn",
        VPNType := d.vpn_type,
        IPSubnet := cidrOneBased d.subnet,
        DHCPDStart := d.dhcp_start,
        DHCPDStop := d.dhcp_stop,
        RADIUSProfileID := d.radius_profile_id,
        RequireMschapv2 := d.require_mschapv2,
        XIPSecPreSharedKey := d.pre_shared_key,
        IsNAT := true,
        VLANEnabled := false,
        DHCPDEnabled := false,
        DHCPDLeaseTime := 0,
        DHCPDDNSEnabled := decide (0 < dhcpDNS.length),
        DHCPDDNS1 := dns1,
        DHCPDDNS2 := dns2,
        DHCPDDNS3 := dns3,
        DHCPDDNS4 := dns4,
        IPV6InterfaceType := "none" }

/-- Go `resourceVPNServerSetResourceData`: the record after the nine
`d.Set` calls. The local `dhcpLease` is computed and never read, so it is
left out. The helper `cidrZeroBased` is taken as a parameter. -/
def resourceVPNServerSetResourceData (cidrZeroBased : String → String)
    (resp : Network) (d : VPNServerData) : Except Failure VPNServerData :=
  let dhcpDNS : List String :=
    if resp.DHCPDDNSEnabled then
      [resp.DHCPDDNS1, resp.DHCPDDNS2, resp.DHCPDDNS3, resp.DHCPDDNS4].filter
        (fun dns => decide (dns ≠ ""))
    else []
  Except.ok
    { d with
      name := resp.Name,
      vpn_type := resp.VPNType,
      subnet := cidrZeroBased resp.IPSubnet,
      dhcp_start := resp.DHCPDStart,
      dhcp_stop := resp.DHCPDStop,
      dhcp_dns := dhcpDNS.map Scalar.str,
      radius_profile_id := resp.RADIUSProfileID,
      require_mschapv2 := resp.RequireMschapv2,
      pre_shared_key := resp.XIPSecPreSharedKey }

/-- Modelled from the spec: `listToStringSlice` is defined outside the files
at hand; the encoder takes it as a parameter, and this instance serves the
concrete examples. It turns a `dhcp_dns` list of strings into a string
slice and returns an error on an element that is no string. -/
def stringsOfList : List Scalar → Except Failure (List String)
  | [] => Except.ok []
  | Scalar.str s :: rest =>
    match stringsOfList rest with
    | Except.ok ss => Except.ok (s :: ss)
    | Except.error e => Except.error e
  | _ :: _ => Except.error (Failure.error "not a string")

/-- The VPN server of the acceptance test, with two DNS servers. -/
def sampleVPN : VPNServerData :=
  { id := "", name := "Test VPN Server", vpn_type := "l2tp-server",
    subnet := "172.16.1.1/24", dhcp_start := "172.16.1.1", dhcp_stop := "172.16.1.254",
    dhcp_dns := [Scalar.str "1.1.1.1", Scalar.str "1.0.0.1"],
    radius_profile_id := "default", require_mschapv2 := true,
    pre_shared_key := "sharedkey" }

/-! ## Decoding collections (`resource_device.go`, lines 683-693 and 738-748) -/

/-- Go `setFromEthernetOverrides`: one local block per remote item, in the
order of the input. -/
def setFromEthernetOverrides : List DeviceEthernetOverrides → Except Failure (List Item)
  | [] => Except.ok []
  | i :: rest =>
    match fromEthernetOverride i with
    | Except.error (Failure.error msg) =>
      Except.error (Failure.error ("unable to parse ethernet override: " ++ msg))
    | Except.error Failure.panic => Except.error Failure.panic
    | Except.ok v =>
      match setFromEthernetOverrides rest with
      | Except.error e => Except.error e
      | Except.ok list => Except.ok (Item.block v :: list)

/-- Go `setFromPortOverrides`: one local block per remote item, in the order
of the input. -/
def setFromPortOverrides : List DevicePortOverrides → Except Failure (List Item)
  | [] => Except.ok []
  | po :: rest =>
    match fromPortOverride po with
    | Except.error (Failure.error msg) =>
      Except.error (Failure.error ("unable to parse port override: " ++ msg))
    | Except.error Failure.panic => Except.error Failure.panic
    | Except.ok v =>
      match setFromPortOverrides rest with
      | Except.error e => Except.error e
      | Except.ok list => Except.ok (Item.block v :: list)

/-! ## Network configuration (`resource_device.go`, lines 566-609) -/

/-- The fields of `unifi.DeviceConfigNetwork` the provider touches; the Go
field `Type` is written `Type_`. -/
structure DeviceConfigNetwork where
  IP : String
  DNS1 : String
  DNS2 : String
  DNSsuffix : String
  Gateway : String
  Netmask : String
  Type_ : String
  BondingEnabled : Bool
  deriving DecidableEq, Repr

/-- Go `toNetworkConfig`. -/
def toNetworkConfig (cfg : Block) : Except Failure DeviceConfigNetwork := do
  let ip ← asString (cfg.get "ip")
  let dns1 ← asString (cfg.get "dns1")
  let dns2 ← asString (cfg.get "dns2")
  let dns_suffix ← asString (cfg.get "dns_suffix")
  let gateway ← asString (cfg.get "gateway")
  let netmask ← asString (cfg.get "netmask")
  let type_ ← asString (cfg.get "type")
  let bonding_enabled ← asBool (cfg.get "bonding_enabled")
  pure
    { IP := ip, DNS1 := dns1, DNS2 := dns2, DNSsuffix := dns_suffix, Gateway := gateway,
      Netmask := netmask, Type_ := type_, BondingEnabled := bonding_enabled }

/-- Go `setToNetworkConfig`: the first block of the list, or the zero value. -/
def setToNetworkConfig (data : List Item) : Except Failure DeviceConfigNetwork :=
  match data with
  | [] =>
    Except.ok
      { IP := "", DNS1 := "", DNS2 := "", DNSsuffix := "", Gateway := "", Netmask := "",
        Type_ := "", BondingEnabled := false }
  | Item.block cfg :: _ => toNetworkConfig cfg
  | Item.other _ :: _ => Except.error Failure.panic

/-- Go `fromNetworkConfig`. -/
def fromNetworkConfig (cfg : DeviceConfigNetwork) : Except Failure Block :=
  Except.ok
    [("ip", Scalar.str cfg.IP), ("dns1", Scalar.str cfg.DNS1), ("dns2", Scalar.str cfg.DNS2),
     ("dns_suffix", Scalar.str cfg.DNSsuffix), ("gateway", Scalar.str cfg.Gateway),
     ("netmask", Scalar.str cfg.Netmask), ("type", Scalar.str cfg.Type_),
     ("bonding_enabled", Scalar.bool cfg.BondingEnabled)]

/-- Go `setFromNetworkConfig`. -/
def setFromNetworkConfig (cfg : DeviceConfigNetwork) : Except Failure (List Item) :=
  match fromNetworkConfig cfg with
  | Except.error e => Except.error e
  | Except.ok networkConfig => Except.ok [Item.block networkConfig]

/-- Go `setFromRadioTable`. -/
def setFromRadioTable (cfg : DeviceRadioTable) : Except Failure (List Item) :=
  match fromRadioTable cfg with
  | Except.error e => Except.error e
  | Except.ok rt => Except.ok [Item.block rt]

/-! ## The device record (`resource_device.go`, lines 443-564) -/

/-- The fields of `unifi.Device` the provider touches. -/
structure Device where
  ID : String
  SiteID : String
  MAC : String
  Name : String
  Disabled : Bool
  LedOverride : String
  MgmtNetworkID : String
  JumboframeEnabled : Bool
  FlowctrlEnabled : Bool
  StpVersion : String
  StpPriority : String
  PortOverrides : List DevicePortOverrides
  EthernetOverrides : List DeviceEthernetOverrides
  ConfigNetwork : DeviceConfigNetwork
  RadioTable : List DeviceRadioTable
  deriving DecidableEq, Repr

/-- The `schema.ResourceData` of a `unifi_device`: its ID and the attributes
of `deviceSchema`, each with the Go type the schema gives it. -/
structure DeviceData where
  id : String
  site : String
  mac : String
  name : String
  disabled : Bool
  led_override : String
  mgmt_network_id : String
  jumboframe_enabled : Bool
  flowctrl_enabled : Bool
  stp_version : String
  stp_priority : Int
  port_override : List Item
  ethernet_override : List Item
  network_config : List Item
  radio_2g : List Item
  radio_5g : List Item
  deriving DecidableEq, Repr

/-- Go `strconv.Quote` (also the verb `%q`), rendered as plain double quotes
around the text: that is what it produces on printable ASCII text free of
quotes and backslashes. -/
def goQuote (s : String) : String :=
  String.singleton (Char.ofNat 34) ++ s ++ String.singleton (Char.ofNat 34)

/-- The text of the `*strconv.NumError` that `strconv.Atoi` returns. -/
def numErrorText (s : String) (e : NumError) : String :=
  "strconv.Atoi: parsing " ++ goQuote s ++ ": " ++
    (match e with
      | NumError.ErrSyntax => "invalid syntax"
      | NumError.ErrRange => "value out of range")

/-- The loop over `resp.RadioTable` that ends `resourceDeviceSetResourceData`
(lines 489-503). -/
def deviceSetRadioTables : List DeviceRadioTable → DeviceData → DeviceData × Option Failure
  | [], d => (d, none)
  | i :: rest, d =>
    match setFromRadioTable i with
    | Except.error e => (d, some e)
    | Except.ok radioTable =>
      if i.Radio = "ng" then deviceSetRadioTables rest { d with radio_2g := radioTable }
      else if i.Radio = "na" then deviceSetRadioTables rest { d with radio_5g := radioTable }
      else deviceSetRadioTables rest d

/-- Lines 464-503 of `resourceDeviceSetResourceData`: what follows the
spanning-tree block. `network_config` is set twice, to the same value. -/
def deviceSetCollections (resp : Device) (d : DeviceData) : DeviceData × Option Failure :=
  match setFromPortOverrides resp.PortOverrides with
  | Except.error e => (d, some e)
  | Except.ok portOverrides =>
    let d := { d with port_override := portOverrides }
    match setFromEthernetOverrides resp.EthernetOverrides with
    | Except.error e => (d, some e)
    | Except.ok ethernetOverrides =>
      let d := { d with ethernet_override := ethernetOverrides }
      match setFromNetworkConfig resp.ConfigNetwork with
      | Except.error e => (d, some e)
      | Except.ok cfg =>
        let d := { d with network_config := cfg }
        match fromNetworkConfig resp.ConfigNetwork with
        | Except.error e => (d, some e)
        | Except.ok networkConfig =>
          let d := { d with network_config := [] ++ [Item.block networkConfig] }
          deviceSetRadioTables resp.RadioTable d

/-- Go `resourceDeviceSetResourceData`: the record after the call and the
returned error. `d.Set("err", ...)` names no attribute of the schema and
leaves the record as it is. -/
def resourceDeviceSetResourceData (resp : Device) (d : DeviceData) (site : String) :
    DeviceData × Option Failure :=
  let d :=
    { d with
      site := site,
      mac := resp.MAC,
      name := resp.Name,
      disabled := resp.Disabled,
      led_override := resp.LedOverride,
      mgmt_network_id := resp.MgmtNetworkID,
      jumboframe_enabled := resp.JumboframeEnabled,
      flowctrl_enabled := resp.FlowctrlEnabled }
  if resp.StpVersion ≠ "" ∧ resp.StpVersion ≠ "disabled" then
    let d := { d with stp_version := resp.StpVersion }
    match Atoi resp.StpPriority with
    | (_, some err) => (d, some (Failure.error (numErrorText resp.StpPriority err)))
    | (val, none) => deviceSetCollections resp { d with stp_priority := val }
  else deviceSetCollections resp d

/-! ## RADIUS user (`resource_radius_user.go`) -/

/-- The fields of `unifi.Account` the provider touches. -/
structure Account where
  ID : String
  SiteID : String
  Name : String
  XPassword : String
  TunnelType : Int
  TunnelMediumType : Int
  VLAN : Int
  deriving DecidableEq, Repr

/-- The `schema.ResourceData` of a `unifi_radius_user`. -/
structure RadiusUserData where
  id : String
  username : String
  password : String
  vlan_id : Int
  tunnel_type : Int
  tunnel_medium_type : Int
  deriving DecidableEq, Repr

/-- Go `resourceRadiusUserGetResourceData`. -/
def resourceRadiusUserGetResourceData (d : RadiusUserData) : Except Failure Account :=
  Except.ok
    { ID := "", SiteID := "",
      Name := d.username,
      XPassword := d.password,
      TunnelType := d.tunnel_type,
      TunnelMediumType := d.tunnel_medium_type,
      VLAN := d.vlan_id }

/-- Go `resourceRadiusUserSetResourceData`: the record after the five
`d.Set` calls. -/
def resourceRadiusUserSetResourceData (resp : Account) (d : RadiusUserData) :
    Except Failure RadiusUserData :=
  Except.ok
    { d with
      username := resp.Name,
      password := resp.XPassword,
      tunnel_type := resp.TunnelType,
      tunnel_medium_type := resp.TunnelMediumType,
      vlan_id := resp.VLAN }

/-! ## RADIUS server (`resource_radius_server.go`) -/

/-- The fields of `unifi.SettingRadius` the provider touches. -/
structure SettingRadius where
  ID : String
  SiteID : String
  Enabled : Bool
  XSecret : String
  AuthPort : Int
  AcctPort : Int
  InterimUpdateInterval : Int
  TunneledReply : Bool
  ConfigureWholeNetwork : Bool
  deriving DecidableEq, Repr

/-- The `schema.ResourceData` of a `unifi_radius_server`; the two ports are
strings in the schema. -/
structure RadiusServerData where
  id : String
  enabled : Bool
  secret : String
  authentication_port : String
  accounting_port : String
  accounting_interim_interval : Int
  enable_tunneled_reply : Bool
  configure_whole_network : Bool
  deriving DecidableEq, Repr

/-- Go `resourceRadiusServerGetResourceData`: both errors of `strconv.Atoi`
are discarded, the values are kept. -/
def resourceRadiusServerGetResourceData (d : RadiusServerData) :
    Except Failure SettingRadius :=
  let authport : Int := (Atoi d.authentication_port).1
  let acctport : Int := (Atoi d.accounting_port).1
  Except.ok
    { ID := "", SiteID := "",
      Enabled := d.enabled,
      XSecret := d.secret,
      AuthPort := authport,
      AcctPort := acctport,
      InterimUpdateInterval := d.accounting_interim_interval,
      TunneledReply := d.enable_tunneled_reply,
      ConfigureWholeNetwork := d.configure_whole_network }

/-- Go `resourceRadiusServerSetResourceData`: the record after the seven
`d.Set` calls. -/
def resourceRadiusServerSetResourceData (resp : SettingRadius) (d : RadiusServerData) :
    Except Failure RadiusServerData :=
  Except.ok
    { d with
      enabled := resp.Enabled,
      secret := resp.XSecret,
      authentication_port := Itoa resp.AuthPort,
      accounting_port := Itoa resp.AcctPort,
      accounting_interim_interval := resp.InterimUpdateInterval,
      enable_tunneled_reply := resp.TunneledReply,
      configure_whole_network := resp.ConfigureWholeNetwork }

/-! ## Encoding a device (`resource_device.go`, lines 506-564) -/

/-- Go `resourceDeviceGetResourceData`. `d.GetOk` reports a value that is
not the zero value of its type. -/
def resourceDeviceGetResourceData (d : DeviceData) : Except Failure Device :=
  let device : Device :=
    { ID := "", SiteID := "",
      MAC := d.mac,
      Name := d.name,
      Disabled := false,
      LedOverride := d.led_override,
      MgmtNetworkID := d.mgmt_network_id,
      JumboframeEnabled := d.jumboframe_enabled,
      FlowctrlEnabled := d.flowctrl_enabled,
      StpVersion := "", StpPriority := "",
      PortOverrides := [], EthernetOverrides := [],
      ConfigNetwork :=
        { IP := "", DNS1 := "", DNS2 := "", DNSsuffix := "", Gateway := "", Netmask := "",
          Type_ := "", BondingEnabled := false },
      RadioTable := [] }
  let device := if d.stp_version ≠ "" then { device with StpVersion := d.stp_version } else device
  let device :=
    if d.stp_priority ≠ 0 then { device with StpPriority := Itoa d.stp_priority } else device
  match setToPortOverrides d.port_override with
  | Except.error (Failure.error msg) =>
    Except.error (Failure.error ("unable to process port_override block: " ++ msg))
  | Except.error Failure.panic => Except.error Failure.panic
  | Except.ok pos =>
    let device := { device with PortOverrides := pos }
    match setToEthernetOverrides d.ethernet_override with
    | Except.error (Failure.error msg) =>
      Except.error (Failure.error ("unable to process ethernet_override block: " ++ msg))
    | Except.error Failure.panic => Except.error Failure.panic
    | Except.ok eos =>
      let device := { device with EthernetOverrides := eos }
      match setToNetworkConfig d.network_config with
      | Except.error (Failure.error msg) =>
        Except.error (Failure.error ("unable to process network_config block: " ++ msg))
      | Except.error Failure.panic => Except.error Failure.panic
      | Except.ok cfg =>
        let device := { device with ConfigNetwork := cfg }
        let radio2g : Except Failure Device :=
          match d.radio_2g with
          | [] => Except.ok device
          | Item.other _ :: _ => Except.error Failure.panic
          | Item.block radio_2g :: _ =>
            match toRadioTable radio_2g "ra0" "ng" with
            | Except.error (Failure.error msg) =>
              Except.error (Failure.error ("unable to process radio_2g block: " ++ msg))
            | Except.error Failure.panic => Except.error Failure.panic
            | Except.ok rt => Except.ok { device with RadioTable := device.RadioTable ++ [rt] }
        match radio2g with
        | Except.error e => Except.error e
        | Except.ok device =>
          match d.radio_5g with
          | [] => Except.ok device
          | Item.other _ :: _ => Except.error Failure.panic
          | Item.block radio_5g :: _ =>
            match toRadioTable radio_5g "rai0" "na" with
            | Except.error (Failure.error msg) =>
              Except.error (Failure.error ("unable to process radio_5g block: " ++ msg))
            | Except.error Failure.panic => Except.error Failure.panic
            | Except.ok rt => Except.ok { device with RadioTable := device.RadioTable ++ [rt] }

/-! ## Port profiles (`data_port_profile.go`) -/

/-- The fields of `unifi.PortProfile` that `dataPortProfileRead` reads, and
the remaining ones as a block. -/
structure PortProfile where
  ID : String
  Name : String
  fields : Block
  deriving DecidableEq, Repr

/-- The `schema.ResourceData` of the `unifi_port_profile` data source: its
ID, the attributes `dataPortProfileRead` reads or writes, and the remaining
attributes of `portProfileSchema` as a block. -/
structure PortProfileData where
  id : String
  site : String
  name : String
  attrs : Block
  deriving DecidableEq, Repr

/-! ## The controller client -/

/-- An `error` of the controller client: a `*unifi.NotFoundError`, or any
other error, with its text. -/
inductive ClientError where
  | notFound
  | other (msg : String)
  deriving DecidableEq, Repr

/-- Go `err.Error()` of a client error. -/
def ClientError.text : ClientError → String
  | ClientError.notFound => "not found"
  | ClientError.other msg => msg

/-- A client error handed on to the caller unchanged. -/
def ClientError.toFailure (e : ClientError) : Failure := Failure.error e.text

/-- Go `client`: the provider's default site and the calls of `*unifi.Client`
the provider makes, each with the answer the controller gives. -/
structure Client where
  site : String
  ListDevice : String → Except ClientError (List Device)
  GetDevice : String → String → Except ClientError Device
  UpdateDevice : String → Device → Except ClientError Device
  GetNetwork : String → String → Except ClientError Network
  CreateNetwork : String → Network → Except ClientError Network
  UpdateNetwork : String → Network → Except ClientError Network
  GetAccount : String → String → Except ClientError Account
  CreateAccount : String → Account → Except ClientError Account
  UpdateAccount : String → Account → Except ClientError Account
  GetSettingRadius : String → Except ClientError SettingRadius
  UpdateSettingRadius : String → SettingRadius → Except ClientError SettingRadius
  ListPortProfile : String → Except ClientError (List PortProfile)

/-- A call made to the controller. -/
inductive ClientCall where
  | ListDevice (site : String)
  | GetDevice (site : String) (id : String)
  | UpdateDevice (site : String) (req : Device)
  | GetNetwork (site : String) (id : String)
  | CreateNetwork (site : String) (req : Network)
  | UpdateNetwork (site : String) (req : Network)
  | GetAccount (site : String) (id : String)
  | CreateAccount (site : String) (req : Account)
  | UpdateAccount (site : String) (req : Account)
  | GetSettingRadius (site : String)
  | UpdateSettingRadius (site : String) (req : SettingRadius)
  | ListPortProfile (site : String)
  deriving DecidableEq, Repr

/-- What a lifecycle operation leaves behind: the record after it, the
`error` it returns, and the controller calls it made, in order. -/
structure Outcome (δ : Type) where
  d : δ
  err : Option Failure
  calls : List ClientCall
  deriving DecidableEq, Repr

/-! ## Device operations (`resource_device.go`, lines 308-441) -/

/-- Go `resourceDeviceRead`. -/
def resourceDeviceRead (c : Client) (d : DeviceData) : Outcome DeviceData :=
  let id := d.id
  let site := if d.site = "" then c.site else d.site
  match c.GetDevice site id with
  | Except.error ClientError.notFound =>
    { d := { d with id := "" }, err := none, calls := [ClientCall.GetDevice site id] }
  | Except.error (ClientError.other msg) =>
    { d := d, err := some (ClientError.toFailure (ClientError.other msg)),
      calls := [ClientCall.GetDevice site id] }
  | Except.ok resp =>
    let r := resourceDeviceSetResourceData resp d site
    { d := r.1, err := r.2, calls := [ClientCall.GetDevice site id] }

/-- Go `resourceDeviceUpdate`. -/
def resourceDeviceUpdate (c : Client) (d : DeviceData) : Outcome DeviceData :=
  let site := if d.site = "" then c.site else d.site
  match resourceDeviceGetResourceData d with
  | Except.error e => { d := d, err := some e, calls := [] }
  | Except.ok req =>
    let req := { req with ID := d.id, SiteID := site }
    match c.UpdateDevice site req with
    | Except.error ClientError.notFound =>
      let r := resourceDeviceRead c d
      { d := r.d, err := r.err, calls := ClientCall.UpdateDevice site req :: r.calls }
    | Except.error (ClientError.other msg) =>
      { d := d, err := some (ClientError.toFailure (ClientError.other msg)),
        calls := [ClientCall.UpdateDevice site req] }
    | Except.ok resp =>
      let r := resourceDeviceSetResourceData resp d site
      { d := r.1, err := r.2, calls := [ClientCall.UpdateDevice site req] }

/-- Go `resourceDeviceCreate`. The helper `cleanMAC` is defined outside the
files at hand and is taken as a parameter. -/
def resourceDeviceCreate (cleanMAC : String → String) (c : Client) (d : DeviceData) :
    Outcome DeviceData :=
  let site := if d.site = "" then c.site else d.site
  let mac := d.mac
  if mac = "" then
    { d := d,
      err := some (Failure.error
        "no MAC address specified, please import the device using terraform import"),
      calls := [] }
  else
    let mac := cleanMAC mac
    match c.ListDevice site with
    | Except.error e =>
      { d := d, err := some (Failure.error ("unable to list devices: " ++ e.text)),
        calls := [ClientCall.ListDevice site] }
    | Except.ok devices =>
      match devices.find? (fun dev => decide (cleanMAC dev.MAC = mac)) with
      | none =>
        { d := d, err := some (Failure.error ("device not found using mac " ++ goQuote mac)),
          calls := [ClientCall.ListDevice site] }
      | some found =>
        let r := resourceDeviceSetResourceData found { d with id := found.ID } site
        { d := r.1, err := r.2, calls := [ClientCall.ListDevice site] }

/-- Go `strings.Count(s, ":")`. -/
def countColons (s : String) : Nat :=
  (s.data.filter (fun ch => decide (ch = ':'))).length

/-- The two parts of Go `strings.SplitN(s, ":", 2)` for a text that holds a
colon: what stands before the first colon and what stands after it. -/
def splitAtFirstColon : List Char → List Char × List Char
  | [] => ([], [])
  | ch :: rest =>
    if ch = ':' then ([], rest)
    else ((ch :: (splitAtFirstColon rest).1), (splitAtFirstColon rest).2)

/-- The end of `resourceDeviceImport` (lines 338-345): the ID and the site
are written only when they are not empty. -/
def deviceImportFinish (d : DeviceData) (id : String) (site : String) : DeviceData :=
  let d := if id ≠ "" then { d with id := id } else d
  if site ≠ "" then { d with site := site } else d

/-- Go `resourceDeviceImport`; `d` of the outcome is the one record of the
returned slice. The regular expression `macAddressRegexp` and the helper
`cleanMAC` are defined outside the files at hand and are taken as
parameters. -/
def resourceDeviceImport (macAddressRegexp : String → Bool) (cleanMAC : String → String)
    (c : Client) (d : DeviceData) : Outcome DeviceData :=
  let id := d.id
  let site := if d.site = "" then c.site else d.site
  let colons := countColons id
  let importParts := splitAtFirstColon id.data
  let site := if colons = 1 ∨ colons = 6 then String.mk importParts.1 else site
  let id := if colons = 1 ∨ colons = 6 then String.mk importParts.2 else id
  if macAddressRegexp id = true then
    let find := cleanMAC id
    match c.ListDevice site with
    | Except.error e =>
      { d := d, err := some (ClientError.toFailure e), calls := [ClientCall.ListDevice site] }
    | Except.ok devices =>
      let id :=
        match devices.find? (fun dev => decide (cleanMAC dev.MAC = find)) with
        | some dev => dev.ID
        | none => id
      { d := deviceImportFinish d id site, err := none, calls := [ClientCall.ListDevice site] }
  else
    { d := deviceImportFinish d id site, err := none, calls := [] }

/-! ## VPN server operations (`resource_vpn_server.go`) -/

/-- Go `resourceVPNServerCreate`. -/
def resourceVPNServerCreate
    (listToStringSlice : List Scalar → Except Failure (List String))
    (cidrOneBased cidrZeroBased : String → String) (c : Client) (d : VPNServerData) :
    Outcome VPNServerData :=
  match resourceVPNServerGetResourceData listToStringSlice cidrOneBased d with
  | Except.error e => { d := d, err := some e, calls := [] }
  | Except.ok req =>
    match c.CreateNetwork c.site req with
    | Except.error e =>
      { d := d, err := some (ClientError.toFailure e),
        calls := [ClientCall.CreateNetwork c.site req] }
    | Except.ok resp =>
      match resourceVPNServerSetResourceData cidrZeroBased resp { d with id := resp.ID } with
      | Except.error e =>
        { d := { d with id := resp.ID }, err := some e,
          calls := [ClientCall.CreateNetwork c.site req] }
      | Except.ok d1 => { d := d1, err := none, calls := [ClientCall.CreateNetwork c.site req] }

/-- Go `resourceVPNServerRead`. -/
def resourceVPNServerRead (cidrZeroBased : String → String) (c : Client)
    (d : VPNServerData) : Outcome VPNServerData :=
  let id := d.id
  match c.GetNetwork c.site id with
  | Except.error ClientError.notFound =>
    { d := { d with id := "" }, err := none, calls := [ClientCall.GetNetwork c.site id] }
  | Except.error (ClientError.other msg) =>
    { d := d, err := some (ClientError.toFailure (ClientError.other msg)),
      calls := [ClientCall.GetNetwork c.site id] }
  | Except.ok resp =>
    match resourceVPNServerSetResourceData cidrZeroBased resp d with
    | Except.error e => { d := d, err := some e, calls := [ClientCall.GetNetwork c.site id] }
    | Except.ok d1 => { d := d1, err := none, calls := [ClientCall.GetNetwork c.site id] }

/-- Go `resourceVPNServerUpdate`. -/
def resourceVPNServerUpdate
    (listToStringSlice : List Scalar → Except Failure (List String))
    (cidrOneBased cidrZeroBased : String → String) (c : Client) (d : VPNServerData) :
    Outcome VPNServerData :=
  match resourceVPNServerGetResourceData listToStringSlice cidrOneBased d with
  | Except.error e => { d := d, err := some e, calls := [] }
  | Except.ok req =>
    let req := { req with ID := d.id, SiteID := c.site }
    match c.UpdateNetwork c.site req with
    | Except.error e =>
      { d := d, err := some (ClientError.toFailure e),
        calls := [ClientCall.UpdateNetwork c.site req] }
    | Except.ok resp =>
      match resourceVPNServerSetResourceData cidrZeroBased resp d with
      | Except.error e =>
        { d := d, err := some e, calls := [ClientCall.UpdateNetwork c.site req] }
      | Except.ok d1 => { d := d1, err := none, calls := [ClientCall.UpdateNetwork c.site req] }

/-! ## RADIUS user operations (`resource_radius_user.go`) -/

/-- Go `resourceRadiusUserCreate`. -/
def resourceRadiusUserCreate (c : Client) (d : RadiusUserData) : Outcome RadiusUserData :=
  match resourceRadiusUserGetResourceData d with
  | Except.error e => { d := d, err := some e, calls := [] }
  | Except.ok req =>
    match c.CreateAccount c.site req with
    | Except.error e =>
      { d := d, err := some (ClientError.toFailure e),
        calls := [ClientCall.CreateAccount c.site req] }
    | Except.ok resp =>
      match resourceRadiusUserSetResourceData resp { d with id := resp.ID } with
      | Except.error e =>
        { d := { d with id := resp.ID }, err := some e,
          calls := [ClientCall.CreateAccount c.site req] }
      | Except.ok d1 => { d := d1, err := none, calls := [ClientCall.CreateAccount c.site req] }

/-- Go `resourceRadiusUserRead`. -/
def resourceRadiusUserRead (c : Client) (d : RadiusUserData) : Outcome RadiusUserData :=
  let id := d.id
  match c.GetAccount c.site id with
  | Except.error ClientError.notFound =>
    { d := { d with id := "" }, err := none, calls := [ClientCall.GetAccount c.site id] }
  | Except.error (ClientError.other msg) =>
    { d := d, err := some (ClientError.toFailure (ClientError.other msg)),
      calls := [ClientCall.GetAccount c.site id] }
  | Except.ok resp =>
    match resourceRadiusUserSetResourceData resp d with
    | Except.error e => { d := d, err := some e, calls := [ClientCall.GetAccount c.site id] }
    | Except.ok d1 => { d := d1, err := none, calls := [ClientCall.GetAccount c.site id] }

/-- Go `resourceRadiusUserUpdate`. -/
def resourceRadiusUserUpdate (c : Client) (d : RadiusUserData) : Outcome RadiusUserData :=
  match resourceRadiusUserGetResourceData d with
  | Except.error e => { d := d, err := some e, calls := [] }
  | Except.ok req =>
    let req := { req with ID := d.id, SiteID := c.site }
    match c.UpdateAccount c.site req with
    | Except.error e =>
      { d := d, err := some (ClientError.toFailure e),
        calls := [ClientCall.UpdateAccount c.site req] }
    | Except.ok resp =>
      match resourceRadiusUserSetResourceData resp d with
      | Except.error e =>
        { d := d, err := some e, calls := [ClientCall.UpdateAccount c.site req] }
      | Except.ok d1 => { d := d1, err := none, calls := [ClientCall.UpdateAccount c.site req] }

/-! ## RADIUS server operations (`resource_radius_server.go`) -/

/-- Go `resourceRadiusServerCreate`. -/
def resourceRadiusServerCreate (c : Client) (d : RadiusServerData) :
    Outcome RadiusServerData :=
  match resourceRadiusServerGetResourceData d with
  | Except.error e => { d := d, err := some e, calls := [] }
  | Except.ok req =>
    let req := { req with ID := d.id, SiteID := c.site }
    match c.UpdateSettingRadius c.site req with
    | Except.error e =>
      { d := d, err := some (ClientError.toFailure e),
        calls := [ClientCall.UpdateSettingRadius c.site req] }
    | Except.ok resp =>
      match resourceRadiusServerSetResourceData resp { d with id := resp.ID } with
      | Except.error e =>
        { d := { d with id := resp.ID }, err := some e,
          calls := [ClientCall.UpdateSettingRadius c.site req] }
      | Except.ok d1 =>
        { d := d1, err := none, calls := [ClientCall.UpdateSettingRadius c.site req] }

/-- Go `resourceRadiusServerRead`. -/
def resourceRadiusServerRead (c : Client) (d : RadiusServerData) :
    Outcome RadiusServerData :=
  match c.GetSettingRadius c.site with
  | Except.error ClientError.notFound =>
    { d := { d with id := "" }, err := none, calls := [ClientCall.GetSettingRadius c.site] }
  | Except.error (ClientError.other msg) =>
    { d := d, err := some (ClientError.toFailure (ClientError.other msg)),
      calls := [ClientCall.GetSettingRadius c.site] }
  | Except.ok resp =>
    match resourceRadiusServerSetResourceData resp d with
    | Except.error e =>
      { d := d, err := some e, calls := [ClientCall.GetSettingRadius c.site] }
    | Except.ok d1 => { d := d1, err := none, calls := [ClientCall.GetSettingRadius c.site] }

/-- Go `resourceRadiusServerUpdate`. -/
def resourceRadiusServerUpdate (c : Client) (d : RadiusServerData) :
    Outcome RadiusServerData :=
  match resourceRadiusServerGetResourceData d with
  | Except.error e => { d := d, err := some e, calls := [] }
  | Except.ok req =>
    let req := { req with ID := d.id, SiteID := c.site }
    match c.UpdateSettingRadius c.site req with
    | Except.error e =>
      { d := d, err := some (ClientError.toFailure e),
        calls := [ClientCall.UpdateSettingRadius c.site req] }
    | Except.ok resp =>
      match resourceRadiusServerSetResourceData resp d with
      | Except.error e =>
        { d := d, err := some e, calls := [ClientCall.UpdateSettingRadius c.site req] }
      | Except.ok d1 =>
        { d := d1, err := none, calls := [ClientCall.UpdateSettingRadius c.site req] }

/-- Go `resourceRadiusServerDelete`: `enabled` is set to false on the local
record, then the record is sent with `resourceRadiusServerUpdate`. -/
def resourceRadiusServerDelete (c : Client) (d : RadiusServerData) :
    Outcome RadiusServerData :=
  resourceRadiusServerUpdate c { d with enabled := false }

/-! ## Port profile data source (`data_port_profile.go`, lines 20-48) -/

/-- Go `dataPortProfileRead`. The helper `resourcePortProfileSetResourceData`
is defined outside the files at hand and is taken as a parameter: given the
profile, the record and the site it returns the record after it and its
error. -/
def dataPortProfileRead
    (resourcePortProfileSetResourceData :
      PortProfile → PortProfileData → String → PortProfileData × Option Failure)
    (c : Client) (d : PortProfileData) : Outcome PortProfileData :=
  let name := if d.name = "" then "All" else d.name
  let site := if d.site = "" then c.site else d.site
  match c.ListPortProfile site with
  | Except.error e =>
    { d := d, err := some (ClientError.toFailure e), calls := [ClientCall.ListPortProfile site] }
  | Except.ok groups =>
    match groups.find? (fun g => decide (g.Name = name)) with
    | some g =>
      let r := resourcePortProfileSetResourceData g { d with id := g.ID, site := site } site
      { d := r.1, err := r.2, calls := [ClientCall.ListPortProfile site] }
    | none =>
      { d := d, err := some (Failure.error ("port profile not found with name " ++ name)),
        calls := [ClientCall.ListPortProfile site] }

/-- A block of schema `resourceDeviceConfigNetworkResource`. -/
def wellFormedNetworkConfig (cfg : Block) : Bool :=
  isStrAt cfg "ip" && isStrAt cfg "dns1" && isStrAt cfg "dns2" && isStrAt cfg "dns_suffix" &&
    isStrAt cfg "gateway" && isStrAt cfg "netmask" && isStrAt cfg "type" &&
    isBoolAt cfg "bonding_enabled"

/-! ## Auxiliary definitions for the proofs -/

/-- The struct `toPortOverride` holds before it looks at `link_speed`. -/
def portBase (n : Int) (name pid poe op : String) (dup : Option String) :
    DevicePortOverrides :=
  { PortIDX := n, Name := name, PortProfileID := pid, PoeMode := poe, OpMode := op,
    FullDuplex := match dup with
      | some d => decide (d = "full")
      | none => false,
    Autoneg := false, Speed := 0 }

/-- The five attributes `fromPortOverride` always emits. -/
def portAttrs (po : DevicePortOverrides) : Block :=
  [("number", Scalar.int po.PortIDX), ("name", Scalar.str po.Name),
   ("port_profile_id", Scalar.str po.PortProfileID),
   ("poe_mode", Scalar.str po.PoeMode), ("op_mode", Scalar.str po.OpMode)]

/-- The invariant of the map while the loop runs: keys are distinct and
every value is bound under its own key. -/
def KeyedBy {κ ν : Type} (key : ν → κ) (m : List (κ × ν)) : Prop :=
  (m.map Prod.fst).Nodup ∧ ∀ p ∈ m, key p.2 = p.1

/-- The value an element of a list of blocks holds under the attribute `k`;
nothing for an element that is no block. -/
def itemKey (k : String) (item : Item) : Option Scalar :=
  match item with
  | Item.block data => data.get k
  | Item.other _ => none

/-! ## Sample inputs -/

/-- A `port_override` block as the schema hands it over, all attributes set. -/
def portBlock (number : Int) (name link_speed duplex : String) : Block :=
  [("number", Scalar.int number), ("name", Scalar.str name),
   ("port_profile_id", Scalar.str ""), ("poe_mode", Scalar.str ""),
   ("op_mode", Scalar.str ""), ("link_speed", Scalar.str link_speed),
   ("duplex", Scalar.str duplex)]

/-- An `ethernet_override` block. -/
def ethernetBlock (ifname network_group : String) : Block :=
  [("interface", Scalar.str ifname), ("network_group", Scalar.str network_group)]

/-- Three port blocks, the first and the last for port 1. -/
def samplePorts : List Item :=
  [Item.block (portBlock 1 "first" "auto" ""), Item.block (portBlock 2 "other" "" ""),
   Item.block (portBlock 1 "last" "100" "full")]

/-- Three ethernet blocks, the first and the last for `eth1`. -/
def sampleEthernets : List Item :=
  [Item.block (ethernetBlock "eth1" "LAN"), Item.block (ethernetBlock "eth0" "WAN"),
   Item.block (ethernetBlock "eth1" "LAN2")]

/-- A controller that answers every call with the error `e`; the provider's
default site is `default`. -/
def offlineClient (e : ClientError) : Client :=
  { site := "default",
    ListDevice := fun _ => Except.error e,
    GetDevice := fun _ _ => Except.error e,
    UpdateDevice := fun _ _ => Except.error e,
    GetNetwork := fun _ _ => Except.error e,
    CreateNetwork := fun _ _ => Except.error e,
    UpdateNetwork := fun _ _ => Except.error e,
    GetAccount := fun _ _ => Except.error e,
    CreateAccount := fun _ _ => Except.error e,
    UpdateAccount := fun _ _ => Except.error e,
    GetSettingRadius := fun _ => Except.error e,
    UpdateSettingRadius := fun _ _ => Except.error e,
    ListPortProfile := fun _ => Except.error e }

/-- The RADIUS server of the acceptance test. -/
def sampleRadiusServer : RadiusServerData :=
  { id := "5f0c1a", enabled := false, secret := "secret",
    authentication_port := "1812", accounting_port := "1813",
    accounting_interim_interval := 3600,
    enable_tunneled_reply := true, configure_whole_network := true }

/-- Modelled from the spec: `cleanMAC` is defined outside the files at hand;
the operations take it as a parameter, and this instance serves the concrete
examples. It drops the separators `:` and `-` and lower-cases the rest, so
that the cleaned form of `aa:bb:cc:dd:ee:ff` is `aabbccddeeff`. -/
def sampleCleanMAC (mac : String) : String :=
  String.mk ((mac.data.filter (fun ch => decide (ch ≠ ':' ∧ ch ≠ '-'))).map Char.toLower)

/-- Modelled from the spec: `macAddressRegexp` is defined outside the files
at hand; the import takes its `MatchString` as a parameter, and this instance
serves the concrete examples. It accepts a text whose cleaned form is twelve
hexadecimal digits. -/
def sampleMacAddressRegexp (s : String) : Bool :=
  decide ((sampleCleanMAC s).data.length = 12) &&
    (sampleCleanMAC s).data.all
      (fun ch => decide (('0' ≤ ch ∧ ch ≤ '9') ∨ ('a' ≤ ch ∧ ch ≤ 'f')))

/-- A device as the controller lists it, with nothing configured. -/
def sampleDevice (id mac : String) : Device :=
  { ID := id, SiteID := "", MAC := mac, Name := "", Disabled := false, LedOverride := "",
    MgmtNetworkID := "", JumboframeEnabled := false, FlowctrlEnabled := false,
    StpVersion := "", StpPriority := "", PortOverrides := [], EthernetOverrides := [],
    ConfigNetwork :=
      { IP := "", DNS1 := "", DNS2 := "", DNSsuffix := "", Gateway := "", Netmask := "",
        Type_ := "", BondingEnabled := false },
    RadioTable := [] }

/-- A device record with the given ID, site and MAC and nothing else set. -/
def sampleDeviceData (id site mac : String) : DeviceData :=
  { id := id, site := site, mac := mac, name := "", disabled := false, led_override := "",
    mgmt_network_id := "", jumboframe_enabled := false, flowctrl_enabled := false,
    stp_version := "", stp_priority := 0, port_override := [], ethernet_override := [],
    network_config := [], radio_2g := [], radio_5g := [] }

/-- A controller whose site `site1` lists two devices and whose other sites
list none; every other call fails. -/
def deviceListClient : Client :=
  { offlineClient (ClientError.other "unreachable") with
    ListDevice := fun site =>
      if site = "site1" then
        Except.ok
          [sampleDevice "5e9f00" "00:11:22:33:44:55", sampleDevice "5e9f01" "AA:BB:CC:DD:EE:FF"]
      else Except.ok [] }

/-- A RADIUS user record. -/
def sampleRadiusUser : RadiusUserData :=
  { id := "60a1", username := "alice", password := "secret", vlan_id := 10,
    tunnel_type := 13, tunnel_medium_type := 6 }

/-- Two port blocks with distinct numbers. -/
def twoPorts : List Item :=
  [Item.block (portBlock 1 "uplink" "auto" ""), Item.block (portBlock 2 "camera" "100" "full")]

/-- The blocks of `twoPorts` in the other order. -/
def twoPortsSwapped : List Item :=
  [Item.block (portBlock 2 "camera" "100" "full"), Item.block (portBlock 1 "uplink" "auto" "")]

/-- Modelled from the spec: `resourcePortProfileSetResourceData` is defined
outside the files at hand; `dataPortProfileRead` takes it as a parameter, and
this instance serves the concrete examples. It copies the name and the
remaining fields of the profile into the record and returns no error. -/
def samplePortProfileSet (g : PortProfile) (d : PortProfileData) (site : String) :
    PortProfileData × Option Failure :=
  ({ d with site := site, name := g.Name, attrs := g.fields }, none)

/-- A controller with the three port profiles of the acceptance tests. -/
def portProfileClient : Client :=
  { offlineClient (ClientError.other "unreachable") with
    ListPortProfile := fun _ =>
      Except.ok
        [{ ID := "p-all", Name := "All", fields := [("forward", Scalar.str "all")] },
         { ID := "p-off", Name := "Disabled", fields := [("forward", Scalar.str "disabled")] },
         { ID := "p-lan", Name := "LAN", fields := [("forward", Scalar.str "native")] }] }

/-- A static `network_config` block. -/
def sampleNetworkConfig : Block :=
  [("ip", Scalar.str "192.168.1.20"), ("dns1", Scalar.str "1.1.1.1"),
   ("dns2", Scalar.str "1.0.0.1"), ("dns_suffix", Scalar.str "lan"),
   ("gateway", Scalar.str "192.168.1.1"), ("netmask", Scalar.str "255.255.255.0"),
   ("type", Scalar.str "static"), ("bonding_enabled", Scalar.bool false)]

end Unifi

namespace Unifi

/-! ## Facts about `Atoi` and `Itoa` -/

theorem digitOf_digitChar (d : Nat) (h : d < 10) : digitOf (digitChar d) = some d := by
  interval_cases d <;> rfl

theorem parseUintLoop_natDigitsAux (fuel : Nat) :
    ∀ (n : Nat) (acc : List Char), n < fuel → n ≤ 18446744073709551615 →
      parseUintLoop (natDigitsAux fuel n acc) 0 = parseUintLoop acc n := by
  induction fuel with
  | zero => intro n acc h; omega
  | succ fuel ih =>
    intro n acc h hmax
    unfold natDigitsAux
    by_cases h10 : n < 10
    · simp only [h10, if_true]
      simp [parseUintLoop, digitOf_digitChar n h10]
      omega
    · simp only [h10, if_false]
      rw [ih (n / 10) _ (by omega) (by omega)]
      have hd : digitOf (digitChar (n % 10)) = some (n % 10) :=
        digitOf_digitChar _ (Nat.mod_lt _ (by decide))
      have h1 : ¬ 1844674407370955162 ≤ n / 10 := by omega
      have h3 : n / 10 * 10 + n % 10 = n := by omega
      have h4 : ¬ 18446744073709551615 < n := by omega
      simp only [parseUintLoop, hd, h1, if_false, h3, h4]

theorem parseUintLoop_natDigits (n : Nat) (h : n ≤ 18446744073709551615) :
    parseUintLoop (natDigits n) 0 = Except.ok n := by
  unfold natDigits
  rw [parseUintLoop_natDigitsAux (n + 1) n [] (by omega) h]
  rfl

theorem natDigitsAux_ne_nil (fuel : Nat) :
    ∀ (n : Nat) (acc : List Char), natDigitsAux (fuel + 1) n acc ≠ [] := by
  induction fuel with
  | zero =>
    intro n acc
    unfold natDigitsAux
    by_cases h10 : n < 10
    · simp [h10]
    · simp [h10, natDigitsAux]
  | succ fuel ih =>
    intro n acc
    unfold natDigitsAux
    by_cases h10 : n < 10
    · simp [h10]
    · simp only [h10, if_false]
      exact ih _ _

theorem natDigits_eq_cons (n : Nat) (h : n ≤ 18446744073709551615) :
    ∃ c cs, natDigits n = c :: cs ∧ c ≠ '-' ∧ c ≠ '+' := by
  have hne : natDigits n ≠ [] := natDigitsAux_ne_nil n n []
  have hp := parseUintLoop_natDigits n h
  cases hds : natDigits n with
  | nil => exact absurd hds hne
  | cons c cs =>
    refine ⟨c, cs, rfl, ?_, ?_⟩
    · intro hc
      rw [hds, hc] at hp
      simp [parseUintLoop, digitOf] at hp
    · intro hc
      rw [hds, hc] at hp
      simp [parseUintLoop, digitOf] at hp

/-- Parsing the canonical decimal string of a Go `int` gives the `int` back. -/
theorem Atoi_Itoa (n : Int) (h : IsInt64 n) : Atoi (Itoa n) = (n, none) := by
  obtain ⟨hlo, hhi⟩ := h
  cases n with
  | ofNat m =>
    have hle : m ≤ 9223372036854775807 := by
      have : (m : Int) ≤ 9223372036854775807 := hhi
      omega
    obtain ⟨c, cs, hds, hm, hp⟩ := natDigits_eq_cons m (by omega)
    have hmag := parseUintLoop_natDigits m (by omega)
    rw [hds] at hmag
    have h1 : ¬ 9223372036854775808 ≤ m := by omega
    simp [Itoa, Atoi, hds, hm, hp, hmag, h1]
  | negSucc m =>
    have hle : m + 1 ≤ 9223372036854775808 := by
      have h1 : -9223372036854775808 ≤ Int.negSucc m := hlo
      rw [Int.negSucc_eq] at h1
      omega
    obtain ⟨c, cs, hds, _, _⟩ := natDigits_eq_cons (m + 1) (by omega)
    have hmag := parseUintLoop_natDigits (m + 1) (by omega)
    rw [hds] at hmag
    have h1 : ¬ 9223372036854775808 < m + 1 := by omega
    simp [Itoa, Atoi, hds, hmag, h1, Int.negSucc_eq]

/-! ## Reading a well-formed block -/

theorem isStrAt_get (m : Block) (k : String) (h : isStrAt m k = true) :
    ∃ s, m.get k = some (Scalar.str s) := by
  unfold isStrAt at h
  split at h
  · next s hs => exact ⟨s, hs⟩
  · exact absurd h (by decide)

theorem isIntAt_get (m : Block) (k : String) (h : isIntAt m k = true) :
    ∃ n, m.get k = some (Scalar.int n) ∧ IsInt64 n := by
  unfold isIntAt at h
  split at h
  · next n hn => exact ⟨n, hn, of_decide_eq_true h⟩
  · exact absurd h (by decide)

theorem isOptStrAt_get (m : Block) (k : String) (h : isOptStrAt m k = true) :
    m.get k = none ∨ ∃ s, m.get k = some (Scalar.str s) := by
  unfold isOptStrAt at h
  split at h
  · next hn => exact Or.inl hn
  · next s hs => exact Or.inr ⟨s, hs⟩
  · exact absurd h (by decide)

/-! ## Transmit power -/

theorem toRadioTable_eq (cfg : Block) (name radio channel power : String) (width : Int)
    (hc : cfg.get "channel" = some (Scalar.str channel))
    (hw : cfg.get "channel_width" = some (Scalar.int width))
    (hp : cfg.get "transmit_power" = some (Scalar.str power)) :
    toRadioTable cfg name radio = Except.ok
      { Name := name, Radio := radio, Channel := channel, Ht := Itoa width,
        TxPower := if (Atoi power).2 = none then power else "",
        TxPowerMode := if (Atoi power).2 = none then "custom" else power } := by
  by_cases h : (Atoi power).2 = none
  · simp [toRadioTable, hc, hw, hp, asString, asInt, h, bind, Except.bind, pure, Except.pure]
  · simp [toRadioTable, hc, hw, hp, asString, asInt, h, bind, Except.bind, pure, Except.pure]

theorem toRadioTable_ne_error (cfg : Block) (name radio msg : String) :
    toRadioTable cfg name radio ≠ Except.error (Failure.error msg) := by
  unfold toRadioTable
  cases hc : cfg.get "channel" with
  | none => simp [asString, bind, Except.bind]
  | some c =>
    cases c with
    | int n => simp [asString, bind, Except.bind]
    | bool b => simp [asString, bind, Except.bind]
    | str channel =>
      cases hw : cfg.get "channel_width" with
      | none => simp [asString, asInt, bind, Except.bind]
      | some w =>
        cases w with
        | str n => simp [asString, asInt, bind, Except.bind]
        | bool b => simp [asString, asInt, bind, Except.bind]
        | int width =>
          cases hp : cfg.get "transmit_power" with
          | none => simp [asString, asInt, bind, Except.bind]
          | some pw =>
            cases pw with
            | int n => simp [asString, asInt, bind, Except.bind]
            | bool b => simp [asString, asInt, bind, Except.bind]
            | str power =>
              by_cases h : (Atoi power).2 = none
              · simp [asString, asInt, h, bind, Except.bind, pure, Except.pure]
              · simp [asString, asInt, h, bind, Except.bind, pure, Except.pure]

/-- C3: for a well-formed radio block, `toRadioTable` succeeds; when
`transmit_power` parses with `strconv.Atoi` the result has `TxPower` equal to
that string and `TxPowerMode = "custom"`, otherwise `TxPower` is empty and
`TxPowerMode` is the string verbatim. `"15"` gives `("15", "custom")` and
`"auto"` gives `("", "auto")`. No block at all makes it return an `error`. -/
theorem toRadioTable_transmit_power (cfg : Block) (name radio power : String)
    (hwf : wellFormedRadio cfg = true)
    (hp : cfg.get "transmit_power" = some (Scalar.str power)) :
    (∃ rt, toRadioTable cfg name radio = Except.ok rt ∧
      ((Atoi power).2 = none → rt.TxPower = power ∧ rt.TxPowerMode = "custom") ∧
      ((Atoi power).2 ≠ none → rt.TxPower = "" ∧ rt.TxPowerMode = power) ∧
      (power = "15" → rt.TxPower = "15" ∧ rt.TxPowerMode = "custom") ∧
      (power = "auto" → rt.TxPower = "" ∧ rt.TxPowerMode = "auto")) ∧
    (∀ (other : Block) (msg : String),
      toRadioTable other name radio ≠ Except.error (Failure.error msg)) := by
  refine ⟨?_, fun other msg => toRadioTable_ne_error other name radio msg⟩
  simp only [wellFormedRadio, Bool.and_eq_true] at hwf
  obtain ⟨⟨h1, h2⟩, _⟩ := hwf
  obtain ⟨channel, hc⟩ := isStrAt_get _ _ h1
  obtain ⟨width, hw, _⟩ := isIntAt_get _ _ h2
  refine ⟨_, toRadioTable_eq cfg name radio channel power width hc hw hp, ?_, ?_, ?_, ?_⟩
  · intro h
    simp [h]
  · intro h
    simp [h]
  · intro h
    subst h
    have h15 : (Atoi "15").2 = none := by decide
    simp [h15]
  · intro h
    subst h
    have hauto : ¬ (Atoi "auto").2 = none := by decide
    simp [hauto]

theorem fromRadioTable_eq (rt : DeviceRadioTable) :
    fromRadioTable rt = Except.ok
      [("channel", Scalar.str rt.Channel), ("channel_width", Scalar.int (Atoi rt.Ht).1),
        ("transmit_power",
          Scalar.str (if rt.TxPowerMode = "custom" then rt.TxPower else rt.TxPowerMode))] := by
  by_cases h : rt.TxPowerMode = "custom"
  · simp [fromRadioTable, h, Block.set]
  · simp [fromRadioTable, h, Block.set]

/-- C4: encoding a well-formed radio block whose `transmit_power` parses as
an integer or is one of `low`, `medium`, `high`, `auto`, and decoding the
result, gives back the same `transmit_power`, `channel` and
`channel_width`. -/
theorem radioTable_roundtrip (cfg : Block) (name radio channel power : String) (width : Int)
    (hc : cfg.get "channel" = some (Scalar.str channel))
    (hw : cfg.get "channel_width" = some (Scalar.int width))
    (hwidth : IsInt64 width)
    (hp : cfg.get "transmit_power" = some (Scalar.str power))
    (hpower : (Atoi power).2 = none ∨
      power = "low" ∨ power = "medium" ∨ power = "high" ∨ power = "auto") :
    ∃ rt decoded, toRadioTable cfg name radio = Except.ok rt ∧
      fromRadioTable rt = Except.ok decoded ∧
      decoded.get "transmit_power" = some (Scalar.str power) ∧
      decoded.get "channel" = some (Scalar.str channel) ∧
      decoded.get "channel_width" = some (Scalar.int width) := by
  refine ⟨_, _, toRadioTable_eq cfg name radio channel power width hc hw hp,
    fromRadioTable_eq _, ?_⟩
  have hht : (Atoi (Itoa width)).1 = width := by rw [Atoi_Itoa width hwidth]
  by_cases h : (Atoi power).2 = none
  · simp [h, hht, Block.get]
  · have hne : power ≠ "custom" := by
      rcases hpower with h1 | h1 | h1 | h1 | h1
      · exact absurd h1 h
      all_goals (subst h1; decide)
    simp [h, hne, hht, Block.get]

/-- C4, at a concrete block: `transmit_power = "15"` on radio `ng`. -/
theorem radioTable_roundtrip_witness :
    ∃ rt decoded, toRadioTable
        [("channel", Scalar.str "auto"), ("channel_width", Scalar.int 40),
          ("transmit_power", Scalar.str "15")] "ra0" "ng" = Except.ok rt ∧
      fromRadioTable rt = Except.ok decoded ∧
      decoded.get "transmit_power" = some (Scalar.str "15") ∧
      decoded.get "channel" = some (Scalar.str "auto") ∧
      decoded.get "channel_width" = some (Scalar.int 40) :=
  radioTable_roundtrip _ "ra0" "ng" "auto" "15" 40 (by decide) (by decide) (by decide)
    (by decide) (Or.inl (by decide))

/-- C3, at a concrete block: `transmit_power = "auto"` on radio `na`. -/
theorem toRadioTable_transmit_power_witness :
    (∃ rt, toRadioTable
        [("channel", Scalar.str "36"), ("channel_width", Scalar.int 80),
          ("transmit_power", Scalar.str "auto")] "rai0" "na" = Except.ok rt ∧
      ((Atoi "auto").2 = none → rt.TxPower = "auto" ∧ rt.TxPowerMode = "custom") ∧
      ((Atoi "auto").2 ≠ none → rt.TxPower = "" ∧ rt.TxPowerMode = "auto") ∧
      ("auto" = "15" → rt.TxPower = "15" ∧ rt.TxPowerMode = "custom") ∧
      ("auto" = "auto" → rt.TxPower = "" ∧ rt.TxPowerMode = "auto")) ∧
    (∀ (other : Block) (msg : String),
      toRadioTable other "rai0" "na" ≠ Except.error (Failure.error msg)) :=
  toRadioTable_transmit_power _ "rai0" "na" "auto" (by decide) (by decide)

/-! ## Link speed and duplex -/

theorem toPortOverride_eq (data : Block) (n : Int) (name pid poe op : String)
    (dup ls : Option String)
    (h1 : data.get "number" = some (Scalar.int n))
    (h2 : data.get "name" = some (Scalar.str name))
    (h3 : data.get "port_profile_id" = some (Scalar.str pid))
    (h4 : data.get "poe_mode" = some (Scalar.str poe))
    (h5 : data.get "op_mode" = some (Scalar.str op))
    (h6 : data.get "duplex" = dup.map Scalar.str)
    (h7 : data.get "link_speed" = ls.map Scalar.str) :
    toPortOverride data =
      match ls with
      | none => Except.ok (portBase n name pid poe op dup)
      | some s =>
        if s = "" then Except.ok (portBase n name pid poe op dup)
        else if s = "auto" then
          Except.ok { portBase n name pid poe op dup with Autoneg := true }
        else
          match Atoi s with
          | (i, none) => Except.ok { portBase n name pid poe op dup with Speed := i }
          | (_, some _) => Except.error (Failure.error ("link_speed = " ++ s)) := by
  cases dup with
  | none =>
    cases ls with
    | none =>
      simp only [Option.map] at h6 h7
      simp [toPortOverride, h1, h2, h3, h4, h5, h6, h7, asString, asInt, bind, Except.bind,
        pure, Except.pure, portBase]
    | some s =>
      simp only [Option.map] at h6 h7
      simp only [toPortOverride, h1, h2, h3, h4, h5, h6, h7, asString, asInt, bind,
        Except.bind, pure, Except.pure, portBase]
      by_cases hs : s = ""
      · simp [hs]
      · by_cases ha : s = "auto"
        · simp [ha]
        · simp only [hs, ha, if_false]
          rcases hA : Atoi s with ⟨i, e⟩
          cases e <;> simp [throw, throwThe, MonadExceptOf.throw]
  | some d =>
    cases ls with
    | none =>
      simp only [Option.map] at h6 h7
      simp [toPortOverride, h1, h2, h3, h4, h5, h6, h7, asString, asInt, bind, Except.bind,
        pure, Except.pure, portBase]
    | some s =>
      simp only [Option.map] at h6 h7
      simp only [toPortOverride, h1, h2, h3, h4, h5, h6, h7, asString, asInt, bind,
        Except.bind, pure, Except.pure, portBase]
      by_cases hs : s = ""
      · simp [hs]
      · by_cases ha : s = "auto"
        · simp [ha]
        · simp only [hs, ha, if_false]
          rcases hA : Atoi s with ⟨i, e⟩
          cases e <;> simp [throw, throwThe, MonadExceptOf.throw]

/-- A well-formed port block, read field by field. -/
theorem wellFormedPortOverride_get (data : Block) (h : wellFormedPortOverride data = true) :
    ∃ (n : Int) (name pid poe op : String) (dup ls : Option String),
      data.get "number" = some (Scalar.int n) ∧
      data.get "name" = some (Scalar.str name) ∧
      data.get "port_profile_id" = some (Scalar.str pid) ∧
      data.get "poe_mode" = some (Scalar.str poe) ∧
      data.get "op_mode" = some (Scalar.str op) ∧
      data.get "duplex" = dup.map Scalar.str ∧
      data.get "link_speed" = ls.map Scalar.str := by
  simp only [wellFormedPortOverride, Bool.and_eq_true] at h
  obtain ⟨⟨⟨⟨⟨⟨h1, h2⟩, h3⟩, h4⟩, h5⟩, h6⟩, h7⟩ := h
  obtain ⟨n, hn, _⟩ := isIntAt_get _ _ h1
  obtain ⟨name, hname⟩ := isStrAt_get _ _ h2
  obtain ⟨pid, hpid⟩ := isStrAt_get _ _ h3
  obtain ⟨poe, hpoe⟩ := isStrAt_get _ _ h4
  obtain ⟨op, hop⟩ := isStrAt_get _ _ h5
  have hd : ∃ dup : Option String, data.get "duplex" = dup.map Scalar.str := by
    rcases isOptStrAt_get _ _ h6 with h | ⟨d, h⟩
    · exact ⟨none, h⟩
    · exact ⟨some d, h⟩
  have hl : ∃ ls : Option String, data.get "link_speed" = ls.map Scalar.str := by
    rcases isOptStrAt_get _ _ h7 with h | ⟨d, h⟩
    · exact ⟨none, h⟩
    · exact ⟨some d, h⟩
  obtain ⟨dup, hdup⟩ := hd
  obtain ⟨ls, hls⟩ := hl
  exact ⟨n, name, pid, poe, op, dup, ls, hn, hname, hpid, hpoe, hop, hdup, hls⟩

theorem bind_eq_ok {ε α β : Type} (x : Except ε α) (f : α → Except ε β) (b : β) :
    (x >>= f) = Except.ok b ↔ ∃ a, x = Except.ok a ∧ f a = Except.ok b := by
  cases x <;> simp [bind, Except.bind]

theorem asString_eq_ok (x : Option Scalar) (s : String) :
    asString x = Except.ok s ↔ x = some (Scalar.str s) := by
  unfold asString
  split <;> simp_all

theorem asInt_eq_ok (x : Option Scalar) (n : Int) :
    asInt x = Except.ok n ↔ x = some (Scalar.int n) := by
  unfold asInt
  split <;> simp_all

/-- A block that `toPortOverride` accepts is well typed on every attribute
the function reads. -/
theorem toPortOverride_ok_get (data : Block) (po : DevicePortOverrides)
    (h : toPortOverride data = Except.ok po) :
    ∃ (n : Int) (name pid poe op : String) (dup ls : Option String),
      data.get "number" = some (Scalar.int n) ∧
      data.get "name" = some (Scalar.str name) ∧
      data.get "port_profile_id" = some (Scalar.str pid) ∧
      data.get "poe_mode" = some (Scalar.str poe) ∧
      data.get "op_mode" = some (Scalar.str op) ∧
      data.get "duplex" = dup.map Scalar.str ∧
      data.get "link_speed" = ls.map Scalar.str := by
  unfold toPortOverride at h
  simp only [bind_eq_ok, asString_eq_ok, asInt_eq_ok] at h
  obtain ⟨n, hn, name, hname, pid, hpid, poe, hpoe, op, hop, h⟩ := h
  have hl : ∀ (y : DevicePortOverrides),
      (match data.get "link_speed" with
        | some val => do
          let s ← asString (some val)
          if s = "" then pure y
            else
              if s = "auto" then
                pure
                  { PortIDX := y.PortIDX, Name := y.Name, PortProfileID := y.PortProfileID,
                    PoeMode := y.PoeMode, OpMode := y.OpMode, FullDuplex := y.FullDuplex,
                    Autoneg := true, Speed := y.Speed }
              else
                match Atoi s with
                | (i, none) =>
                  pure
                    { PortIDX := y.PortIDX, Name := y.Name, PortProfileID := y.PortProfileID,
                      PoeMode := y.PoeMode, OpMode := y.OpMode, FullDuplex := y.FullDuplex,
                      Autoneg := y.Autoneg, Speed := i }
                | (_, some _) => throw (Failure.error ("link_speed = " ++ s))
        | none => pure y) = Except.ok po →
      ∃ ls : Option String, data.get "link_speed" = ls.map Scalar.str := by
    intro y hy
    cases hg : data.get "link_speed" with
    | none => exact ⟨none, rfl⟩
    | some v =>
      rw [hg] at hy
      simp only [bind_eq_ok, asString_eq_ok] at hy
      obtain ⟨d, hd, _⟩ := hy
      exact ⟨some d, by simpa using hd⟩
  cases hg : data.get "duplex" with
  | none =>
    rw [hg] at h
    simp only [bind_eq_ok] at h
    obtain ⟨y, _, hy⟩ := h
    obtain ⟨ls, hls⟩ := hl y hy
    exact ⟨n, name, pid, poe, op, none, ls, hn, hname, hpid, hpoe, hop, rfl, hls⟩
  | some v =>
    rw [hg] at h
    simp only [bind_eq_ok, asString_eq_ok] at h
    obtain ⟨d, hd, y, _, hy⟩ := h
    obtain ⟨ls, hls⟩ := hl y hy
    exact ⟨n, name, pid, poe, op, some d, ls, hn, hname, hpid, hpoe, hop,
      by simpa using hd, hls⟩

theorem fromPortOverride_eq (po : DevicePortOverrides) :
    fromPortOverride po = Except.ok
      (if po.Autoneg = true then portAttrs po ++ [("link_speed", Scalar.str "auto")]
       else if po.Speed ≠ 0 then
         portAttrs po ++ [("link_speed", Scalar.str (Itoa po.Speed)),
           ("duplex", Scalar.str (if po.FullDuplex = true then "full" else "half"))]
       else portAttrs po) := by
  by_cases ha : po.Autoneg = true
  · simp [fromPortOverride, ha, Block.set, portAttrs]
  · by_cases hs : po.Speed = 0
    · simp [fromPortOverride, ha, hs, Block.set, portAttrs]
    · by_cases hf : po.FullDuplex = true
      · simp [fromPortOverride, ha, hs, hf, Block.set, portAttrs]
      · simp [fromPortOverride, ha, hs, hf, Block.set, portAttrs]

/-- C7: `fromPortOverride` never fails; the decoded block has a `duplex`
attribute exactly when `Autoneg` is false and `Speed` is non-zero, and then
it is `"full"` or `"half"` after `FullDuplex`; `link_speed` is `"auto"` when
`Autoneg` is true, the decimal string of `Speed` when `Autoneg` is false and
`Speed` is non-zero, and absent otherwise. -/
theorem fromPortOverride_link_speed_duplex (po : DevicePortOverrides) :
    ∃ port, fromPortOverride po = Except.ok port ∧
      (port.get "duplex" ≠ none ↔ (po.Autoneg = false ∧ po.Speed ≠ 0)) ∧
      (po.Autoneg = false → po.Speed ≠ 0 → po.FullDuplex = true →
        port.get "duplex" = some (Scalar.str "full")) ∧
      (po.Autoneg = false → po.Speed ≠ 0 → po.FullDuplex = false →
        port.get "duplex" = some (Scalar.str "half")) ∧
      (po.Autoneg = true → port.get "link_speed" = some (Scalar.str "auto")) ∧
      (po.Autoneg = false → po.Speed ≠ 0 →
        port.get "link_speed" = some (Scalar.str (Itoa po.Speed))) ∧
      (po.Autoneg = false → po.Speed = 0 → port.get "link_speed" = none) := by
  refine ⟨_, fromPortOverride_eq po, ?_⟩
  by_cases ha : po.Autoneg = true
  · simp [ha, portAttrs, Block.get]
  · by_cases hs : po.Speed = 0
    · simp [ha, hs, portAttrs, Block.get]
    · by_cases hf : po.FullDuplex = true
      · simp [ha, hs, hf, portAttrs, Block.get]
      · simp [ha, hs, hf, portAttrs, Block.get]

theorem Atoi_empty : Atoi "" = (0, some NumError.ErrSyntax) := by decide

theorem Atoi_auto : Atoi "auto" = (0, some NumError.ErrSyntax) := by decide

/-- C5: on a well-formed port block with `link_speed = s`: the empty string
leaves `Autoneg` false and `Speed` 0; `"auto"` sets `Autoneg` and leaves
`Speed` 0; a string that `strconv.Atoi` parses to `n` sets `Speed = n` and
leaves `Autoneg` false; an `error` is returned exactly when `s` is
non-empty, not `"auto"` and unparseable, its text is `"link_speed = "`
followed by `s`, and there is no panic. No accepted block of any shape
gives `Autoneg` together with a non-zero `Speed`. -/
theorem toPortOverride_link_speed (data : Block) (s : String)
    (hwf : wellFormedPortOverride data = true)
    (hs : data.get "link_speed" = some (Scalar.str s)) :
    (s = "" → ∃ po, toPortOverride data = Except.ok po ∧ po.Autoneg = false ∧ po.Speed = 0) ∧
    (s = "auto" →
      ∃ po, toPortOverride data = Except.ok po ∧ po.Autoneg = true ∧ po.Speed = 0) ∧
    (∀ n : Int, Atoi s = (n, none) →
      ∃ po, toPortOverride data = Except.ok po ∧ po.Speed = n ∧ po.Autoneg = false) ∧
    ((∃ msg, toPortOverride data = Except.error (Failure.error msg)) ↔
      (s ≠ "" ∧ s ≠ "auto" ∧ (Atoi s).2 ≠ none)) ∧
    (∀ msg, toPortOverride data = Except.error (Failure.error msg) →
      msg = "link_speed = " ++ s) ∧
    toPortOverride data ≠ Except.error Failure.panic ∧
    (∀ (other : Block) (po : DevicePortOverrides), toPortOverride other = Except.ok po →
      ¬ (po.Autoneg = true ∧ po.Speed ≠ 0)) := by
  obtain ⟨n, name, pid, poe, op, dup, ls, h1, h2, h3, h4, h5, h6, h7⟩ :=
    wellFormedPortOverride_get data hwf
  have heq := toPortOverride_eq data n name pid poe op dup ls h1 h2 h3 h4 h5 h6 h7
  have hls : ls = some s := by
    rw [hs] at h7
    cases ls with
    | none => simp at h7
    | some t => simpa using h7.symm
  subst hls
  simp only at heq
  refine ⟨?_, ?_, ?_, ?_, ?_, ?_, ?_⟩
  · intro he
    subst he
    exact ⟨_, heq, rfl, rfl⟩
  · intro he
    subst he
    exact ⟨_, heq, rfl, rfl⟩
  · intro i hi
    have hne : s ≠ "" := by
      intro he; subst he; rw [Atoi_empty] at hi; simp at hi
    have hna : s ≠ "auto" := by
      intro he; subst he; rw [Atoi_auto] at hi; simp at hi
    rw [heq]
    simp [hne, hna, hi, portBase]
  · rw [heq]
    by_cases hne : s = ""
    · simp [hne]
    · by_cases hna : s = "auto"
      · simp [hna]
      · rcases hA : Atoi s with ⟨i, e⟩
        cases e <;> simp [hne, hna]
  · intro msg hmsg
    rw [heq] at hmsg
    by_cases hne : s = ""
    · simp [hne] at hmsg
    · by_cases hna : s = "auto"
      · simp [hna] at hmsg
      · rcases hA : Atoi s with ⟨i, e⟩
        rw [hA] at hmsg
        cases e <;> simp [hne, hna] at hmsg
        exact hmsg.symm
  · rw [heq]
    by_cases hne : s = ""
    · simp [hne]
    · by_cases hna : s = "auto"
      · simp [hna]
      · rcases hA : Atoi s with ⟨i, e⟩
        cases e <;> simp [hne, hna]
  · intro other po hpo
    obtain ⟨n, name, pid, poe, op, dup, ls, h1, h2, h3, h4, h5, h6, h7⟩ :=
      toPortOverride_ok_get other po hpo
    rw [toPortOverride_eq other n name pid poe op dup ls h1 h2 h3 h4 h5 h6 h7] at hpo
    cases ls with
    | none =>
      simp only [Except.ok.injEq] at hpo
      subst hpo
      simp [portBase]
    | some t =>
      simp only at hpo
      by_cases hne : t = ""
      · simp only [hne, if_true, Except.ok.injEq] at hpo
        subst hpo
        simp [portBase]
      · by_cases hna : t = "auto"
        · simp only [hna, if_true, Except.ok.injEq] at hpo
          rw [if_neg (by decide)] at hpo
          simp only [Except.ok.injEq] at hpo
          subst hpo
          simp [portBase]
        · rcases hA : Atoi t with ⟨i, e⟩
          rw [hA] at hpo
          cases e with
          | none =>
            simp only [hne, hna, if_false, Except.ok.injEq] at hpo
            subst hpo
            simp [portBase]
          | some e1 => simp [hne, hna] at hpo

theorem Itoa_ne_empty (n : Int) (h : IsInt64 n) : Itoa n ≠ "" := by
  intro he
  have h1 := Atoi_Itoa n h
  rw [he, Atoi_empty] at h1
  simp at h1

theorem Itoa_ne_auto (n : Int) (h : IsInt64 n) : Itoa n ≠ "auto" := by
  intro he
  have h1 := Atoi_Itoa n h
  rw [he, Atoi_auto] at h1
  simp at h1

theorem toPortOverride_Itoa (data : Block) (n i : Int) (name pid poe op : String)
    (dup : Option String) (hi : IsInt64 i)
    (h1 : data.get "number" = some (Scalar.int n))
    (h2 : data.get "name" = some (Scalar.str name))
    (h3 : data.get "port_profile_id" = some (Scalar.str pid))
    (h4 : data.get "poe_mode" = some (Scalar.str poe))
    (h5 : data.get "op_mode" = some (Scalar.str op))
    (h6 : data.get "duplex" = dup.map Scalar.str)
    (h7 : data.get "link_speed" = some (Scalar.str (Itoa i))) :
    toPortOverride data = Except.ok { portBase n name pid poe op dup with Speed := i } := by
  rw [toPortOverride_eq data n name pid poe op dup (some (Itoa i)) h1 h2 h3 h4 h5 h6 h7]
  simp [Itoa_ne_empty i hi, Itoa_ne_auto i hi, Atoi_Itoa i hi]

/-- C6: for a Go `int` `n ≠ 0` and `d` one of `"full"`, `"half"`, a
well-formed block with `link_speed = Itoa n` and `duplex = d` encodes to
`Speed = n`, `Autoneg = false`, `FullDuplex = (d = "full")`, and that
decodes to `link_speed = Itoa n` and `duplex = d`. -/
theorem portOverride_fixed_speed (data : Block) (n : Int) (d : String)
    (hwf : wellFormedPortOverride data = true)
    (hn : n ≠ 0) (hrange : IsInt64 n) (hd : d = "full" ∨ d = "half")
    (hls : data.get "link_speed" = some (Scalar.str (Itoa n)))
    (hdup : data.get "duplex" = some (Scalar.str d)) :
    ∃ po port, toPortOverride data = Except.ok po ∧
      po.Speed = n ∧ po.Autoneg = false ∧ po.FullDuplex = decide (d = "full") ∧
      fromPortOverride po = Except.ok port ∧
      port.get "link_speed" = some (Scalar.str (Itoa n)) ∧
      port.get "duplex" = some (Scalar.str d) := by
  obtain ⟨k, name, pid, poe, op, dup, ls, h1, h2, h3, h4, h5, h6, _⟩ :=
    wellFormedPortOverride_get data hwf
  have hdup1 : dup = some d := by
    rw [hdup] at h6
    cases dup with
    | none => simp at h6
    | some t => simpa using h6.symm
  subst hdup1
  refine ⟨_, _, toPortOverride_Itoa data k n name pid poe op (some d) hrange h1 h2 h3 h4 h5
    h6 hls, rfl, rfl, rfl, fromPortOverride_eq _, ?_, ?_⟩
  · simp [portBase, hn, portAttrs, Block.get]
  · rcases hd with hd | hd
    · subst hd
      simp [portBase, hn, portAttrs, Block.get]
    · subst hd
      simp [portBase, hn, portAttrs, Block.get]

/-- C6, at `link_speed = "100"`, `duplex = "full"`. -/
theorem portOverride_fixed_speed_witness :
    ∃ po port, toPortOverride
        [("number", Scalar.int 3), ("name", Scalar.str "uplink"),
          ("port_profile_id", Scalar.str ""), ("poe_mode", Scalar.str "auto"),
          ("op_mode", Scalar.str "switch"), ("link_speed", Scalar.str "100"),
          ("duplex", Scalar.str "full")] = Except.ok po ∧
      po.Speed = 100 ∧ po.Autoneg = false ∧ po.FullDuplex = decide ("full" = "full") ∧
      fromPortOverride po = Except.ok port ∧
      port.get "link_speed" = some (Scalar.str (Itoa 100)) ∧
      port.get "duplex" = some (Scalar.str "full") :=
  portOverride_fixed_speed _ 100 "full" (by decide) (by decide) (by decide)
    (Or.inl rfl) (by decide) (by decide)

/-- C5, at `link_speed = "1000x"`, which is rejected with its value named. -/
theorem toPortOverride_link_speed_witness :
    toPortOverride
        [("number", Scalar.int 1), ("name", Scalar.str ""),
          ("port_profile_id", Scalar.str ""), ("poe_mode", Scalar.str ""),
          ("op_mode", Scalar.str ""), ("link_speed", Scalar.str "1000x"),
          ("duplex", Scalar.str "")]
      = Except.error (Failure.error "link_speed = 1000x") ∧
    ∀ msg, toPortOverride
        [("number", Scalar.int 1), ("name", Scalar.str ""),
          ("port_profile_id", Scalar.str ""), ("poe_mode", Scalar.str ""),
          ("op_mode", Scalar.str ""), ("link_speed", Scalar.str "1000x"),
          ("duplex", Scalar.str "")]
      = Except.error (Failure.error msg) → msg = "link_speed = " ++ "1000x" :=
  ⟨by decide,
    (toPortOverride_link_speed _ "1000x" (by decide) (by decide)).2.2.2.2.1⟩

/-- C8 as stated fails: a block with `link_speed = "auto"` and
`duplex = "full"` is accepted, and the decoded block has no `duplex`. -/
theorem portOverride_roundtrip_counterexample :
    toPortOverride
        [("number", Scalar.int 1), ("name", Scalar.str "p1"),
          ("port_profile_id", Scalar.str ""), ("poe_mode", Scalar.str "auto"),
          ("op_mode", Scalar.str "switch"), ("link_speed", Scalar.str "auto"),
          ("duplex", Scalar.str "full")]
      = Except.ok
        { PortIDX := 1, Name := "p1", PortProfileID := "", PoeMode := "auto",
          OpMode := "switch", FullDuplex := true, Autoneg := true, Speed := 0 } ∧
    fromPortOverride
        { PortIDX := 1, Name := "p1", PortProfileID := "", PoeMode := "auto",
          OpMode := "switch", FullDuplex := true, Autoneg := true, Speed := 0 }
      = Except.ok [("number", Scalar.int 1), ("name", Scalar.str "p1"),
          ("port_profile_id", Scalar.str ""), ("poe_mode", Scalar.str "auto"),
          ("op_mode", Scalar.str "switch"), ("link_speed", Scalar.str "auto")] ∧
    Block.get [("number", Scalar.int 1), ("name", Scalar.str "p1"),
          ("port_profile_id", Scalar.str ""), ("poe_mode", Scalar.str "auto"),
          ("op_mode", Scalar.str "switch"), ("link_speed", Scalar.str "auto")] "duplex"
      ≠ some (Scalar.str "full") := by
  decide

theorem toPortOverride_ok_fields (data : Block) (po : DevicePortOverrides)
    (n : Int) (name pid poe op : String) (dup ls : Option String)
    (h1 : data.get "number" = some (Scalar.int n))
    (h2 : data.get "name" = some (Scalar.str name))
    (h3 : data.get "port_profile_id" = some (Scalar.str pid))
    (h4 : data.get "poe_mode" = some (Scalar.str poe))
    (h5 : data.get "op_mode" = some (Scalar.str op))
    (h6 : data.get "duplex" = dup.map Scalar.str)
    (h7 : data.get "link_speed" = ls.map Scalar.str)
    (hpo : toPortOverride data = Except.ok po) :
    po.PortIDX = n ∧ po.Name = name ∧ po.PortProfileID = pid ∧ po.PoeMode = poe ∧
      po.OpMode = op ∧ po.FullDuplex = (portBase n name pid poe op dup).FullDuplex := by
  rw [toPortOverride_eq data n name pid poe op dup ls h1 h2 h3 h4 h5 h6 h7] at hpo
  cases ls with
  | none =>
    simp only [Except.ok.injEq] at hpo
    subst hpo
    simp [portBase]
  | some t =>
    simp only at hpo
    by_cases hne : t = ""
    · simp only [hne, if_true, Except.ok.injEq] at hpo
      subst hpo
      simp [portBase]
    · by_cases hna : t = "auto"
      · simp only [hna, if_true, Except.ok.injEq] at hpo
        rw [if_neg (by decide)] at hpo
        simp only [Except.ok.injEq] at hpo
        subst hpo
        simp [portBase]
      · rcases hA : Atoi t with ⟨i, e⟩
        rw [hA] at hpo
        cases e with
        | none =>
          simp only [hne, hna, if_false, Except.ok.injEq] at hpo
          subst hpo
          simp [portBase]
        | some e1 => simp [hne, hna] at hpo

theorem fromPortOverride_ok_attrs (po : DevicePortOverrides) (port : Block)
    (h : fromPortOverride po = Except.ok port) :
    port.get "number" = some (Scalar.int po.PortIDX) ∧
    port.get "name" = some (Scalar.str po.Name) ∧
    port.get "port_profile_id" = some (Scalar.str po.PortProfileID) ∧
    port.get "poe_mode" = some (Scalar.str po.PoeMode) ∧
    port.get "op_mode" = some (Scalar.str po.OpMode) := by
  rw [fromPortOverride_eq] at h
  simp only [Except.ok.injEq] at h
  subst h
  by_cases ha : po.Autoneg = true
  · simp [ha, portAttrs, Block.get]
  · by_cases hs : po.Speed = 0
    · simp [ha, hs, portAttrs, Block.get]
    · simp [ha, hs, portAttrs, Block.get]

theorem optStr_eq_some (ls : Option String) (x : Option Scalar) (t : String)
    (h : x = ls.map Scalar.str) (hx : x = some (Scalar.str t)) : ls = some t := by
  rw [hx] at h
  cases ls with
  | none => simp at h
  | some u => simpa using h.symm

/-- C8, amended: for every block `toPortOverride` accepts, decoding the
encoded block reproduces `number`, `name`, `port_profile_id`, `poe_mode` and
`op_mode`; `link_speed` is reproduced when it is `"auto"` or the canonical
decimal string of a non-zero Go `int`, and is absent from the decoded block
when the input has it empty or absent; `duplex` is reproduced when
`link_speed` is such a decimal string and `duplex` is `"full"` or `"half"`,
and is absent from the decoded block when `link_speed` is `"auto"`, empty or
absent. -/
theorem portOverride_roundtrip_amended (data : Block) (po : DevicePortOverrides)
    (port : Block)
    (hto : toPortOverride data = Except.ok po)
    (hfrom : fromPortOverride po = Except.ok port) :
    (port.get "number" = data.get "number" ∧ port.get "name" = data.get "name" ∧
      port.get "port_profile_id" = data.get "port_profile_id" ∧
      port.get "poe_mode" = data.get "poe_mode" ∧
      port.get "op_mode" = data.get "op_mode") ∧
    (data.get "link_speed" = some (Scalar.str "auto") →
      port.get "link_speed" = data.get "link_speed" ∧ port.get "duplex" = none) ∧
    (∀ n : Int, n ≠ 0 → IsInt64 n → data.get "link_speed" = some (Scalar.str (Itoa n)) →
      port.get "link_speed" = data.get "link_speed" ∧
      ((data.get "duplex" = some (Scalar.str "full") ∨
          data.get "duplex" = some (Scalar.str "half")) →
        port.get "duplex" = data.get "duplex")) ∧
    ((data.get "link_speed" = none ∨ data.get "link_speed" = some (Scalar.str "")) →
      port.get "link_speed" = none ∧ port.get "duplex" = none) := by
  obtain ⟨n, name, pid, poe, op, dup, ls, h1, h2, h3, h4, h5, h6, h7⟩ :=
    toPortOverride_ok_get data po hto
  obtain ⟨f1, f2, f3, f4, f5, f6⟩ :=
    toPortOverride_ok_fields data po n name pid poe op dup ls h1 h2 h3 h4 h5 h6 h7 hto
  obtain ⟨g1, g2, g3, g4, g5⟩ := fromPortOverride_ok_attrs po port hfrom
  have heq := toPortOverride_eq data n name pid poe op dup ls h1 h2 h3 h4 h5 h6 h7
  rw [hto] at heq
  rw [fromPortOverride_eq] at hfrom
  simp only [Except.ok.injEq] at hfrom
  refine ⟨⟨?_, ?_, ?_, ?_, ?_⟩, ?_, ?_, ?_⟩
  · rw [g1, h1, f1]
  · rw [g2, h2, f2]
  · rw [g3, h3, f3]
  · rw [g4, h4, f4]
  · rw [g5, h5, f5]
  · intro hauto
    have hls := optStr_eq_some ls _ "auto" h7 hauto
    subst hls
    have hpo : (Except.ok po : Except Failure DevicePortOverrides) =
        Except.ok { portBase n name pid poe op dup with Autoneg := true } := by
      rw [heq]
      simp
    simp only [Except.ok.injEq] at hpo
    subst hpo
    subst hfrom
    rw [hauto]
    simp [portBase, portAttrs, Block.get]
  · intro i hi0 hi hls
    have hls1 := optStr_eq_some ls _ (Itoa i) h7 hls
    subst hls1
    have hpo := toPortOverride_Itoa data n i name pid poe op dup hi h1 h2 h3 h4 h5 h6 hls
    rw [hto] at hpo
    simp only [Except.ok.injEq] at hpo
    subst hpo
    subst hfrom
    rw [hls]
    refine ⟨by simp [portBase, portAttrs, Block.get, hi0], ?_⟩
    intro hd
    rcases hd with hd | hd
    · have hdup := optStr_eq_some dup _ "full" h6 hd
      subst hdup
      rw [hd]
      simp [portBase, portAttrs, Block.get, hi0]
    · have hdup := optStr_eq_some dup _ "half" h6 hd
      subst hdup
      rw [hd]
      simp [portBase, portAttrs, Block.get, hi0]
  · intro hunset
    have hbase : po = portBase n name pid poe op dup := by
      rcases hunset with hu | hu
      · cases ls with
        | none => simpa using heq
        | some t =>
          rw [hu] at h7
          simp at h7
      · have hls := optStr_eq_some ls _ "" h7 hu
        subst hls
        simpa using heq
    subst hbase
    subst hfrom
    simp [portBase, portAttrs, Block.get]

/-- C8 amended, at `link_speed = "100"`, `duplex = "half"`. -/
theorem portOverride_roundtrip_amended_witness :
    Block.get [("number", Scalar.int 7), ("name", Scalar.str "cam"),
        ("port_profile_id", Scalar.str "abc"), ("poe_mode", Scalar.str "off"),
        ("op_mode", Scalar.str "switch"), ("link_speed", Scalar.str "100"),
        ("duplex", Scalar.str "half")] "duplex" = some (Scalar.str "half") ∧
    Block.get [("number", Scalar.int 7), ("name", Scalar.str "cam"),
        ("port_profile_id", Scalar.str "abc"), ("poe_mode", Scalar.str "off"),
        ("op_mode", Scalar.str "switch"), ("link_speed", Scalar.str "100"),
        ("duplex", Scalar.str "half")] "link_speed" = some (Scalar.str "100") :=
  have h := portOverride_roundtrip_amended
    [("number", Scalar.int 7), ("name", Scalar.str "cam"),
      ("port_profile_id", Scalar.str "abc"), ("poe_mode", Scalar.str "off"),
      ("op_mode", Scalar.str "switch"), ("duplex", Scalar.str "half"),
      ("link_speed", Scalar.str "100")]
    { PortIDX := 7, Name := "cam", PortProfileID := "abc", PoeMode := "off",
      OpMode := "switch", FullDuplex := false, Autoneg := false, Speed := 100 }
    [("number", Scalar.int 7), ("name", Scalar.str "cam"),
      ("port_profile_id", Scalar.str "abc"), ("poe_mode", Scalar.str "off"),
      ("op_mode", Scalar.str "switch"), ("link_speed", Scalar.str "100"),
      ("duplex", Scalar.str "half")]
    (by decide) (by decide)
  ⟨by decide, (h.2.2.1 100 (by decide) (by decide) (by decide)).1.trans (by decide)⟩

/-! ## Deduplication by key -/

section Dedup

variable {κ ν : Type} [DecidableEq κ]

theorem mapGet_mapInsert (m : List (κ × ν)) (k : κ) (v : ν) (k2 : κ) :
    mapGet (mapInsert m k v) k2 = if k = k2 then some v else mapGet m k2 := by
  induction m with
  | nil => simp [mapInsert, mapGet]
  | cons p rest ih =>
    obtain ⟨k1, v1⟩ := p
    by_cases h1 : k1 = k
    · subst h1
      by_cases h2 : k1 = k2
      · simp [mapInsert, mapGet, h2]
      · simp [mapInsert, mapGet, h2]
    · by_cases h2 : k1 = k2
      · subst h2
        have h3 : ¬ k = k1 := fun h => h1 h.symm
        simp [mapInsert, mapGet, h1, h3]
      · simp [mapInsert, mapGet, h1, h2, ih]

theorem mem_keys_mapInsert (m : List (κ × ν)) (k : κ) (v : ν) (k2 : κ) :
    k2 ∈ (mapInsert m k v).map Prod.fst ↔ k2 = k ∨ k2 ∈ m.map Prod.fst := by
  induction m with
  | nil => simp [mapInsert]
  | cons p rest ih =>
    obtain ⟨k1, v1⟩ := p
    by_cases h1 : k1 = k
    · subst h1
      simp [mapInsert]
    · simp only [mapInsert, h1, if_false, List.map_cons, List.mem_cons, ih]
      tauto

theorem nodup_keys_mapInsert (m : List (κ × ν)) (k : κ) (v : ν)
    (h : (m.map Prod.fst).Nodup) : ((mapInsert m k v).map Prod.fst).Nodup := by
  induction m with
  | nil => simp [mapInsert]
  | cons p rest ih =>
    obtain ⟨k1, v1⟩ := p
    simp only [List.map_cons, List.nodup_cons] at h
    by_cases h1 : k1 = k
    · subst h1
      simp only [mapInsert, if_true, List.map_cons, List.nodup_cons]
      exact h
    · simp only [mapInsert, h1, if_false, List.map_cons, List.nodup_cons]
      refine ⟨?_, ih h.2⟩
      rw [mem_keys_mapInsert]
      intro hk
      rcases hk with hk | hk
      · exact h1 hk
      · exact h.1 hk

theorem mem_mapInsert (m : List (κ × ν)) (k : κ) (v : ν) (p : κ × ν)
    (h : p ∈ mapInsert m k v) : p = (k, v) ∨ p ∈ m := by
  induction m with
  | nil => simpa [mapInsert] using h
  | cons q rest ih =>
    obtain ⟨k1, v1⟩ := q
    by_cases h1 : k1 = k
    · simp only [mapInsert, h1, if_true, List.mem_cons] at h
      rcases h with h | h
      · exact Or.inl h
      · exact Or.inr (List.mem_cons_of_mem _ h)
    · simp only [mapInsert, h1, if_false, List.mem_cons] at h
      rcases h with h | h
      · exact Or.inr (by rw [h]; exact List.mem_cons_self _ _)
      · rcases ih h with h2 | h2
        · exact Or.inl h2
        · exact Or.inr (List.mem_cons_of_mem _ h2)

theorem mapGet_eq_some_iff (m : List (κ × ν)) (h : (m.map Prod.fst).Nodup) (k : κ) (v : ν) :
    mapGet m k = some v ↔ (k, v) ∈ m := by
  induction m with
  | nil => simp [mapGet]
  | cons p rest ih =>
    obtain ⟨k1, v1⟩ := p
    simp only [List.map_cons, List.nodup_cons] at h
    by_cases h1 : k1 = k
    · subst h1
      simp only [mapGet, if_true, Option.some.injEq, List.mem_cons, Prod.mk.injEq, true_and]
      constructor
      · intro hv
        exact Or.inl hv.symm
      · intro hv
        rcases hv with hv | hv
        · exact hv.symm
        · exact absurd (List.mem_map_of_mem Prod.fst hv) h.1
    · simp only [mapGet, h1, if_false, List.mem_cons, Prod.mk.injEq, ih h.2]
      constructor
      · intro hv
        exact Or.inr hv
      · intro hv
        rcases hv with hv | hv
        · exact absurd hv.1.symm h1
        · exact hv

theorem keyedBy_mapInsert (key : ν → κ) (m : List (κ × ν)) (v : ν) (h : KeyedBy key m) :
    KeyedBy key (mapInsert m (key v) v) := by
  refine ⟨nodup_keys_mapInsert m (key v) v h.1, ?_⟩
  intro p hp
  rcases mem_mapInsert m (key v) v p hp with h1 | h1
  · rw [h1]
  · exact h.2 p h1

theorem collect_keyedBy (decode : Item → Except Failure ν) (key : ν → κ)
    (items : List Item) :
    ∀ (m0 m : List (κ × ν)), KeyedBy key m0 → collect decode key items m0 = Except.ok m →
      KeyedBy key m := by
  induction items with
  | nil =>
    intro m0 m h0 h
    simp only [collect, Except.ok.injEq] at h
    rw [← h]
    exact h0
  | cons item rest ih =>
    intro m0 m h0 h
    unfold collect at h
    cases hd : decode item with
    | error e => rw [hd] at h; simp at h
    | ok v =>
      rw [hd] at h
      exact ih _ m (keyedBy_mapInsert key m0 v h0) h

theorem collect_mapGet (decode : Item → Except Failure ν) (key : ν → κ) (k : κ)
    (items : List Item) :
    ∀ (m0 m : List (κ × ν)), collect decode key items m0 = Except.ok m →
      mapGet m k =
        match lastDecoded decode key k items with
        | some v => some v
        | none => mapGet m0 k := by
  induction items with
  | nil =>
    intro m0 m h
    simp only [collect, Except.ok.injEq] at h
    simp [lastDecoded, h]
  | cons item rest ih =>
    intro m0 m h
    unfold collect at h
    cases hd : decode item with
    | error e => rw [hd] at h; simp at h
    | ok v =>
      rw [hd] at h
      rw [ih _ m h]
      simp only [lastDecoded]
      cases hl : lastDecoded decode key k rest with
      | some w => simp
      | none =>
        simp only [hd, mapGet_mapInsert]
        by_cases hk : key v = k
        · simp [hk]
        · simp [hk]

theorem collect_decodes (decode : Item → Except Failure ν) (key : ν → κ)
    (items : List Item) :
    ∀ (m0 m : List (κ × ν)), collect decode key items m0 = Except.ok m →
      ∀ item ∈ items, ∃ v, decode item = Except.ok v := by
  induction items with
  | nil =>
    intro m0 m _ item hi
    simp at hi
  | cons it rest ih =>
    intro m0 m h item hi
    unfold collect at h
    cases hd : decode it with
    | error e => rw [hd] at h; simp at h
    | ok v =>
      rw [hd] at h
      rcases List.mem_cons.mp hi with h1 | h1
      · exact ⟨v, by rw [h1]; exact hd⟩
      · exact ih _ m h item h1

theorem collect_succeeds (decode : Item → Except Failure ν) (key : ν → κ)
    (items : List Item) :
    ∀ (m0 : List (κ × ν)), (∀ item ∈ items, ∃ v, decode item = Except.ok v) →
      ∃ m, collect decode key items m0 = Except.ok m := by
  induction items with
  | nil =>
    intro m0 _
    exact ⟨m0, rfl⟩
  | cons it rest ih =>
    intro m0 h
    obtain ⟨v, hv⟩ := h it (List.mem_cons_self _ _)
    unfold collect
    rw [hv]
    exact ih _ (fun item hi => h item (List.mem_cons_of_mem _ hi))

theorem lastDecoded_eq_none (decode : Item → Except Failure ν) (key : ν → κ) (k : κ)
    (items : List Item) (h : lastDecoded decode key k items = none) :
    ∀ item ∈ items, ∀ w, decode item = Except.ok w → key w ≠ k := by
  induction items with
  | nil =>
    intro item hi
    simp at hi
  | cons it rest ih =>
    unfold lastDecoded at h
    cases hl : lastDecoded decode key k rest with
    | some v => rw [hl] at h; simp at h
    | none =>
      rw [hl] at h
      intro item hi w hw
      rcases List.mem_cons.mp hi with h1 | h1
      · subst h1
        rw [hw] at h
        intro hk
        simp [hk] at h
      · exact ih hl item h1 w hw

/-- A value found by `lastDecoded` comes from an item after which no item
decodes to the same key. -/
theorem lastDecoded_eq_some (decode : Item → Except Failure ν) (key : ν → κ) (k : κ)
    (items : List Item) (v : ν) (h : lastDecoded decode key k items = some v) :
    ∃ pre item post, items = pre ++ item :: post ∧ decode item = Except.ok v ∧ key v = k ∧
      ∀ it ∈ post, ∀ w, decode it = Except.ok w → key w ≠ k := by
  induction items with
  | nil => simp [lastDecoded] at h
  | cons it rest ih =>
    unfold lastDecoded at h
    cases hl : lastDecoded decode key k rest with
    | some w =>
      rw [hl] at h
      simp only [Option.some.injEq] at h
      subst h
      obtain ⟨pre, item, post, h1, h2, h3, h4⟩ := ih hl
      exact ⟨it :: pre, item, post, by rw [h1]; rfl, h2, h3, h4⟩
    | none =>
      rw [hl] at h
      cases hd : decode it with
      | error e => rw [hd] at h; simp at h
      | ok w =>
        rw [hd] at h
        by_cases hk : key w = k
        · simp only [hk, if_true, Option.some.injEq] at h
          subst h
          exact ⟨[], it, rest, rfl, hd, hk, lastDecoded_eq_none decode key k rest hl⟩
        · simp [hk] at h

theorem lastDecoded_isSome (decode : Item → Except Failure ν) (key : ν → κ) (k : κ)
    (items : List Item) (item : Item) (w : ν) (hi : item ∈ items)
    (hw : decode item = Except.ok w) (hk : key w = k) :
    ∃ v, lastDecoded decode key k items = some v := by
  cases hl : lastDecoded decode key k items with
  | some v => exact ⟨v, rfl⟩
  | none => exact absurd hk (lastDecoded_eq_none decode key k items hl item hi w hw)

/-- What the deduplicating loop computes, started on the empty map: the
values of the map have distinct keys, every key decoded from the input is
among them, and a value of the map is the one decoded from the last item
with its key. -/
theorem collect_spec (decode : Item → Except Failure ν) (key : ν → κ)
    (items : List Item) (m : List (κ × ν)) (result : List ν)
    (h : collect decode key items [] = Except.ok m) (hr : RangesOver m result) :
    (result.map key).Nodup ∧
    (∀ item ∈ items, ∀ w, decode item = Except.ok w → ∃ v ∈ result, key v = key w) ∧
    (∀ v ∈ result, ∃ pre item post, items = pre ++ item :: post ∧
      decode item = Except.ok v ∧
      ∀ it ∈ post, ∀ w, decode it = Except.ok w → key w ≠ key v) := by
  have hinv := collect_keyedBy decode key items [] m (by simp [KeyedBy]) h
  have hget : ∀ k, mapGet m k = lastDecoded decode key k items := by
    intro k
    rw [collect_mapGet decode key k items [] m h]
    cases lastDecoded decode key k items <;> simp [mapGet]
  have hkeys : (m.map Prod.snd).map key = m.map Prod.fst := by
    rw [List.map_map]
    apply List.map_congr_left
    intro p hp
    exact hinv.2 p hp
  refine ⟨?_, ?_, ?_⟩
  · have h1 : List.Perm (result.map key) ((m.map Prod.snd).map key) := List.Perm.map key hr
    rw [h1.nodup_iff, hkeys]
    exact hinv.1
  · intro item hi w hw
    obtain ⟨v, hv⟩ := lastDecoded_isSome decode key (key w) items item w hi hw rfl
    obtain ⟨_, _, _, _, _, hkv, _⟩ := lastDecoded_eq_some decode key (key w) items v hv
    rw [← hget, mapGet_eq_some_iff m hinv.1] at hv
    refine ⟨v, ?_, hkv⟩
    exact hr.mem_iff.mpr (List.mem_map_of_mem Prod.snd hv)
  · intro v hv
    have hv1 : v ∈ m.map Prod.snd := hr.mem_iff.mp hv
    obtain ⟨p, hp, hpv⟩ := List.mem_map.mp hv1
    obtain ⟨k, v2⟩ := p
    simp only at hpv
    subst hpv
    have hk : key v2 = k := hinv.2 (k, v2) hp
    have hl : lastDecoded decode key k items = some v2 := by
      rw [← hget, mapGet_eq_some_iff m hinv.1]
      exact hp
    obtain ⟨pre, item, post, h1, h2, _, h4⟩ := lastDecoded_eq_some decode key k items v2 hl
    exact ⟨pre, item, post, h1, h2, by rw [hk]; exact h4⟩

end Dedup

/-! ## Port override collections -/

theorem portOverrideMap_eq_collect (items : List Item) :
    ∀ m, portOverrideMap items m = collect decodePortItem DevicePortOverrides.PortIDX items m := by
  induction items with
  | nil => intro m; rfl
  | cons item rest ih =>
    intro m
    cases item with
    | other v => simp [portOverrideMap, collect, decodePortItem]
    | block data =>
      unfold portOverrideMap collect
      cases hd : toPortOverride data with
      | error e => cases e <;> simp [decodePortItem, hd]
      | ok po => simp [decodePortItem, hd, ih]

theorem decodePortItem_eq_ok (item : Item) (po : DevicePortOverrides)
    (h : decodePortItem item = Except.ok po) :
    ∃ data, item = Item.block data ∧ toPortOverride data = Except.ok po := by
  cases item with
  | other v => simp [decodePortItem] at h
  | block data =>
    simp only [decodePortItem] at h
    cases hd : toPortOverride data with
    | error e => rw [hd] at h; cases e <;> simp at h
    | ok po1 =>
      rw [hd] at h
      simp only [Except.ok.injEq] at h
      exact ⟨data, rfl, by rw [← h]; exact hd⟩

theorem decodePortItem_block (data : Block) (po : DevicePortOverrides)
    (h : toPortOverride data = Except.ok po) :
    decodePortItem (Item.block data) = Except.ok po := by
  simp [decodePortItem, h]

theorem toPortOverride_number (data : Block) (po : DevicePortOverrides)
    (h : toPortOverride data = Except.ok po) :
    data.get "number" = some (Scalar.int po.PortIDX) := by
  obtain ⟨n, name, pid, poe, op, dup, ls, h1, h2, h3, h4, h5, h6, h7⟩ :=
    toPortOverride_ok_get data po h
  obtain ⟨f1, _⟩ :=
    toPortOverride_ok_fields data po n name pid poe op dup ls h1 h2 h3 h4 h5 h6 h7 h
  rw [h1, f1]

theorem setToPortOverrides_returns (items : List Item) (r : List DevicePortOverrides)
    (h : setToPortOverrides items = Except.ok r) : setToPortOverridesReturns items r := by
  unfold setToPortOverrides at h
  cases hm : portOverrideMap items [] with
  | error e => rw [hm] at h; simp at h
  | ok m =>
    rw [hm] at h
    simp only [Except.ok.injEq] at h
    exact ⟨m, hm, by rw [← h]; exact List.Perm.refl _⟩

/-- C1: every list `setToPortOverrides` may return on an input it accepts
has pairwise distinct `PortIDX`; a number is the `PortIDX` of an entry
exactly when some input block carries it; and each entry is `toPortOverride`
of an input block after which no block carries the same number. -/
theorem setToPortOverrides_last_wins (items : List Item)
    (result : List DevicePortOverrides)
    (h : setToPortOverridesReturns items result) :
    (result.map DevicePortOverrides.PortIDX).Nodup ∧
    (∀ n : Int, (∃ po ∈ result, po.PortIDX = n) ↔
      ∃ data, Item.block data ∈ items ∧ data.get "number" = some (Scalar.int n)) ∧
    (∀ po ∈ result, ∃ pre data post, items = pre ++ Item.block data :: post ∧
      toPortOverride data = Except.ok po ∧
      ∀ later, Item.block later ∈ post →
        later.get "number" ≠ some (Scalar.int po.PortIDX)) := by
  obtain ⟨m, hm, hr⟩ := h
  rw [portOverrideMap_eq_collect] at hm
  obtain ⟨c1, c2, c3⟩ :=
    collect_spec decodePortItem DevicePortOverrides.PortIDX items m result hm hr
  have hdec := collect_decodes decodePortItem DevicePortOverrides.PortIDX items [] m hm
  have hlast : ∀ po ∈ result, ∃ pre data post, items = pre ++ Item.block data :: post ∧
      toPortOverride data = Except.ok po ∧
      ∀ later, Item.block later ∈ post →
        later.get "number" ≠ some (Scalar.int po.PortIDX) := by
    intro po hpo
    obtain ⟨pre, item, post, h1, h2, h3⟩ := c3 po hpo
    obtain ⟨data, hitem, hdata⟩ := decodePortItem_eq_ok item po h2
    subst hitem
    refine ⟨pre, data, post, h1, hdata, ?_⟩
    intro later hlater hnum
    have hmem : Item.block later ∈ items := by
      rw [h1]
      exact List.mem_append_right _ (List.mem_cons_of_mem _ hlater)
    obtain ⟨w, hw⟩ := hdec _ hmem
    obtain ⟨d2, hd2, hto⟩ := decodePortItem_eq_ok _ w hw
    cases hd2
    have hw2 := toPortOverride_number later w hto
    rw [hnum] at hw2
    simp only [Option.some.injEq, Scalar.int.injEq] at hw2
    exact h3 _ hlater w hw hw2.symm
  refine ⟨c1, ?_, hlast⟩
  intro n
  constructor
  · rintro ⟨po, hpo, hn⟩
    obtain ⟨pre, data, post, h1, h2, _⟩ := hlast po hpo
    refine ⟨data, ?_, ?_⟩
    · rw [h1]
      exact List.mem_append_right _ (List.mem_cons_self _ _)
    · rw [← hn]
      exact toPortOverride_number data po h2
  · rintro ⟨data, hmem, hnum⟩
    obtain ⟨w, hw⟩ := hdec _ hmem
    obtain ⟨d2, hd2, hto⟩ := decodePortItem_eq_ok _ w hw
    cases hd2
    have hw2 := toPortOverride_number data w hto
    rw [hnum] at hw2
    simp only [Option.some.injEq, Scalar.int.injEq] at hw2
    obtain ⟨v, hv, hkv⟩ := c2 _ hmem w hw
    exact ⟨v, hv, by rw [hkv, hw2]⟩

/-- C1, on three blocks of which the first and the last are for port 1: the
last one is kept. -/
theorem setToPortOverrides_last_wins_witness :
    setToPortOverrides samplePorts = Except.ok
      [{ PortIDX := 1, Name := "last", PortProfileID := "", PoeMode := "", OpMode := "",
         FullDuplex := true, Autoneg := false, Speed := 100 },
       { PortIDX := 2, Name := "other", PortProfileID := "", PoeMode := "", OpMode := "",
         FullDuplex := false, Autoneg := false, Speed := 0 }] ∧
    (List.map DevicePortOverrides.PortIDX
      [{ PortIDX := 1, Name := "last", PortProfileID := "", PoeMode := "", OpMode := "",
         FullDuplex := true, Autoneg := false, Speed := 100 },
       { PortIDX := 2, Name := "other", PortProfileID := "", PoeMode := "", OpMode := "",
         FullDuplex := false, Autoneg := false, Speed := 0 }]).Nodup :=
  ⟨by decide,
    (setToPortOverrides_last_wins samplePorts _
      (setToPortOverrides_returns samplePorts _ (by decide))).1⟩

/-! ## Ethernet override collections -/

theorem ethernetOverrideMap_eq_collect (items : List Item) :
    ∀ m, ethernetOverrideMap items m =
      collect decodeEthernetItem DeviceEthernetOverrides.Ifname items m := by
  induction items with
  | nil => intro m; rfl
  | cons item rest ih =>
    intro m
    cases item with
    | other v => simp [ethernetOverrideMap, collect, decodeEthernetItem]
    | block data =>
      unfold ethernetOverrideMap collect
      cases hd : toEthernetOverride data with
      | error e => cases e <;> simp [decodeEthernetItem, hd]
      | ok po => simp [decodeEthernetItem, hd, ih]

theorem toEthernetOverride_eq_ok (data : Block) (o : DeviceEthernetOverrides) :
    toEthernetOverride data = Except.ok o ↔
      data.get "interface" = some (Scalar.str o.Ifname) ∧
      data.get "network_group" = some (Scalar.str o.NetworkGroup) := by
  unfold toEthernetOverride
  simp only [bind_eq_ok, asString_eq_ok, pure, Except.pure, Except.ok.injEq]
  constructor
  · rintro ⟨a, ha, b, hb, hab⟩
    subst hab
    exact ⟨ha, hb⟩
  · rintro ⟨ha, hb⟩
    exact ⟨_, ha, _, hb, rfl⟩

theorem decodeEthernetItem_eq_ok (item : Item) (o : DeviceEthernetOverrides)
    (h : decodeEthernetItem item = Except.ok o) :
    ∃ data, item = Item.block data ∧ toEthernetOverride data = Except.ok o := by
  cases item with
  | other v => simp [decodeEthernetItem] at h
  | block data =>
    simp only [decodeEthernetItem] at h
    cases hd : toEthernetOverride data with
    | error e => rw [hd] at h; cases e <;> simp at h
    | ok o1 =>
      rw [hd] at h
      simp only [Except.ok.injEq] at h
      exact ⟨data, rfl, by rw [← h]; exact hd⟩

theorem decodeEthernetItem_wellFormed (data : Block)
    (h : wellFormedEthernetOverride data = true) :
    ∃ o, decodeEthernetItem (Item.block data) = Except.ok o := by
  simp only [wellFormedEthernetOverride, Bool.and_eq_true] at h
  obtain ⟨a, ha⟩ := isStrAt_get _ _ h.1
  obtain ⟨b, hb⟩ := isStrAt_get _ _ h.2
  have hto : toEthernetOverride data = Except.ok { Ifname := a, NetworkGroup := b } :=
    (toEthernetOverride_eq_ok data _).mpr ⟨ha, hb⟩
  exact ⟨{ Ifname := a, NetworkGroup := b }, by simp [decodeEthernetItem, hto]⟩

theorem setToEthernetOverrides_returns (items : List Item)
    (r : List DeviceEthernetOverrides)
    (h : setToEthernetOverrides items = Except.ok r) :
    setToEthernetOverridesReturns items r := by
  unfold setToEthernetOverrides at h
  cases hm : ethernetOverrideMap items [] with
  | error e => rw [hm] at h; simp at h
  | ok m =>
    rw [hm] at h
    simp only [Except.ok.injEq] at h
    exact ⟨m, hm, by rw [← h]; exact List.Perm.refl _⟩

/-- C2: on well-formed ethernet blocks `setToEthernetOverrides` succeeds,
and every list it may return has pairwise distinct `Ifname`; a name is the
`Ifname` of an entry exactly when some input block carries it; and each
entry has the `interface` and `network_group` of an input block after which
no block carries the same interface name. -/
theorem setToEthernetOverrides_last_wins (items : List Item)
    (hwf : ∀ item ∈ items, wellFormedEthernetItem item = true) :
    (∃ r, setToEthernetOverrides items = Except.ok r) ∧
    ∀ result, setToEthernetOverridesReturns items result →
      (result.map DeviceEthernetOverrides.Ifname).Nodup ∧
      (∀ name : String, (∃ o ∈ result, o.Ifname = name) ↔
        ∃ data, Item.block data ∈ items ∧ data.get "interface" = some (Scalar.str name)) ∧
      (∀ o ∈ result, ∃ pre data post, items = pre ++ Item.block data :: post ∧
        data.get "interface" = some (Scalar.str o.Ifname) ∧
        data.get "network_group" = some (Scalar.str o.NetworkGroup) ∧
        ∀ later, Item.block later ∈ post →
          later.get "interface" ≠ some (Scalar.str o.Ifname)) := by
  have hall : ∀ item ∈ items, ∃ v, decodeEthernetItem item = Except.ok v := by
    intro item hi
    have hw := hwf item hi
    cases item with
    | other v => simp [wellFormedEthernetItem] at hw
    | block data => exact decodeEthernetItem_wellFormed data hw
  constructor
  · obtain ⟨m, hm⟩ :=
      collect_succeeds decodeEthernetItem DeviceEthernetOverrides.Ifname items [] hall
    rw [← ethernetOverrideMap_eq_collect] at hm
    exact ⟨m.map Prod.snd, by simp [setToEthernetOverrides, hm]⟩
  intro result h
  obtain ⟨m, hm, hr⟩ := h
  rw [ethernetOverrideMap_eq_collect] at hm
  obtain ⟨c1, c2, c3⟩ :=
    collect_spec decodeEthernetItem DeviceEthernetOverrides.Ifname items m result hm hr
  have hlast : ∀ o ∈ result, ∃ pre data post, items = pre ++ Item.block data :: post ∧
      data.get "interface" = some (Scalar.str o.Ifname) ∧
      data.get "network_group" = some (Scalar.str o.NetworkGroup) ∧
      ∀ later, Item.block later ∈ post →
        later.get "interface" ≠ some (Scalar.str o.Ifname) := by
    intro o ho
    obtain ⟨pre, item, post, h1, h2, h3⟩ := c3 o ho
    obtain ⟨data, hitem, hdata⟩ := decodeEthernetItem_eq_ok item o h2
    subst hitem
    obtain ⟨g1, g2⟩ := (toEthernetOverride_eq_ok data o).mp hdata
    refine ⟨pre, data, post, h1, g1, g2, ?_⟩
    intro later hlater hname
    have hmem : Item.block later ∈ items := by
      rw [h1]
      exact List.mem_append_right _ (List.mem_cons_of_mem _ hlater)
    obtain ⟨w, hw⟩ := hall _ hmem
    obtain ⟨d2, hd2, hto⟩ := decodeEthernetItem_eq_ok _ w hw
    cases hd2
    have hw2 := ((toEthernetOverride_eq_ok later w).mp hto).1
    rw [hname] at hw2
    simp only [Option.some.injEq, Scalar.str.injEq] at hw2
    exact h3 _ hlater w hw hw2.symm
  refine ⟨c1, ?_, hlast⟩
  intro name
  constructor
  · rintro ⟨o, ho, hn⟩
    obtain ⟨pre, data, post, h1, h2, _, _⟩ := hlast o ho
    refine ⟨data, ?_, ?_⟩
    · rw [h1]
      exact List.mem_append_right _ (List.mem_cons_self _ _)
    · rw [← hn]
      exact h2
  · rintro ⟨data, hmem, hname⟩
    obtain ⟨w, hw⟩ := hall _ hmem
    obtain ⟨d2, hd2, hto⟩ := decodeEthernetItem_eq_ok _ w hw
    cases hd2
    have hw2 := ((toEthernetOverride_eq_ok data w).mp hto).1
    rw [hname] at hw2
    simp only [Option.some.injEq, Scalar.str.injEq] at hw2
    obtain ⟨v, hv, hkv⟩ := c2 _ hmem w hw
    exact ⟨v, hv, by rw [hkv, hw2]⟩

/-- C2, on three blocks of which the first and the last are for `eth1`: the
network group of the last one is kept. -/
theorem setToEthernetOverrides_last_wins_witness :
    setToEthernetOverrides sampleEthernets = Except.ok
      [{ Ifname := "eth1", NetworkGroup := "LAN2" },
       { Ifname := "eth0", NetworkGroup := "WAN" }] ∧
    (List.map DeviceEthernetOverrides.Ifname
      [{ Ifname := "eth1", NetworkGroup := "LAN2" },
       { Ifname := "eth0", NetworkGroup := "WAN" }]).Nodup :=
  ⟨by decide,
    ((setToEthernetOverrides_last_wins sampleEthernets (by decide)).2 _
      (setToEthernetOverrides_returns sampleEthernets _ (by decide))).1⟩

/-! ## DNS slots of the VPN server -/

theorem sliceIndex_append (xs pad : List String) (i : Nat) (h : i < pad.length)
    (hpad : ∀ s ∈ pad, s = "") :
    sliceIndex (xs ++ pad) i = Except.ok ((xs[i]?).getD "") := by
  unfold sliceIndex
  by_cases hi : i < xs.length
  · rw [List.getElem?_append_left hi, List.getElem?_eq_getElem hi]
    simp
  · have hle : xs.length ≤ i := Nat.le_of_not_lt hi
    rw [List.getElem?_append_right hle]
    have hlt : i - xs.length < pad.length := by omega
    rw [List.getElem?_eq_getElem hlt, List.getElem?_eq_none hle]
    have hmem : pad[i - xs.length] ∈ pad := List.getElem_mem hlt
    simp [hpad _ hmem]

theorem resourceVPNServerGetResourceData_eq
    (listToStringSlice : List Scalar → Except Failure (List String))
    (cidrOneBased : String → String) (d : VPNServerData) (dhcpDNS : List String)
    (h : listToStringSlice d.dhcp_dns = Except.ok dhcpDNS) :
    resourceVPNServerGetResourceData listToStringSlice cidrOneBased d = Except.ok
      { ID := "", SiteID := "",
        Name := d.name,
        Enabled := true,
        Purpose := "remote-user-vpn",
        VPNType := d.vpn_type,
        IPSubnet := cidrOneBased d.subnet,
        DHCPDStart := d.dhcp_start,
        DHCPDStop := d.dhcp_stop,
        RADIUSProfileID := d.radius_profile_id,
        RequireMschapv2 := d.require_mschapv2,
        XIPSecPreSharedKey := d.pre_shared_key,
        IsNAT := true,
        VLANEnabled := false,
        DHCPDEnabled := false,
        DHCPDLeaseTime := 0,
        DHCPDDNSEnabled := decide (0 < dhcpDNS.length),
        DHCPDDNS1 := (dhcpDNS[0]?).getD "",
        DHCPDDNS2 := (dhcpDNS[1]?).getD "",
        DHCPDDNS3 := (dhcpDNS[2]?).getD "",
        DHCPDDNS4 := (dhcpDNS[3]?).getD "",
        IPV6InterfaceType := "none" } := by
  unfold resourceVPNServerGetResourceData
  rw [h]
  simp only
  rw [sliceIndex_append dhcpDNS [""] 0 (by decide) (by simp),
    sliceIndex_append dhcpDNS ["", ""] 1 (by decide) (by simp),
    sliceIndex_append dhcpDNS ["", "", ""] 2 (by decide) (by simp),
    sliceIndex_append dhcpDNS ["", "", "", ""] 3 (by decide) (by simp)]
  rfl

/-- C9: whenever the `dhcp_dns` list converts to the string slice `dns`, of
any length, `resourceVPNServerGetResourceData` returns a network (no index
is out of range) whose slot `DHCPDDNS1..4` number `i + 1` is the `i`-th
entry of `dns` when there is one and empty otherwise, and whose
`DHCPDDNSEnabled` is true exactly when `dns` is non-empty. -/
theorem resourceVPNServerGetResourceData_dns
    (listToStringSlice : List Scalar → Except Failure (List String))
    (cidrOneBased : String → String) (d : VPNServerData) (dns : List String)
    (h : listToStringSlice d.dhcp_dns = Except.ok dns) :
    ∃ net, resourceVPNServerGetResourceData listToStringSlice cidrOneBased d = Except.ok net ∧
      net.DHCPDDNS1 = (dns[0]?).getD "" ∧
      net.DHCPDDNS2 = (dns[1]?).getD "" ∧
      net.DHCPDDNS3 = (dns[2]?).getD "" ∧
      net.DHCPDDNS4 = (dns[3]?).getD "" ∧
      (net.DHCPDDNSEnabled = true ↔ dns ≠ []) := by
  refine ⟨_, resourceVPNServerGetResourceData_eq listToStringSlice cidrOneBased d dns h,
    rfl, rfl, rfl, rfl, ?_⟩
  cases dns <;> simp

/-- C9, on `dhcp_dns = ["1.1.1.1", "1.0.0.1"]`: slots 1 and 2 are filled,
slots 3 and 4 are empty, and the flag is set. -/
theorem resourceVPNServerGetResourceData_dns_witness :
    ∃ net, resourceVPNServerGetResourceData stringsOfList id sampleVPN = Except.ok net ∧
      net.DHCPDDNS1 = "1.1.1.1" ∧ net.DHCPDDNS2 = "1.0.0.1" ∧
      net.DHCPDDNS3 = "" ∧ net.DHCPDDNS4 = "" ∧
      (net.DHCPDDNSEnabled = true ↔ ["1.1.1.1", "1.0.0.1"] ≠ []) :=
  resourceVPNServerGetResourceData_dns stringsOfList id sampleVPN ["1.1.1.1", "1.0.0.1"]
    (by decide)

/-- C10: for a `dhcp_dns` list of at most four non-empty strings, decoding
the network that `resourceVPNServerGetResourceData` builds gives a record
whose `dhcp_dns` is the original list, in the same order; in particular the
empty list comes back empty. -/
theorem vpnServer_dns_roundtrip
    (listToStringSlice : List Scalar → Except Failure (List String))
    (cidrOneBased cidrZeroBased : String → String)
    (d d0 : VPNServerData) (dns : List String)
    (hd : d.dhcp_dns = dns.map Scalar.str)
    (h : listToStringSlice d.dhcp_dns = Except.ok dns)
    (hlen : dns.length ≤ 4) (hne : ∀ s ∈ dns, s ≠ "") :
    ∃ net decoded,
      resourceVPNServerGetResourceData listToStringSlice cidrOneBased d = Except.ok net ∧
      resourceVPNServerSetResourceData cidrZeroBased net d0 = Except.ok decoded ∧
      decoded.dhcp_dns = d.dhcp_dns ∧
      (dns = [] → decoded.dhcp_dns = []) := by
  refine ⟨_, _, resourceVPNServerGetResourceData_eq listToStringSlice cidrOneBased d dns h,
    rfl, ?_, ?_⟩
  · rw [hd]
    match dns, hlen, hne with
    | [], _, _ => simp
    | [a], _, hne =>
      have ha : a ≠ "" := hne a (by simp)
      simp [ha]
    | [a, b], _, hne =>
      have ha : a ≠ "" := hne a (by simp)
      have hb : b ≠ "" := hne b (by simp)
      simp [ha, hb]
    | [a, b, c], _, hne =>
      have ha : a ≠ "" := hne a (by simp)
      have hb : b ≠ "" := hne b (by simp)
      have hc : c ≠ "" := hne c (by simp)
      simp [ha, hb, hc]
    | [a, b, c, e], _, hne =>
      have ha : a ≠ "" := hne a (by simp)
      have hb : b ≠ "" := hne b (by simp)
      have hc : c ≠ "" := hne c (by simp)
      have he : e ≠ "" := hne e (by simp)
      simp [ha, hb, hc, he]
    | _ :: _ :: _ :: _ :: _ :: _, hlen, _ => simp at hlen
  · intro hnil
    subst hnil
    simp

/-- C10, on the acceptance-test record: the two DNS servers come back. -/
theorem vpnServer_dns_roundtrip_witness :
    ∃ net decoded,
      resourceVPNServerGetResourceData stringsOfList id sampleVPN = Except.ok net ∧
      resourceVPNServerSetResourceData id net sampleVPN = Except.ok decoded ∧
      decoded.dhcp_dns = sampleVPN.dhcp_dns ∧
      (["1.1.1.1", "1.0.0.1"] = [] → decoded.dhcp_dns = []) :=
  vpnServer_dns_roundtrip stringsOfList id id sampleVPN sampleVPN ["1.1.1.1", "1.0.0.1"]
    (by decide) (by decide) (by decide) (by decide)

/-! ## Decoding collections -/

theorem setFromPortOverrides_eq (pos : List DevicePortOverrides) :
    ∃ list, setFromPortOverrides pos = Except.ok list ∧ list.length = pos.length ∧
      ∀ (i : Nat) (po : DevicePortOverrides), pos[i]? = some po →
        ∃ v, fromPortOverride po = Except.ok v ∧ list[i]? = some (Item.block v) := by
  induction pos with
  | nil => exact ⟨[], rfl, rfl, by simp⟩
  | cons po rest ih =>
    obtain ⟨list, h1, h2, h3⟩ := ih
    obtain ⟨v0, hv0⟩ : ∃ v, fromPortOverride po = Except.ok v := ⟨_, fromPortOverride_eq po⟩
    refine ⟨Item.block v0 :: list, ?_, ?_, ?_⟩
    · simp only [setFromPortOverrides, hv0, h1]
    · simp [h2]
    · intro i q hq
      cases i with
      | zero =>
        simp only [List.getElem?_cons_zero, Option.some.injEq] at hq
        subst hq
        exact ⟨v0, hv0, by simp⟩
      | succ j =>
        simp only [List.getElem?_cons_succ] at hq
        obtain ⟨v, hv1, hv2⟩ := h3 j q hq
        exact ⟨v, hv1, by simpa using hv2⟩

theorem setFromEthernetOverrides_eq (items : List DeviceEthernetOverrides) :
    ∃ list, setFromEthernetOverrides items = Except.ok list ∧ list.length = items.length ∧
      ∀ (i : Nat) (o : DeviceEthernetOverrides), items[i]? = some o →
        ∃ v, fromEthernetOverride o = Except.ok v ∧ list[i]? = some (Item.block v) := by
  induction items with
  | nil => exact ⟨[], rfl, rfl, by simp⟩
  | cons o rest ih =>
    obtain ⟨list, h1, h2, h3⟩ := ih
    obtain ⟨v0, hv0⟩ : ∃ v, fromEthernetOverride o = Except.ok v := ⟨_, rfl⟩
    refine ⟨Item.block v0 :: list, ?_, ?_, ?_⟩
    · simp only [setFromEthernetOverrides, hv0, h1]
    · simp [h2]
    · intro i q hq
      cases i with
      | zero =>
        simp only [List.getElem?_cons_zero, Option.some.injEq] at hq
        subst hq
        exact ⟨v0, hv0, by simp⟩
      | succ j =>
        simp only [List.getElem?_cons_succ] at hq
        obtain ⟨v, hv1, hv2⟩ := h3 j q hq
        exact ⟨v, hv1, by simpa using hv2⟩

/-- C11: `setFromPortOverrides` and `setFromEthernetOverrides` never fail;
the list they return is as long as the input and its `i`-th element is
`fromPortOverride` (respectively `fromEthernetOverride`) of the `i`-th
remote item, so order is kept and items with the same key are all kept. -/
theorem setFrom_overrides_projection (pos : List DevicePortOverrides)
    (items : List DeviceEthernetOverrides) :
    (∃ list, setFromPortOverrides pos = Except.ok list ∧ list.length = pos.length ∧
      ∀ (i : Nat) (po : DevicePortOverrides), pos[i]? = some po →
        ∃ v, fromPortOverride po = Except.ok v ∧ list[i]? = some (Item.block v)) ∧
    (∃ list, setFromEthernetOverrides items = Except.ok list ∧
      list.length = items.length ∧
      ∀ (i : Nat) (o : DeviceEthernetOverrides), items[i]? = some o →
        ∃ v, fromEthernetOverride o = Except.ok v ∧ list[i]? = some (Item.block v)) :=
  ⟨setFromPortOverrides_eq pos, setFromEthernetOverrides_eq items⟩

/-! ## Decoding a device -/

theorem setFromRadioTable_ok (cfg : DeviceRadioTable) :
    ∃ list, setFromRadioTable cfg = Except.ok list := by
  unfold setFromRadioTable
  rw [fromRadioTable_eq]
  exact ⟨_, rfl⟩

theorem deviceSetRadioTables_keeps (tables : List DeviceRadioTable) :
    ∀ d : DeviceData, (deviceSetRadioTables tables d).2 = none ∧
      (deviceSetRadioTables tables d).1.stp_version = d.stp_version ∧
      (deviceSetRadioTables tables d).1.stp_priority = d.stp_priority ∧
      (deviceSetRadioTables tables d).1.id = d.id := by
  induction tables with
  | nil => intro d; exact ⟨rfl, rfl, rfl, rfl⟩
  | cons i rest ih =>
    intro d
    obtain ⟨list, hl⟩ := setFromRadioTable_ok i
    unfold deviceSetRadioTables
    rw [hl]
    by_cases h1 : i.Radio = "ng"
    · simp only [h1, if_true]
      exact ih _
    · by_cases h2 : i.Radio = "na"
      · simp only [h2, if_true, if_neg (show ¬ ("na" = "ng") by decide)]
        exact ih _
      · simp only [h1, h2, if_false]
        exact ih _

theorem deviceSetCollections_keeps (resp : Device) (d : DeviceData) :
    (deviceSetCollections resp d).2 = none ∧
      (deviceSetCollections resp d).1.stp_version = d.stp_version ∧
      (deviceSetCollections resp d).1.stp_priority = d.stp_priority ∧
      (deviceSetCollections resp d).1.id = d.id := by
  obtain ⟨l1, h1, _⟩ := setFromPortOverrides_eq resp.PortOverrides
  obtain ⟨l2, h2, _⟩ := setFromEthernetOverrides_eq resp.EthernetOverrides
  unfold deviceSetCollections
  rw [h1, h2]
  simp only [setFromNetworkConfig, fromNetworkConfig]
  exact deviceSetRadioTables_keeps resp.RadioTable _

/-- C12: `resourceDeviceSetResourceData` decodes the spanning-tree fields
only when the remote `StpVersion` is neither empty nor `"disabled"`. Then
`stp_version` becomes `StpVersion`; when `StpPriority` parses, `stp_priority`
becomes its value and no error is returned; when it does not parse, an error
is returned. When `StpVersion` is empty or `"disabled"`, `stp_version` and
`stp_priority` stay as they were and no error is returned, whatever
`StpPriority` holds. -/
theorem resourceDeviceSetResourceData_stp (resp : Device) (d : DeviceData) (site : String) :
    ((resp.StpVersion ≠ "" ∧ resp.StpVersion ≠ "disabled") →
      (resourceDeviceSetResourceData resp d site).1.stp_version = resp.StpVersion ∧
      (∀ val : Int, Atoi resp.StpPriority = (val, none) →
        (resourceDeviceSetResourceData resp d site).1.stp_priority = val ∧
        (resourceDeviceSetResourceData resp d site).2 = none) ∧
      ((Atoi resp.StpPriority).2 ≠ none →
        ∃ msg, (resourceDeviceSetResourceData resp d site).2 = some (Failure.error msg))) ∧
    ((resp.StpVersion = "" ∨ resp.StpVersion = "disabled") →
      (resourceDeviceSetResourceData resp d site).1.stp_version = d.stp_version ∧
      (resourceDeviceSetResourceData resp d site).1.stp_priority = d.stp_priority ∧
      (resourceDeviceSetResourceData resp d site).2 = none) := by
  constructor
  · intro hc
    unfold resourceDeviceSetResourceData
    rw [if_pos hc]
    rcases hA : Atoi resp.StpPriority with ⟨val, e⟩
    cases e with
    | none =>
      simp only
      obtain ⟨k1, k2, k3, _⟩ := deviceSetCollections_keeps resp
        { d with
          site := site, mac := resp.MAC, name := resp.Name, disabled := resp.Disabled,
          led_override := resp.LedOverride, mgmt_network_id := resp.MgmtNetworkID,
          jumboframe_enabled := resp.JumboframeEnabled,
          flowctrl_enabled := resp.FlowctrlEnabled,
          stp_version := resp.StpVersion, stp_priority := val }
      refine ⟨k2, ?_, ?_⟩
      · intro v hv
        simp only [Prod.mk.injEq, and_true] at hv
        subst hv
        exact ⟨k3, k1⟩
      · intro hne
        exact absurd rfl hne
    | some err =>
      simp only
      refine ⟨trivial, ?_, ?_⟩
      · intro v hv
        simp at hv
      · intro _
        exact ⟨_, rfl⟩
  · intro hoff
    have hc : ¬ (resp.StpVersion ≠ "" ∧ resp.StpVersion ≠ "disabled") := by
      rintro ⟨h1, h2⟩
      rcases hoff with h | h
      · exact h1 h
      · exact h2 h
    unfold resourceDeviceSetResourceData
    rw [if_neg hc]
    obtain ⟨k1, k2, k3, _⟩ := deviceSetCollections_keeps resp
      { d with
        site := site, mac := resp.MAC, name := resp.Name, disabled := resp.Disabled,
        led_override := resp.LedOverride, mgmt_network_id := resp.MgmtNetworkID,
        jumboframe_enabled := resp.JumboframeEnabled,
        flowctrl_enabled := resp.FlowctrlEnabled }
    exact ⟨k2, k3, k1⟩

/-! ## Reading an entity the controller no longer has -/

/-- C13: in each read operation a not-found answer of the controller gives
no error and a record that differs from the one before only in its ID, now
empty; any other error of the controller is returned with its text and the
record, ID included, is the one before. -/
theorem read_not_found_clears_id (c : Client) (cidrZeroBased : String → String)
    (dev : DeviceData) (vpn : VPNServerData) (user : RadiusUserData)
    (server : RadiusServerData) (msg : String) :
    ((c.GetDevice (if dev.site = "" then c.site else dev.site) dev.id
        = Except.error ClientError.notFound →
      (resourceDeviceRead c dev).err = none ∧
      (resourceDeviceRead c dev).d = { dev with id := "" }) ∧
     (c.GetDevice (if dev.site = "" then c.site else dev.site) dev.id
        = Except.error (ClientError.other msg) →
      (resourceDeviceRead c dev).err = some (Failure.error msg) ∧
      (resourceDeviceRead c dev).d = dev)) ∧
    ((c.GetNetwork c.site vpn.id = Except.error ClientError.notFound →
      (resourceVPNServerRead cidrZeroBased c vpn).err = none ∧
      (resourceVPNServerRead cidrZeroBased c vpn).d = { vpn with id := "" }) ∧
     (c.GetNetwork c.site vpn.id = Except.error (ClientError.other msg) →
      (resourceVPNServerRead cidrZeroBased c vpn).err = some (Failure.error msg) ∧
      (resourceVPNServerRead cidrZeroBased c vpn).d = vpn)) ∧
    ((c.GetAccount c.site user.id = Except.error ClientError.notFound →
      (resourceRadiusUserRead c user).err = none ∧
      (resourceRadiusUserRead c user).d = { user with id := "" }) ∧
     (c.GetAccount c.site user.id = Except.error (ClientError.other msg) →
      (resourceRadiusUserRead c user).err = some (Failure.error msg) ∧
      (resourceRadiusUserRead c user).d = user)) ∧
    ((c.GetSettingRadius c.site = Except.error ClientError.notFound →
      (resourceRadiusServerRead c server).err = none ∧
      (resourceRadiusServerRead c server).d = { server with id := "" }) ∧
     (c.GetSettingRadius c.site = Except.error (ClientError.other msg) →
      (resourceRadiusServerRead c server).err = some (Failure.error msg) ∧
      (resourceRadiusServerRead c server).d = server)) := by
  refine ⟨⟨?_, ?_⟩, ⟨?_, ?_⟩, ⟨?_, ?_⟩, ⟨?_, ?_⟩⟩
  · intro h
    simp [resourceDeviceRead, h]
  · intro h
    simp [resourceDeviceRead, h, ClientError.toFailure, ClientError.text]
  · intro h
    simp [resourceVPNServerRead, h]
  · intro h
    simp [resourceVPNServerRead, h, ClientError.toFailure, ClientError.text]
  · intro h
    simp [resourceRadiusUserRead, h]
  · intro h
    simp [resourceRadiusUserRead, h, ClientError.toFailure, ClientError.text]
  · intro h
    simp [resourceRadiusServerRead, h]
  · intro h
    simp [resourceRadiusServerRead, h, ClientError.toFailure, ClientError.text]

/-! ## RADIUS server ports -/

/-- C17 as stated fails outside the range of a Go `int`: the text
`9223372036854775808` is the canonical decimal string of an integer, the
encoder stores the largest `int` for it, and decoding writes
`9223372036854775807` as `authentication_port`. -/
theorem radiusServer_roundtrip_counterexample :
    Itoa 9223372036854775808 = "9223372036854775808" ∧
    resourceRadiusServerGetResourceData
        { id := "", enabled := true, secret := "secret",
          authentication_port := "9223372036854775808", accounting_port := "1813",
          accounting_interim_interval := 3600,
          enable_tunneled_reply := true, configure_whole_network := true }
      = Except.ok
        { ID := "", SiteID := "", Enabled := true, XSecret := "secret",
          AuthPort := 9223372036854775807, AcctPort := 1813,
          InterimUpdateInterval := 3600, TunneledReply := true,
          ConfigureWholeNetwork := true } ∧
    resourceRadiusServerSetResourceData
        { ID := "", SiteID := "", Enabled := true, XSecret := "secret",
          AuthPort := 9223372036854775807, AcctPort := 1813,
          InterimUpdateInterval := 3600, TunneledReply := true,
          ConfigureWholeNetwork := true }
        { id := "", enabled := false, secret := "", authentication_port := "",
          accounting_port := "", accounting_interim_interval := 0,
          enable_tunneled_reply := false, configure_whole_network := false }
      = Except.ok
        { id := "", enabled := true, secret := "secret",
          authentication_port := "9223372036854775807", accounting_port := "1813",
          accounting_interim_interval := 3600,
          enable_tunneled_reply := true, configure_whole_network := true } ∧
    ("9223372036854775807" : String) ≠ "9223372036854775808" := by
  decide

/-- C17, amended: for a record `d` whose two ports are the canonical decimal
strings of integers in the range of a Go `int`, the request that
`resourceRadiusServerGetResourceData` builds holds those integers as
`AuthPort` and `AcctPort`, and decoding it with
`resourceRadiusServerSetResourceData` into any record `d0` gives a record
with the seven attributes of `d`; only the ID is that of `d0`. -/
theorem radiusServer_roundtrip (d d0 : RadiusServerData) (auth acct : Int)
    (hauth : IsInt64 auth) (hacct : IsInt64 acct)
    (h1 : d.authentication_port = Itoa auth) (h2 : d.accounting_port = Itoa acct) :
    ∃ req decoded, resourceRadiusServerGetResourceData d = Except.ok req ∧
      req.AuthPort = auth ∧ req.AcctPort = acct ∧
      resourceRadiusServerSetResourceData req d0 = Except.ok decoded ∧
      decoded.enabled = d.enabled ∧ decoded.secret = d.secret ∧
      decoded.authentication_port = d.authentication_port ∧
      decoded.accounting_port = d.accounting_port ∧
      decoded.accounting_interim_interval = d.accounting_interim_interval ∧
      decoded.enable_tunneled_reply = d.enable_tunneled_reply ∧
      decoded.configure_whole_network = d.configure_whole_network ∧
      decoded = { d with id := d0.id } := by
  have ha : (Atoi d.authentication_port).1 = auth := by rw [h1, Atoi_Itoa auth hauth]
  have hb : (Atoi d.accounting_port).1 = acct := by rw [h2, Atoi_Itoa acct hacct]
  refine ⟨_, _, rfl, ha, hb, rfl, rfl, rfl, ?_, ?_, rfl, rfl, rfl, ?_⟩
  · show Itoa (Atoi d.authentication_port).1 = d.authentication_port
    rw [ha, h1]
  · show Itoa (Atoi d.accounting_port).1 = d.accounting_port
    rw [hb, h2]
  · cases d
    simp only at h1 h2
    subst h1
    subst h2
    simp only [Atoi_Itoa auth hauth, Atoi_Itoa acct hacct]

/-- C17 amended, on the record of the acceptance test, ports 1812 and 1813,
decoded into a record that holds none of its values. -/
theorem radiusServer_roundtrip_witness :
    ∃ req decoded, resourceRadiusServerGetResourceData sampleRadiusServer = Except.ok req ∧
      req.AuthPort = 1812 ∧ req.AcctPort = 1813 ∧
      resourceRadiusServerSetResourceData req
          { id := "other", enabled := true, secret := "", authentication_port := "",
            accounting_port := "", accounting_interim_interval := 0,
            enable_tunneled_reply := false, configure_whole_network := false }
        = Except.ok decoded ∧
      decoded.enabled = sampleRadiusServer.enabled ∧
      decoded.secret = sampleRadiusServer.secret ∧
      decoded.authentication_port = sampleRadiusServer.authentication_port ∧
      decoded.accounting_port = sampleRadiusServer.accounting_port ∧
      decoded.accounting_interim_interval = sampleRadiusServer.accounting_interim_interval ∧
      decoded.enable_tunneled_reply = sampleRadiusServer.enable_tunneled_reply ∧
      decoded.configure_whole_network = sampleRadiusServer.configure_whole_network ∧
      decoded = { sampleRadiusServer with id := "other" } :=
  radiusServer_roundtrip sampleRadiusServer
    { id := "other", enabled := true, secret := "", authentication_port := "",
      accounting_port := "", accounting_interim_interval := 0,
      enable_tunneled_reply := false, configure_whole_network := false }
    1812 1813 (by decide) (by decide) (by decide) (by decide)

theorem Atoi_syntax_value (s : String) (h : (Atoi s).2 = some NumError.ErrSyntax) :
    (Atoi s).1 = 0 := by
  unfold Atoi at h ⊢
  cases hs : s.data with
  | nil => rfl
  | cons c cs =>
    rw [hs] at h
    simp only at h ⊢
    generalize (if c = '-' ∨ c = '+' then cs else c :: cs) = digits at h ⊢
    cases digits with
    | nil => rfl
    | cons x xs =>
      simp only at h ⊢
      cases hp : parseUintLoop (x :: xs) 0 with
      | error e =>
        rw [hp] at h
        cases e with
        | ErrSyntax => rfl
        | ErrRange => simp at h
      | ok un =>
        rw [hp] at h
        simp only at h ⊢
        split_ifs at h <;> simp at h

/-- C20: the code does not do what the claim requires. `strconv.Atoi`
rejects `"abc"`, yet `resourceRadiusServerGetResourceData` encodes a record
whose `authentication_port` is `"abc"` without an error, with `AuthPort = 0`;
it returns a request for every record whatsoever. On the same failure of
`strconv.Atoi`, `toPortOverride` returns an error that names the value. -/
theorem radiusServer_unparseable_port_accepted :
    (Atoi "abc").2 = some NumError.ErrSyntax ∧
    resourceRadiusServerGetResourceData
        { id := "", enabled := true, secret := "secret",
          authentication_port := "abc", accounting_port := "1813",
          accounting_interim_interval := 3600,
          enable_tunneled_reply := true, configure_whole_network := true }
      = Except.ok
        { ID := "", SiteID := "", Enabled := true, XSecret := "secret", AuthPort := 0,
          AcctPort := 1813, InterimUpdateInterval := 3600, TunneledReply := true,
          ConfigureWholeNetwork := true } ∧
    toPortOverride (portBlock 1 "" "abc" "")
      = Except.error (Failure.error "link_speed = abc") ∧
    (∀ d : RadiusServerData, ∃ req, resourceRadiusServerGetResourceData d = Except.ok req) :=
  ⟨by decide, by decide, by decide, fun _ => ⟨_, rfl⟩⟩

/-! ## A write the controller refuses -/

/-- C19 as stated fails for `resourceRadiusServerDelete`: with a controller
that refuses the update with an error that is not a not-found, the error is
returned and the record, whose `enabled` was true, has `enabled` false. -/
theorem radiusServerDelete_counterexample :
    (resourceRadiusServerDelete (offlineClient (ClientError.other "timeout"))
        { sampleRadiusServer with enabled := true }).err
      = some (Failure.error "timeout") ∧
    (resourceRadiusServerDelete (offlineClient (ClientError.other "timeout"))
        { sampleRadiusServer with enabled := true }).d
      = { sampleRadiusServer with enabled := false } ∧
    ({ sampleRadiusServer with enabled := false } : RadiusServerData)
      ≠ { sampleRadiusServer with enabled := true } := by
  decide

/-- C19, amended: when the controller call of a write operation fails with
an error that is not a not-found, `resourceVPNServerCreate`,
`resourceVPNServerUpdate`, `resourceRadiusUserCreate`,
`resourceRadiusUserUpdate`, `resourceRadiusServerCreate`,
`resourceRadiusServerUpdate` and `resourceDeviceUpdate` return that error and
leave the record, ID included, exactly as it was;
`resourceRadiusServerDelete` returns that error and leaves the record as it
was except that `enabled` is false. -/
theorem write_failure_keeps_record (c : Client)
    (listToStringSlice : List Scalar → Except Failure (List String))
    (cidrOneBased cidrZeroBased : String → String)
    (dev : DeviceData) (vpn : VPNServerData) (user : RadiusUserData)
    (server : RadiusServerData) (msg : String) :
    (∀ req, resourceVPNServerGetResourceData listToStringSlice cidrOneBased vpn
        = Except.ok req →
      c.CreateNetwork c.site req = Except.error (ClientError.other msg) →
      (resourceVPNServerCreate listToStringSlice cidrOneBased cidrZeroBased c vpn).err
        = some (Failure.error msg) ∧
      (resourceVPNServerCreate listToStringSlice cidrOneBased cidrZeroBased c vpn).d = vpn) ∧
    (∀ req, resourceVPNServerGetResourceData listToStringSlice cidrOneBased vpn
        = Except.ok req →
      c.UpdateNetwork c.site { req with ID := vpn.id, SiteID := c.site }
        = Except.error (ClientError.other msg) →
      (resourceVPNServerUpdate listToStringSlice cidrOneBased cidrZeroBased c vpn).err
        = some (Failure.error msg) ∧
      (resourceVPNServerUpdate listToStringSlice cidrOneBased cidrZeroBased c vpn).d = vpn) ∧
    (∀ req, resourceRadiusUserGetResourceData user = Except.ok req →
      c.CreateAccount c.site req = Except.error (ClientError.other msg) →
      (resourceRadiusUserCreate c user).err = some (Failure.error msg) ∧
      (resourceRadiusUserCreate c user).d = user) ∧
    (∀ req, resourceRadiusUserGetResourceData user = Except.ok req →
      c.UpdateAccount c.site { req with ID := user.id, SiteID := c.site }
        = Except.error (ClientError.other msg) →
      (resourceRadiusUserUpdate c user).err = some (Failure.error msg) ∧
      (resourceRadiusUserUpdate c user).d = user) ∧
    (∀ req, resourceRadiusServerGetResourceData server = Except.ok req →
      c.UpdateSettingRadius c.site { req with ID := server.id, SiteID := c.site }
        = Except.error (ClientError.other msg) →
      (resourceRadiusServerCreate c server).err = some (Failure.error msg) ∧
      (resourceRadiusServerCreate c server).d = server) ∧
    (∀ req, resourceRadiusServerGetResourceData server = Except.ok req →
      c.UpdateSettingRadius c.site { req with ID := server.id, SiteID := c.site }
        = Except.error (ClientError.other msg) →
      (resourceRadiusServerUpdate c server).err = some (Failure.error msg) ∧
      (resourceRadiusServerUpdate c server).d = server) ∧
    (∀ req, resourceDeviceGetResourceData dev = Except.ok req →
      c.UpdateDevice (if dev.site = "" then c.site else dev.site)
          { req with ID := dev.id, SiteID := if dev.site = "" then c.site else dev.site }
        = Except.error (ClientError.other msg) →
      (resourceDeviceUpdate c dev).err = some (Failure.error msg) ∧
      (resourceDeviceUpdate c dev).d = dev) ∧
    (∀ req, resourceRadiusServerGetResourceData { server with enabled := false }
        = Except.ok req →
      c.UpdateSettingRadius c.site { req with ID := server.id, SiteID := c.site }
        = Except.error (ClientError.other msg) →
      (resourceRadiusServerDelete c server).err = some (Failure.error msg) ∧
      (resourceRadiusServerDelete c server).d = { server with enabled := false }) := by
  refine ⟨?_, ?_, ?_, ?_, ?_, ?_, ?_, ?_⟩
  · intro req h1 h2
    simp [resourceVPNServerCreate, h1, h2, ClientError.toFailure, ClientError.text]
  · intro req h1 h2
    simp [resourceVPNServerUpdate, h1, h2, ClientError.toFailure, ClientError.text]
  · intro req h1 h2
    simp [resourceRadiusUserCreate, h1, h2, ClientError.toFailure, ClientError.text]
  · intro req h1 h2
    simp [resourceRadiusUserUpdate, h1, h2, ClientError.toFailure, ClientError.text]
  · intro req h1 h2
    simp [resourceRadiusServerCreate, h1, h2, ClientError.toFailure, ClientError.text]
  · intro req h1 h2
    simp [resourceRadiusServerUpdate, h1, h2, ClientError.toFailure, ClientError.text]
  · intro req h1 h2
    simp [resourceDeviceUpdate, h1, h2, ClientError.toFailure, ClientError.text]
  · intro req h1 h2
    simp [resourceRadiusServerDelete, resourceRadiusServerUpdate, h1, h2,
      ClientError.toFailure, ClientError.text]

/-! ## Adopting and importing a device -/

theorem find?_first {α : Type} (p : α → Bool) (pre : List α) (a : α) (post : List α)
    (hpre : ∀ x ∈ pre, p x = false) (ha : p a = true) :
    (pre ++ a :: post).find? p = some a := by
  induction pre with
  | nil => simp [List.find?, ha]
  | cons y ys ih =>
    have hy : p y = false := hpre y (List.mem_cons_self _ _)
    simp only [List.cons_append, List.find?, hy]
    exact ih (fun x hx => hpre x (List.mem_cons_of_mem _ hx))

theorem find?_absent {α : Type} (p : α → Bool) (l : List α)
    (h : ∀ x ∈ l, p x = false) : l.find? p = none := by
  induction l with
  | nil => rfl
  | cons y ys ih =>
    have hy : p y = false := h y (List.mem_cons_self _ _)
    simp only [List.find?, hy]
    exact ih (fun x hx => h x (List.mem_cons_of_mem _ hx))

theorem resourceDeviceSetResourceData_id (resp : Device) (d : DeviceData) (site : String) :
    (resourceDeviceSetResourceData resp d site).1.id = d.id := by
  unfold resourceDeviceSetResourceData
  split_ifs with hc
  · rcases hA : Atoi resp.StpPriority with ⟨val, e⟩
    cases e with
    | none =>
      simp only
      exact (deviceSetCollections_keeps resp _).2.2.2
    | some err => rfl
  · exact (deviceSetCollections_keeps resp _).2.2.2

/-- C15: `resourceDeviceCreate` rejects a record with an empty `mac` with an
error, makes no controller call and leaves the record, ID included, as it
was. For a non-empty `mac` and a device list the controller returns, the ID
becomes that of the first listed device whose cleaned MAC is the cleaned
`mac`; when no listed device matches, the error is `device not found using
mac` followed by the quoted cleaned `mac`, and the record is as it was. -/
theorem resourceDeviceCreate_binds_by_mac (cleanMAC : String → String) (c : Client)
    (d : DeviceData) :
    (d.mac = "" →
      (resourceDeviceCreate cleanMAC c d).err = some (Failure.error
        "no MAC address specified, please import the device using terraform import") ∧
      (resourceDeviceCreate cleanMAC c d).calls = [] ∧
      (resourceDeviceCreate cleanMAC c d).d = d) ∧
    (d.mac ≠ "" → ∀ devices : List Device,
      c.ListDevice (if d.site = "" then c.site else d.site) = Except.ok devices →
      (∀ (pre : List Device) (found : Device) (post : List Device),
        devices = pre ++ found :: post →
        cleanMAC found.MAC = cleanMAC d.mac →
        (∀ x ∈ pre, cleanMAC x.MAC ≠ cleanMAC d.mac) →
        (resourceDeviceCreate cleanMAC c d).d.id = found.ID) ∧
      ((∀ x ∈ devices, cleanMAC x.MAC ≠ cleanMAC d.mac) →
        (resourceDeviceCreate cleanMAC c d).err = some (Failure.error
          ("device not found using mac " ++ goQuote (cleanMAC d.mac))) ∧
        (resourceDeviceCreate cleanMAC c d).d = d)) := by
  constructor
  · intro h
    simp [resourceDeviceCreate, h]
  · intro hmac devices hlist
    constructor
    · intro pre found post hdev hmatch hfirst
      have hfind : devices.find? (fun dev => decide (cleanMAC dev.MAC = cleanMAC d.mac))
          = some found := by
        rw [hdev]
        apply find?_first
        · intro x hx
          simpa using hfirst x hx
        · simpa using hmatch
      simp only [resourceDeviceCreate, hmac, if_false, hlist, hfind]
      rw [resourceDeviceSetResourceData_id]
    · intro hnone
      have hfind : devices.find? (fun dev => decide (cleanMAC dev.MAC = cleanMAC d.mac))
          = none := by
        apply find?_absent
        intro x hx
        simpa using hnone x hx
      simp [resourceDeviceCreate, hmac, hlist, hfind]

/-- C15, on a record whose `mac` is `aa-bb-cc-dd-ee-ff` in site `site1`: the
ID becomes that of the second listed device. -/
theorem resourceDeviceCreate_binds_by_mac_witness :
    (resourceDeviceCreate sampleCleanMAC deviceListClient
      (sampleDeviceData "" "site1" "aa-bb-cc-dd-ee-ff")).d.id = "5e9f01" :=
  ((resourceDeviceCreate_binds_by_mac sampleCleanMAC deviceListClient
      (sampleDeviceData "" "site1" "aa-bb-cc-dd-ee-ff")).2 (by decide) _ rfl).1
    [sampleDevice "5e9f00" "00:11:22:33:44:55"] (sampleDevice "5e9f01" "AA:BB:CC:DD:EE:FF") []
    rfl (by decide) (by decide)

theorem splitAtFirstColon_append (pre post : List Char) (h : ':' ∉ pre) :
    splitAtFirstColon (pre ++ ':' :: post) = (pre, post) := by
  induction pre with
  | nil => simp [splitAtFirstColon]
  | cons ch rest ih =>
    have hch : ch ≠ ':' := by
      intro he
      exact h (by rw [he]; exact List.mem_cons_self _ _)
    have hrest : ':' ∉ rest := fun hm => h (List.mem_cons_of_mem _ hm)
    simp only [List.cons_append, splitAtFirstColon, hch, if_false]
    show (ch :: (splitAtFirstColon (rest ++ ':' :: post)).1,
      (splitAtFirstColon (rest ++ ':' :: post)).2) = (ch :: rest, post)
    rw [ih hrest]

/-- What `resourceDeviceImport` does once the site and the identifier it
works with are known, the identifier is a MAC address and the controller
returns the device list of the site. -/
theorem resourceDeviceImport_lookup (macAddressRegexp : String → Bool)
    (cleanMAC : String → String) (c : Client) (d : DeviceData)
    (sitePart idPart : String) (devices : List Device)
    (hsplit : (countColons d.id = 1 ∨ countColons d.id = 6) →
      d.id = sitePart ++ ":" ++ idPart ∧ ':' ∉ sitePart.data)
    (hwhole : ¬ (countColons d.id = 1 ∨ countColons d.id = 6) →
      idPart = d.id ∧ sitePart = (if d.site = "" then c.site else d.site))
    (hmac : macAddressRegexp idPart = true)
    (hlist : c.ListDevice sitePart = Except.ok devices) :
    resourceDeviceImport macAddressRegexp cleanMAC c d =
      { d := deviceImportFinish d
          (match devices.find? (fun dev => decide (cleanMAC dev.MAC = cleanMAC idPart)) with
            | some dev => dev.ID
            | none => idPart) sitePart,
        err := none,
        calls := [ClientCall.ListDevice sitePart] } := by
  by_cases hc : countColons d.id = 1 ∨ countColons d.id = 6
  · obtain ⟨hid, hno⟩ := hsplit hc
    have hdata : d.id.data = sitePart.data ++ ':' :: idPart.data := by
      rw [hid]
      simp [String.data_append]
    have hsp := splitAtFirstColon_append sitePart.data idPart.data hno
    rw [← hdata] at hsp
    unfold resourceDeviceImport
    simp only [hc, if_true, hsp, hmac, hlist, if_true]
  · obtain ⟨hid, hsite⟩ := hwhole hc
    subst hid
    unfold resourceDeviceImport
    simp only [hc, if_false, ← hsite, hmac, hlist, if_true]

/-- C14 as stated fails: the first listed device with the MAC of the
identifier has an empty ID, and the imported ID is the identifier itself,
not the ID of that device. -/
theorem resourceDeviceImport_counterexample :
    sampleMacAddressRegexp "aa:bb:cc:dd:ee:ff" = true ∧
    sampleCleanMAC (sampleDevice "" "aa:bb:cc:dd:ee:ff").MAC
      = sampleCleanMAC "aa:bb:cc:dd:ee:ff" ∧
    (resourceDeviceImport sampleMacAddressRegexp sampleCleanMAC
        { offlineClient (ClientError.other "unreachable") with
          ListDevice := fun _ => Except.ok [sampleDevice "" "aa:bb:cc:dd:ee:ff"] }
        (sampleDeviceData "aa:bb:cc:dd:ee:ff" "" "")).d.id = "aa:bb:cc:dd:ee:ff" ∧
    (sampleDevice "" "aa:bb:cc:dd:ee:ff").ID ≠ "aa:bb:cc:dd:ee:ff" := by
  decide

/-- C14, amended: an identifier with exactly one or exactly six colons is
split at its first colon into a site and an identifier; any other identifier
is kept whole and the configured, else the provider's, site is used. When the
resulting identifier is a MAC address and the device list of that site has a
device whose cleaned MAC is the cleaned identifier, the import succeeds with
one listing call; the imported ID is the ID of the first such device when that
ID is not empty, and stays the ID the record had when it is empty; the site
attribute is that site when the site is not empty, and stays as it was when
it is empty. -/
theorem resourceDeviceImport_resolves (macAddressRegexp : String → Bool)
    (cleanMAC : String → String) (c : Client) (d : DeviceData)
    (sitePart idPart : String) (pre : List Device) (dev : Device) (post : List Device)
    (hsplit : (countColons d.id = 1 ∨ countColons d.id = 6) →
      d.id = sitePart ++ ":" ++ idPart ∧ ':' ∉ sitePart.data)
    (hwhole : ¬ (countColons d.id = 1 ∨ countColons d.id = 6) →
      idPart = d.id ∧ sitePart = (if d.site = "" then c.site else d.site))
    (hmac : macAddressRegexp idPart = true)
    (hlist : c.ListDevice sitePart = Except.ok (pre ++ dev :: post))
    (hmatch : cleanMAC dev.MAC = cleanMAC idPart)
    (hfirst : ∀ x ∈ pre, cleanMAC x.MAC ≠ cleanMAC idPart) :
    (resourceDeviceImport macAddressRegexp cleanMAC c d).err = none ∧
    (resourceDeviceImport macAddressRegexp cleanMAC c d).calls
      = [ClientCall.ListDevice sitePart] ∧
    (dev.ID ≠ "" → (resourceDeviceImport macAddressRegexp cleanMAC c d).d.id = dev.ID) ∧
    (dev.ID = "" → (resourceDeviceImport macAddressRegexp cleanMAC c d).d.id = d.id) ∧
    (sitePart ≠ "" →
      (resourceDeviceImport macAddressRegexp cleanMAC c d).d.site = sitePart) ∧
    (sitePart = "" →
      (resourceDeviceImport macAddressRegexp cleanMAC c d).d.site = d.site) := by
  have hfind : (pre ++ dev :: post).find?
      (fun x => decide (cleanMAC x.MAC = cleanMAC idPart)) = some dev := by
    apply find?_first
    · intro x hx
      simpa using hfirst x hx
    · simpa using hmatch
  rw [resourceDeviceImport_lookup macAddressRegexp cleanMAC c d sitePart idPart _ hsplit
    hwhole hmac hlist, hfind]
  refine ⟨rfl, rfl, ?_, ?_, ?_, ?_⟩
  · intro h
    by_cases hs : sitePart = ""
    · simp [deviceImportFinish, h, hs]
    · simp [deviceImportFinish, h, hs]
  · intro h
    by_cases hs : sitePart = ""
    · simp [deviceImportFinish, h, hs]
    · simp [deviceImportFinish, h, hs]
  · intro hs
    by_cases h : dev.ID = ""
    · simp [deviceImportFinish, h, hs]
    · simp [deviceImportFinish, h, hs]
  · intro hs
    by_cases h : dev.ID = ""
    · simp [deviceImportFinish, h, hs]
    · simp [deviceImportFinish, h, hs]

/-- C14 amended, on the identifier `site1:aa:bb:cc:dd:ee:ff`: the import
resolves to the device of site `site1` whose cleaned MAC is `aabbccddeeff`. -/
theorem resourceDeviceImport_resolves_witness :
    sampleCleanMAC "aa:bb:cc:dd:ee:ff" = "aabbccddeeff" ∧
    (resourceDeviceImport sampleMacAddressRegexp sampleCleanMAC deviceListClient
      (sampleDeviceData "site1:aa:bb:cc:dd:ee:ff" "" "")).d.id = "5e9f01" ∧
    (resourceDeviceImport sampleMacAddressRegexp sampleCleanMAC deviceListClient
      (sampleDeviceData "site1:aa:bb:cc:dd:ee:ff" "" "")).d.site = "site1" :=
  have h := resourceDeviceImport_resolves sampleMacAddressRegexp sampleCleanMAC
    deviceListClient (sampleDeviceData "site1:aa:bb:cc:dd:ee:ff" "" "")
    "site1" "aa:bb:cc:dd:ee:ff"
    [sampleDevice "5e9f00" "00:11:22:33:44:55"] (sampleDevice "5e9f01" "AA:BB:CC:DD:EE:FF") []
    (fun _ => ⟨by decide, by decide⟩) (fun hn => absurd (Or.inr (by decide)) hn)
    (by decide) rfl (by decide) (by decide)
  ⟨by decide, h.2.2.1 (by decide), h.2.2.2.2.1 (by decide)⟩

/-! ## Order of the input blocks -/

/-- With pairwise distinct keys in the input, the values of the map are
exactly the values decoded from the items. -/
theorem collect_members {κ ν ι : Type} [DecidableEq κ] (decode : Item → Except Failure ν)
    (key : ν → κ) (ik : Item → ι) (items : List Item) (m : List (κ × ν)) (result : List ν)
    (hk : ∀ item1 item2 v1 v2, decode item1 = Except.ok v1 → decode item2 = Except.ok v2 →
      key v1 = key v2 → ik item1 = ik item2)
    (hdist : (items.map ik).Nodup)
    (h : collect decode key items [] = Except.ok m) (hr : RangesOver m result) :
    result.Nodup ∧ ∀ x, x ∈ result ↔ ∃ item ∈ items, decode item = Except.ok x := by
  obtain ⟨c1, c2, c3⟩ := collect_spec decode key items m result h hr
  refine ⟨List.Nodup.of_map key c1, ?_⟩
  intro x
  constructor
  · intro hx
    obtain ⟨pre, item, post, h1, h2, _⟩ := c3 x hx
    refine ⟨item, ?_, h2⟩
    rw [h1]
    exact List.mem_append_right _ (List.mem_cons_self _ _)
  · rintro ⟨item, hi, hd⟩
    obtain ⟨v, hv, hkv⟩ := c2 item hi x hd
    obtain ⟨pre, item2, post, h1, h2, _⟩ := c3 v hv
    have hi2 : item2 ∈ items := by
      rw [h1]
      exact List.mem_append_right _ (List.mem_cons_self _ _)
    have hik : ik item2 = ik item := hk item2 item v x h2 hd hkv
    have hitem : item2 = item := List.inj_on_of_nodup_map hdist hi2 hi hik
    rw [hitem, hd] at h2
    simp only [Except.ok.injEq] at h2
    rw [h2]
    exact hv

theorem collect_succeeds_iff {κ ν : Type} [DecidableEq κ] (decode : Item → Except Failure ν)
    (key : ν → κ) (items : List Item) :
    (∃ m, collect decode key items [] = Except.ok m) ↔
      ∀ item ∈ items, ∃ v, decode item = Except.ok v := by
  constructor
  · rintro ⟨m, hm⟩
    exact collect_decodes decode key items [] m hm
  · intro h
    exact collect_succeeds decode key items [] h

/-- Two inputs that are reorderings of each other, with pairwise distinct
keys, give the same collection of values. -/
theorem collect_perm {κ ν ι : Type} [DecidableEq κ] (decode : Item → Except Failure ν)
    (key : ν → κ) (ik : Item → ι) (items1 items2 : List Item)
    (hk : ∀ item1 item2 v1 v2, decode item1 = Except.ok v1 → decode item2 = Except.ok v2 →
      key v1 = key v2 → ik item1 = ik item2)
    (hperm : List.Perm items1 items2) (hdist : (items1.map ik).Nodup) :
    ((∃ m, collect decode key items1 [] = Except.ok m) ↔
      (∃ m, collect decode key items2 [] = Except.ok m)) ∧
    ∀ m1 m2 r1 r2, collect decode key items1 [] = Except.ok m1 → RangesOver m1 r1 →
      collect decode key items2 [] = Except.ok m2 → RangesOver m2 r2 →
      List.Perm r1 r2 := by
  constructor
  · rw [collect_succeeds_iff, collect_succeeds_iff]
    constructor
    · intro h item hi
      exact h item (hperm.mem_iff.mpr hi)
    · intro h item hi
      exact h item (hperm.mem_iff.mp hi)
  · intro m1 m2 r1 r2 h1 hr1 h2 hr2
    have hdist2 : (items2.map ik).Nodup := (hperm.map ik).nodup_iff.mp hdist
    obtain ⟨n1, e1⟩ := collect_members decode key ik items1 m1 r1 hk hdist h1 hr1
    obtain ⟨n2, e2⟩ := collect_members decode key ik items2 m2 r2 hk hdist2 h2 hr2
    rw [List.perm_ext_iff_of_nodup n1 n2]
    intro x
    rw [e1, e2]
    constructor
    · rintro ⟨item, hi, hd⟩
      exact ⟨item, hperm.mem_iff.mp hi, hd⟩
    · rintro ⟨item, hi, hd⟩
      exact ⟨item, hperm.mem_iff.mpr hi, hd⟩

theorem decodePortItem_key (item1 item2 : Item) (v1 v2 : DevicePortOverrides)
    (h1 : decodePortItem item1 = Except.ok v1) (h2 : decodePortItem item2 = Except.ok v2)
    (hk : v1.PortIDX = v2.PortIDX) : itemKey "number" item1 = itemKey "number" item2 := by
  obtain ⟨d1, hd1, ht1⟩ := decodePortItem_eq_ok item1 v1 h1
  obtain ⟨d2, hd2, ht2⟩ := decodePortItem_eq_ok item2 v2 h2
  subst hd1
  subst hd2
  simp only [itemKey]
  rw [toPortOverride_number d1 v1 ht1, toPortOverride_number d2 v2 ht2, hk]

theorem decodeEthernetItem_key (item1 item2 : Item) (v1 v2 : DeviceEthernetOverrides)
    (h1 : decodeEthernetItem item1 = Except.ok v1)
    (h2 : decodeEthernetItem item2 = Except.ok v2)
    (hk : v1.Ifname = v2.Ifname) : itemKey "interface" item1 = itemKey "interface" item2 := by
  obtain ⟨d1, hd1, ht1⟩ := decodeEthernetItem_eq_ok item1 v1 h1
  obtain ⟨d2, hd2, ht2⟩ := decodeEthernetItem_eq_ok item2 v2 h2
  subst hd1
  subst hd2
  simp only [itemKey]
  rw [((toEthernetOverride_eq_ok d1 v1).mp ht1).1, ((toEthernetOverride_eq_ok d2 v2).mp ht2).1,
    hk]

/-- C18: for two lists of blocks that are reorderings of each other,
`setToPortOverrides` (with pairwise distinct `number`s) and
`setToEthernetOverrides` (with pairwise distinct `interface`s) succeed on
both or on neither, and any two lists they may return hold the same entries:
one is a reordering of the other, so they have the same length and the same
members. -/
theorem setTo_overrides_order_insensitive (items1 items2 : List Item)
    (hperm : List.Perm items1 items2) :
    ((items1.map (itemKey "number")).Nodup →
      ((∃ r1, setToPortOverridesReturns items1 r1) ↔
        (∃ r2, setToPortOverridesReturns items2 r2)) ∧
      ∀ r1 r2, setToPortOverridesReturns items1 r1 → setToPortOverridesReturns items2 r2 →
        List.Perm r1 r2 ∧ r1.length = r2.length ∧ ∀ x, x ∈ r1 ↔ x ∈ r2) ∧
    ((items1.map (itemKey "interface")).Nodup →
      ((∃ r1, setToEthernetOverridesReturns items1 r1) ↔
        (∃ r2, setToEthernetOverridesReturns items2 r2)) ∧
      ∀ r1 r2, setToEthernetOverridesReturns items1 r1 →
        setToEthernetOverridesReturns items2 r2 →
        List.Perm r1 r2 ∧ r1.length = r2.length ∧ ∀ x, x ∈ r1 ↔ x ∈ r2) := by
  constructor
  · intro hdist
    obtain ⟨hs, hp⟩ := collect_perm decodePortItem DevicePortOverrides.PortIDX
      (itemKey "number") items1 items2 decodePortItem_key hperm hdist
    simp only [← portOverrideMap_eq_collect] at hs hp
    constructor
    · constructor
      · rintro ⟨r1, m1, hm1, _⟩
        obtain ⟨m2, hm2⟩ := hs.mp ⟨m1, hm1⟩
        exact ⟨m2.map Prod.snd, m2, hm2, List.Perm.refl _⟩
      · rintro ⟨r2, m2, hm2, _⟩
        obtain ⟨m1, hm1⟩ := hs.mpr ⟨m2, hm2⟩
        exact ⟨m1.map Prod.snd, m1, hm1, List.Perm.refl _⟩
    · rintro r1 r2 ⟨m1, hm1, hr1⟩ ⟨m2, hm2, hr2⟩
      have hpp := hp m1 m2 r1 r2 hm1 hr1 hm2 hr2
      exact ⟨hpp, hpp.length_eq, fun x => hpp.mem_iff⟩
  · intro hdist
    obtain ⟨hs, hp⟩ := collect_perm decodeEthernetItem DeviceEthernetOverrides.Ifname
      (itemKey "interface") items1 items2 decodeEthernetItem_key hperm hdist
    simp only [← ethernetOverrideMap_eq_collect] at hs hp
    constructor
    · constructor
      · rintro ⟨r1, m1, hm1, _⟩
        obtain ⟨m2, hm2⟩ := hs.mp ⟨m1, hm1⟩
        exact ⟨m2.map Prod.snd, m2, hm2, List.Perm.refl _⟩
      · rintro ⟨r2, m2, hm2, _⟩
        obtain ⟨m1, hm1⟩ := hs.mpr ⟨m2, hm2⟩
        exact ⟨m1.map Prod.snd, m1, hm1, List.Perm.refl _⟩
    · rintro r1 r2 ⟨m1, hm1, hr1⟩ ⟨m2, hm2, hr2⟩
      have hpp := hp m1 m2 r1 r2 hm1 hr1 hm2 hr2
      exact ⟨hpp, hpp.length_eq, fun x => hpp.mem_iff⟩

/-- C18, on two port blocks and the same blocks swapped. -/
theorem setTo_overrides_order_insensitive_witness :
    ∃ r1 r2, setToPortOverrides twoPorts = Except.ok r1 ∧
      setToPortOverrides twoPortsSwapped = Except.ok r2 ∧
      List.Perm r1 r2 ∧ r1.length = r2.length ∧ ∀ x, x ∈ r1 ↔ x ∈ r2 :=
  ⟨[{ PortIDX := 1, Name := "uplink", PortProfileID := "", PoeMode := "", OpMode := "",
      FullDuplex := false, Autoneg := true, Speed := 0 },
    { PortIDX := 2, Name := "camera", PortProfileID := "", PoeMode := "", OpMode := "",
      FullDuplex := true, Autoneg := false, Speed := 100 }],
   [{ PortIDX := 2, Name := "camera", PortProfileID := "", PoeMode := "", OpMode := "",
      FullDuplex := true, Autoneg := false, Speed := 100 },
    { PortIDX := 1, Name := "uplink", PortProfileID := "", PoeMode := "", OpMode := "",
      FullDuplex := false, Autoneg := true, Speed := 0 }],
   by decide, by decide,
   ((setTo_overrides_order_insensitive twoPorts twoPortsSwapped
      (List.Perm.swap _ _ [])).1 (by decide)).2 _ _
      (setToPortOverrides_returns twoPorts _ (by decide))
      (setToPortOverrides_returns twoPortsSwapped _ (by decide))⟩

/-! ## Looking a port profile up by name -/

/-- C16: `dataPortProfileRead` takes `"All"` for an empty name and the
provider's site for an empty site. On the list of profiles the controller
returns, it hands the first profile with that name, and the record with the
ID set to that profile's ID and the site set, to
`resourcePortProfileSetResourceData`, whose record and error are the result;
when no profile has the name it returns the error `port profile not found
with name` followed by the name and leaves the record as it was. With a
helper that returns no error, that error is returned exactly when no profile
has the name; with a helper that keeps the ID, the ID of the result is the
ID of the selected profile. -/
theorem dataPortProfileRead_by_name
    (resourcePortProfileSetResourceData :
      PortProfile → PortProfileData → String → PortProfileData × Option Failure)
    (c : Client) (d : PortProfileData) (groups : List PortProfile)
    (hlist : c.ListPortProfile (if d.site = "" then c.site else d.site) = Except.ok groups) :
    (∀ (pre : List PortProfile) (g : PortProfile) (post : List PortProfile),
      groups = pre ++ g :: post →
      g.Name = (if d.name = "" then "All" else d.name) →
      (∀ x ∈ pre, x.Name ≠ (if d.name = "" then "All" else d.name)) →
      (dataPortProfileRead resourcePortProfileSetResourceData c d).d =
        (resourcePortProfileSetResourceData g
          { d with id := g.ID, site := if d.site = "" then c.site else d.site }
          (if d.site = "" then c.site else d.site)).1 ∧
      (dataPortProfileRead resourcePortProfileSetResourceData c d).err =
        (resourcePortProfileSetResourceData g
          { d with id := g.ID, site := if d.site = "" then c.site else d.site }
          (if d.site = "" then c.site else d.site)).2 ∧
      ((∀ g0 d0 s, (resourcePortProfileSetResourceData g0 d0 s).1.id = d0.id) →
        (dataPortProfileRead resourcePortProfileSetResourceData c d).d.id = g.ID)) ∧
    ((∀ x ∈ groups, x.Name ≠ (if d.name = "" then "All" else d.name)) →
      (dataPortProfileRead resourcePortProfileSetResourceData c d).err =
        some (Failure.error ("port profile not found with name " ++
          (if d.name = "" then "All" else d.name))) ∧
      (dataPortProfileRead resourcePortProfileSetResourceData c d).d = d) ∧
    ((∀ g0 d0 s, (resourcePortProfileSetResourceData g0 d0 s).2 = none) →
      ((dataPortProfileRead resourcePortProfileSetResourceData c d).err =
          some (Failure.error ("port profile not found with name " ++
            (if d.name = "" then "All" else d.name))) ↔
        ∀ x ∈ groups, x.Name ≠ (if d.name = "" then "All" else d.name))) := by
  have hnone : (∀ x ∈ groups, x.Name ≠ (if d.name = "" then "All" else d.name)) →
      (dataPortProfileRead resourcePortProfileSetResourceData c d).err =
        some (Failure.error ("port profile not found with name " ++
          (if d.name = "" then "All" else d.name))) ∧
      (dataPortProfileRead resourcePortProfileSetResourceData c d).d = d := by
    intro hall
    have hfind : groups.find?
        (fun g => decide (g.Name = (if d.name = "" then "All" else d.name))) = none := by
      apply find?_absent
      intro x hx
      simpa using hall x hx
    simp [dataPortProfileRead, hlist, hfind]
  refine ⟨?_, hnone, ?_⟩
  · intro pre g post hg hname hfirst
    have hfind : groups.find?
        (fun g => decide (g.Name = (if d.name = "" then "All" else d.name))) = some g := by
      rw [hg]
      apply find?_first
      · intro x hx
        simpa using hfirst x hx
      · simpa using hname
    simp only [dataPortProfileRead, hlist, hfind, true_and]
    intro hid
    rw [hid]
  · intro hok
    constructor
    · intro herr
      cases hfind : groups.find?
          (fun g => decide (g.Name = (if d.name = "" then "All" else d.name))) with
      | none =>
        intro x hx
        have := List.find?_eq_none.mp hfind x hx
        simpa using this
      | some g =>
        simp only [dataPortProfileRead, hlist, hfind, hok] at herr
        exact absurd herr (by simp)
    · intro hall
      exact (hnone hall).1

/-- C16, on the default lookup of the acceptance tests: no name is given and
the profile `All` is selected. -/
theorem dataPortProfileRead_by_name_witness :
    (dataPortProfileRead samplePortProfileSet portProfileClient
        { id := "", site := "", name := "", attrs := [] }).d
      = { id := "p-all", site := "default", name := "All",
          attrs := [("forward", Scalar.str "all")] } ∧
    (dataPortProfileRead samplePortProfileSet portProfileClient
        { id := "", site := "", name := "", attrs := [] }).err = none :=
  have h := (dataPortProfileRead_by_name samplePortProfileSet portProfileClient
    { id := "", site := "", name := "", attrs := [] } _ rfl).1 []
    { ID := "p-all", Name := "All", fields := [("forward", Scalar.str "all")] } _ rfl
    (by decide) (by decide)
  ⟨h.1.trans (by decide), h.2.1.trans (by decide)⟩

/-! ## Concrete runs of the lifecycle operations -/

/-- C13, on a RADIUS user the controller no longer has: the ID is cleared and
no error is returned. -/
theorem read_not_found_clears_id_witness :
    (resourceRadiusUserRead (offlineClient ClientError.notFound) sampleRadiusUser).err = none ∧
    (resourceRadiusUserRead (offlineClient ClientError.notFound) sampleRadiusUser).d
      = { sampleRadiusUser with id := "" } :=
  (read_not_found_clears_id (offlineClient ClientError.notFound) id
    (sampleDeviceData "" "" "") sampleVPN sampleRadiusUser sampleRadiusServer "").2.2.1.1 rfl

/-- C19 amended, on a RADIUS user whose creation the controller refuses: the
error is returned and the record is untouched. -/
theorem write_failure_keeps_record_witness :
    (resourceRadiusUserCreate (offlineClient (ClientError.other "timeout"))
      sampleRadiusUser).err = some (Failure.error "timeout") ∧
    (resourceRadiusUserCreate (offlineClient (ClientError.other "timeout"))
      sampleRadiusUser).d = sampleRadiusUser :=
  (write_failure_keeps_record (offlineClient (ClientError.other "timeout")) stringsOfList
    id id (sampleDeviceData "" "" "") sampleVPN sampleRadiusUser sampleRadiusServer
    "timeout").2.2.1 _ rfl rfl

/-! ## Reading a port override back -/

/-- C22: for every remote port override whose `Speed` is a Go `int`,
whatever its `Autoneg`, `Speed` and `FullDuplex`, `toPortOverride` accepts
the block `fromPortOverride` decodes, and decoding the result gives that
block again. -/
theorem portOverride_decode_fixed_point (po : DevicePortOverrides)
    (hspeed : IsInt64 po.Speed) :
    ∃ port po2, fromPortOverride po = Except.ok port ∧
      toPortOverride port = Except.ok po2 ∧
      fromPortOverride po2 = Except.ok port := by
  by_cases ha : po.Autoneg = true
  · have hfrom : fromPortOverride po
        = Except.ok (portAttrs po ++ [("link_speed", Scalar.str "auto")]) := by
      rw [fromPortOverride_eq]
      simp [ha]
    have hto := toPortOverride_eq (portAttrs po ++ [("link_speed", Scalar.str "auto")])
      po.PortIDX po.Name po.PortProfileID po.PoeMode po.OpMode none (some "auto")
      (by simp [portAttrs, Block.get]) (by simp [portAttrs, Block.get])
      (by simp [portAttrs, Block.get]) (by simp [portAttrs, Block.get])
      (by simp [portAttrs, Block.get]) (by simp [portAttrs, Block.get])
      (by simp [portAttrs, Block.get])
    simp only [if_neg (show ¬ ("auto" = "") by decide), if_true] at hto
    refine ⟨_, _, hfrom, hto, ?_⟩
    rw [fromPortOverride_eq]
    simp [portBase, portAttrs]
  · by_cases hs : po.Speed = 0
    · have hfrom : fromPortOverride po = Except.ok (portAttrs po) := by
        rw [fromPortOverride_eq]
        simp [ha, hs]
      have hto := toPortOverride_eq (portAttrs po)
        po.PortIDX po.Name po.PortProfileID po.PoeMode po.OpMode none none
        (by simp [portAttrs, Block.get]) (by simp [portAttrs, Block.get])
        (by simp [portAttrs, Block.get]) (by simp [portAttrs, Block.get])
        (by simp [portAttrs, Block.get]) (by simp [portAttrs, Block.get])
        (by simp [portAttrs, Block.get])
      simp only at hto
      refine ⟨_, _, hfrom, hto, ?_⟩
      rw [fromPortOverride_eq]
      simp [portBase, portAttrs]
    · have hfrom : fromPortOverride po = Except.ok
          (portAttrs po ++ [("link_speed", Scalar.str (Itoa po.Speed)),
            ("duplex", Scalar.str (if po.FullDuplex = true then "full" else "half"))]) := by
        rw [fromPortOverride_eq]
        simp [ha, hs]
      have hto := toPortOverride_Itoa
        (portAttrs po ++ [("link_speed", Scalar.str (Itoa po.Speed)),
            ("duplex", Scalar.str (if po.FullDuplex = true then "full" else "half"))])
        po.PortIDX po.Speed po.Name po.PortProfileID po.PoeMode po.OpMode
        (some (if po.FullDuplex = true then "full" else "half")) hspeed
        (by simp [portAttrs, Block.get]) (by simp [portAttrs, Block.get])
        (by simp [portAttrs, Block.get]) (by simp [portAttrs, Block.get])
        (by simp [portAttrs, Block.get]) (by simp [portAttrs, Block.get])
        (by simp [portAttrs, Block.get])
      refine ⟨_, _, hfrom, hto, ?_⟩
      rw [fromPortOverride_eq]
      by_cases hf : po.FullDuplex = true
      · simp [portBase, portAttrs, hs, hf]
      · simp [portBase, portAttrs, hs, hf]

/-- C22, on a remote override with `Autoneg` set together with a negative
`Speed`: the decoded block keeps `link_speed = "auto"` and is read back
unchanged. -/
theorem portOverride_decode_fixed_point_witness :
    ∃ port po2,
      fromPortOverride
        { PortIDX := 4, Name := "wan", PortProfileID := "", PoeMode := "off",
          OpMode := "switch", FullDuplex := true, Autoneg := true, Speed := -10 }
        = Except.ok port ∧
      toPortOverride port = Except.ok po2 ∧
      fromPortOverride po2 = Except.ok port :=
  portOverride_decode_fixed_point _ (by decide)

/-! ## Network configuration -/

theorem asBool_eq_ok (x : Option Scalar) (b : Bool) :
    asBool x = Except.ok b ↔ x = some (Scalar.bool b) := by
  cases x with
  | none => simp [asBool]
  | some v => cases v <;> simp [asBool]

theorem isBoolAt_get (m : Block) (k : String) (h : isBoolAt m k = true) :
    ∃ b, m.get k = some (Scalar.bool b) := by
  unfold isBoolAt at h
  split at h
  · next b hb => exact ⟨b, hb⟩
  · exact absurd h (by decide)

theorem toNetworkConfig_eq_ok (cfg : Block) (net : DeviceConfigNetwork) :
    toNetworkConfig cfg = Except.ok net ↔
      cfg.get "ip" = some (Scalar.str net.IP) ∧
      cfg.get "dns1" = some (Scalar.str net.DNS1) ∧
      cfg.get "dns2" = some (Scalar.str net.DNS2) ∧
      cfg.get "dns_suffix" = some (Scalar.str net.DNSsuffix) ∧
      cfg.get "gateway" = some (Scalar.str net.Gateway) ∧
      cfg.get "netmask" = some (Scalar.str net.Netmask) ∧
      cfg.get "type" = some (Scalar.str net.Type_) ∧
      cfg.get "bonding_enabled" = some (Scalar.bool net.BondingEnabled) := by
  unfold toNetworkConfig
  simp only [bind_eq_ok, asString_eq_ok, asBool_eq_ok, pure, Except.pure, Except.ok.injEq]
  constructor
  · rintro ⟨a1, h1, a2, h2, a3, h3, a4, h4, a5, h5, a6, h6, a7, h7, a8, h8, hnet⟩
    subst hnet
    exact ⟨h1, h2, h3, h4, h5, h6, h7, h8⟩
  · rintro ⟨h1, h2, h3, h4, h5, h6, h7, h8⟩
    exact ⟨_, h1, _, h2, _, h3, _, h4, _, h5, _, h6, _, h7, _, h8, rfl⟩

/-- C21 as stated fails on the empty list: it encodes to the zero value of
the remote configuration, which decodes to a list of one block, not of
none. -/
theorem networkConfig_empty_counterexample :
    setToNetworkConfig [] = Except.ok
      { IP := "", DNS1 := "", DNS2 := "", DNSsuffix := "", Gateway := "", Netmask := "",
        Type_ := "", BondingEnabled := false } ∧
    setFromNetworkConfig
      { IP := "", DNS1 := "", DNS2 := "", DNSsuffix := "", Gateway := "", Netmask := "",
        Type_ := "", BondingEnabled := false }
      = Except.ok
        [Item.block
          [("ip", Scalar.str ""), ("dns1", Scalar.str ""), ("dns2", Scalar.str ""),
           ("dns_suffix", Scalar.str ""), ("gateway", Scalar.str ""),
           ("netmask", Scalar.str ""), ("type", Scalar.str ""),
           ("bonding_enabled", Scalar.bool false)]] ∧
    List.length
        [Item.block
          [("ip", Scalar.str ""), ("dns1", Scalar.str ""), ("dns2", Scalar.str ""),
           ("dns_suffix", Scalar.str ""), ("gateway", Scalar.str ""),
           ("netmask", Scalar.str ""), ("type", Scalar.str ""),
           ("bonding_enabled", Scalar.bool false)]]
      ≠ List.length ([] : List Item) := by
  decide

/-- C21, amended: for a `network_config` list holding one block,
`setToNetworkConfig` succeeds when the block is well formed, and whenever it
succeeds `setFromNetworkConfig` of its result is a list of one block with the
same `ip`, `dns1`, `dns2`, `dns_suffix`, `gateway`, `netmask`, `type` and
`bonding_enabled`; conversely `toNetworkConfig` of `fromNetworkConfig` of a
remote configuration is that configuration. -/
theorem networkConfig_roundtrip (cfg : Block) (remote : DeviceConfigNetwork) :
    (wellFormedNetworkConfig cfg = true →
      ∃ net, setToNetworkConfig [Item.block cfg] = Except.ok net) ∧
    (∀ net, setToNetworkConfig [Item.block cfg] = Except.ok net →
      ∃ decoded, setFromNetworkConfig net = Except.ok [Item.block decoded] ∧
        decoded.get "ip" = cfg.get "ip" ∧
        decoded.get "dns1" = cfg.get "dns1" ∧
        decoded.get "dns2" = cfg.get "dns2" ∧
        decoded.get "dns_suffix" = cfg.get "dns_suffix" ∧
        decoded.get "gateway" = cfg.get "gateway" ∧
        decoded.get "netmask" = cfg.get "netmask" ∧
        decoded.get "type" = cfg.get "type" ∧
        decoded.get "bonding_enabled" = cfg.get "bonding_enabled") ∧
    (∃ blk, fromNetworkConfig remote = Except.ok blk ∧
      toNetworkConfig blk = Except.ok remote) := by
  refine ⟨?_, ?_, ?_⟩
  · intro hwf
    simp only [wellFormedNetworkConfig, Bool.and_eq_true] at hwf
    obtain ⟨⟨⟨⟨⟨⟨⟨h1, h2⟩, h3⟩, h4⟩, h5⟩, h6⟩, h7⟩, h8⟩ := hwf
    obtain ⟨a1, g1⟩ := isStrAt_get _ _ h1
    obtain ⟨a2, g2⟩ := isStrAt_get _ _ h2
    obtain ⟨a3, g3⟩ := isStrAt_get _ _ h3
    obtain ⟨a4, g4⟩ := isStrAt_get _ _ h4
    obtain ⟨a5, g5⟩ := isStrAt_get _ _ h5
    obtain ⟨a6, g6⟩ := isStrAt_get _ _ h6
    obtain ⟨a7, g7⟩ := isStrAt_get _ _ h7
    obtain ⟨a8, g8⟩ := isBoolAt_get _ _ h8
    exact ⟨{ IP := a1, DNS1 := a2, DNS2 := a3, DNSsuffix := a4, Gateway := a5,
             Netmask := a6, Type_ := a7, BondingEnabled := a8 },
      (toNetworkConfig_eq_ok cfg _).mpr ⟨g1, g2, g3, g4, g5, g6, g7, g8⟩⟩
  · intro net hnet
    have hto : toNetworkConfig cfg = Except.ok net := hnet
    obtain ⟨g1, g2, g3, g4, g5, g6, g7, g8⟩ := (toNetworkConfig_eq_ok cfg net).mp hto
    refine ⟨_, rfl, ?_⟩
    rw [g1, g2, g3, g4, g5, g6, g7, g8]
    simp [Block.get]
  · refine ⟨_, rfl, ?_⟩
    rw [toNetworkConfig_eq_ok]
    simp [Block.get]

/-- C21 amended, on a static configuration: the block comes back with its
eight attributes. -/
theorem networkConfig_roundtrip_witness :
    ∃ net decoded, setToNetworkConfig [Item.block sampleNetworkConfig] = Except.ok net ∧
      setFromNetworkConfig net = Except.ok [Item.block decoded] ∧
      decoded.get "ip" = some (Scalar.str "192.168.1.20") ∧
      decoded.get "bonding_enabled" = some (Scalar.bool false) :=
  have h := networkConfig_roundtrip sampleNetworkConfig
    { IP := "", DNS1 := "", DNS2 := "", DNSsuffix := "", Gateway := "", Netmask := "",
      Type_ := "", BondingEnabled := false }
  match h.1 (by decide) with
  | ⟨net, hnet⟩ =>
    match h.2.1 net hnet with
    | ⟨decoded, hd, h1, _, _, _, _, _, _, h8⟩ =>
      ⟨net, decoded, hnet, hd, h1.trans (by decide), h8.trans (by decide)⟩

/-! ## Importing a MAC address no device has -/

/-- What `resourceDeviceImport` does once the site and the identifier it
works with are known. -/
theorem resourceDeviceImport_eq (macAddressRegexp : String → Bool)
    (cleanMAC : String → String) (c : Client) (d : DeviceData)
    (sitePart idPart : String)
    (hsplit : (countColons d.id = 1 ∨ countColons d.id = 6) →
      d.id = sitePart ++ ":" ++ idPart ∧ ':' ∉ sitePart.data)
    (hwhole : ¬ (countColons d.id = 1 ∨ countColons d.id = 6) →
      idPart = d.id ∧ sitePart = (if d.site = "" then c.site else d.site)) :
    resourceDeviceImport macAddressRegexp cleanMAC c d =
      if macAddressRegexp idPart = true then
        match c.ListDevice sitePart with
        | Except.error e =>
          { d := d, err := some (ClientError.toFailure e),
            calls := [ClientCall.ListDevice sitePart] }
        | Except.ok devices =>
          { d := deviceImportFinish d
              (match devices.find?
                  (fun dev => decide (cleanMAC dev.MAC = cleanMAC idPart)) with
                | some dev => dev.ID
                | none => idPart) sitePart,
            err := none,
            calls := [ClientCall.ListDevice sitePart] }
      else { d := deviceImportFinish d idPart sitePart, err := none, calls := [] } := by
  by_cases hc : countColons d.id = 1 ∨ countColons d.id = 6
  · obtain ⟨hid, hno⟩ := hsplit hc
    have hdata : d.id.data = sitePart.data ++ ':' :: idPart.data := by
      rw [hid]
      simp [String.data_append]
    have hsp := splitAtFirstColon_append sitePart.data idPart.data hno
    rw [← hdata] at hsp
    unfold resourceDeviceImport
    simp only [hc, if_true, hsp]
  · obtain ⟨hid, hsite⟩ := hwhole hc
    subst hid
    unfold resourceDeviceImport
    simp only [hc, if_false, ← hsite]

/-- C23: let the import work with the site `sitePart` and the identifier
`idPart` (the two sides of the first colon of an identifier with one or six
colons, else the configured or default site and the whole identifier), and
let the MAC pattern reject the empty text. When `idPart` is a MAC address
and the devices listed for the site include none with its cleaned MAC, then
the import succeeds and the imported ID is `idPart` itself. An error is
returned exactly when `idPart` is a MAC address and listing the devices
fails, and the error is the one of the listing. -/
theorem resourceDeviceImport_unmatched_mac (macAddressRegexp : String → Bool)
    (cleanMAC : String → String) (c : Client) (d : DeviceData)
    (sitePart idPart : String)
    (hsplit : (countColons d.id = 1 ∨ countColons d.id = 6) →
      d.id = sitePart ++ ":" ++ idPart ∧ ':' ∉ sitePart.data)
    (hwhole : ¬ (countColons d.id = 1 ∨ countColons d.id = 6) →
      idPart = d.id ∧ sitePart = (if d.site = "" then c.site else d.site))
    (hpattern : macAddressRegexp "" = false) :
    (∀ devices : List Device, macAddressRegexp idPart = true →
      c.ListDevice sitePart = Except.ok devices →
      (∀ x ∈ devices, cleanMAC x.MAC ≠ cleanMAC idPart) →
      (resourceDeviceImport macAddressRegexp cleanMAC c d).err = none ∧
      (resourceDeviceImport macAddressRegexp cleanMAC c d).d.id = idPart) ∧
    ((resourceDeviceImport macAddressRegexp cleanMAC c d).err ≠ none ↔
      (macAddressRegexp idPart = true ∧ ∃ e, c.ListDevice sitePart = Except.error e)) ∧
    (∀ e, macAddressRegexp idPart = true → c.ListDevice sitePart = Except.error e →
      (resourceDeviceImport macAddressRegexp cleanMAC c d).err
        = some (ClientError.toFailure e)) := by
  have heq := resourceDeviceImport_eq macAddressRegexp cleanMAC c d sitePart idPart
    hsplit hwhole
  refine ⟨?_, ?_, ?_⟩
  · intro devices hmac hlist hnone
    have hfind : devices.find? (fun dev => decide (cleanMAC dev.MAC = cleanMAC idPart))
        = none := by
      apply find?_absent
      intro x hx
      simpa using hnone x hx
    have hne : idPart ≠ "" := by
      intro he
      rw [he, hpattern] at hmac
      exact absurd hmac (by decide)
    rw [heq]
    simp only [hmac, if_true, hlist, hfind, true_and]
    by_cases hs : sitePart = ""
    · simp [deviceImportFinish, hne, hs]
    · simp [deviceImportFinish, hne, hs]
  · rw [heq]
    by_cases hmac : macAddressRegexp idPart = true
    · cases hlist : c.ListDevice sitePart with
      | error e => simp [hmac]
      | ok devices => simp [hmac]
    · simp [hmac]
  · intro e hmac hlist
    rw [heq]
    simp only [hmac, if_true, hlist]

/-- C23, on the identifier `site1:de:ad:be:ef:00:01`, a MAC address no device
of `site1` has: the import succeeds and the ID is the MAC address. -/
theorem resourceDeviceImport_unmatched_mac_witness :
    (resourceDeviceImport sampleMacAddressRegexp sampleCleanMAC deviceListClient
      (sampleDeviceData "site1:de:ad:be:ef:00:01" "" "")).err = none ∧
    (resourceDeviceImport sampleMacAddressRegexp sampleCleanMAC deviceListClient
      (sampleDeviceData "site1:de:ad:be:ef:00:01" "" "")).d.id = "de:ad:be:ef:00:01" :=
  (resourceDeviceImport_unmatched_mac sampleMacAddressRegexp sampleCleanMAC
    deviceListClient (sampleDeviceData "site1:de:ad:be:ef:00:01" "" "")
    "site1" "de:ad:be:ef:00:01"
    (fun _ => ⟨by decide, by decide⟩) (fun hn => absurd (Or.inr (by decide)) hn)
    (by decide)).1 _ (by decide) rfl (by decide)

end Unifi
